import Mathlib

/-!
# Interactive session hub of the Sliver web gateway (`web/server/ws/handler.go`)

A shallow embedding of the WebSocket hub: the per-connection `Client`, its
shell-session map, the message handlers and the read-pump of a shell tunnel.

Modelling conventions
* A task (handler, read-pump, hub step) is a function on the state it owns.
  Every interaction with something outside that state is appended, in program
  order, to the client's `trace`: Remote Bridge calls, writes to a tunnel
  stream, invocations of a cancellation handle, the spawning of a read-pump,
  and sends on the outbound queue (`c.send <- msg`).
* Answers of the Remote Bridge and of the JSON library are inputs: `SliverRPC`
  gives the answer to each request, `Json` the result of each (un)marshalling.
* Pointers that may be nil are `Option`s; cancellation handles, contexts and
  streams are identified by natural numbers (a cancellation handle is named by
  the context it cancels); `uint64` values are naturals.
* The outbound queue is a runtime object shared by several tasks, so its
  buffer and closed flag (`Chan`) are kept by the `Hub` model, next to the
  client objects. A send by a client task is the trace entry `chanSend`;
  `Chan.send` says what that send does to the queue it meets (enqueue at the
  tail, park the sender when 256 messages are pending, panic when closed).
* Go does not fix the iteration order of a map; the model iterates in list
  order and no statement below depends on that order.
* The writer task is run one loop iteration at a time (`writePumpIter`), and
  `Outbound.step` interleaves it with the sends and the close that other tasks
  perform on the same queue; the answers of the socket are an input.
-/

namespace Sliver

/-! ## Wire types -/

/-- Raw byte sequence (`[]byte`, `json.RawMessage`, or a Go `string` built from bytes). -/
abbrev Bytes := List Nat

/-- Type of `json.RawMessage`. -/
abbrev RawMessage := Bytes

def TypeShellInput : String := "shell_input"
def TypeShellOutput : String := "shell_output"
def TypeShellStart : String := "shell_start"
def TypeShellStop : String := "shell_stop"
def TypeFileUpload : String := "file_upload"
def TypeFileDownload : String := "file_download"
def TypeFileProgress : String := "file_progress"
def TypeEvent : String := "event"
def TypePing : String := "ping"
def TypePong : String := "pong"
def TypeError : String := "error"

/-- UTF-8 encoding of one code point. -/
def utf8EncodeNat (n : Nat) : Bytes :=
  if n < 0x80 then [n]
  else if n < 0x800 then [0xC0 + n / 64, 0x80 + n % 64]
  else if n < 0x10000 then [0xE0 + n / 4096, 0x80 + (n / 64) % 64, 0x80 + n % 64]
  else [0xF0 + n / 262144, 0x80 + (n / 4096) % 64, 0x80 + (n / 64) % 64, 0x80 + n % 64]

/-- Bytes of a Go string literal (Go source text is UTF-8). -/
def goString (s : String) : Bytes :=
  (s.toList.map (fun ch => utf8EncodeNat ch.toNat)).flatten

/-- Data of the closed notice, `"\r\n[Shell closed]\r\n"`. -/
def shellClosedData : Bytes := goString "\r\n[Shell closed]\r\n"

/-- WSMessage represents a WebSocket message. -/
structure WSMessage where
  MsgType : String
  Payload : RawMessage
deriving DecidableEq, Repr

/-- ShellStartPayload represents payload for starting a shell. -/
structure ShellStartPayload where
  SessionID : String
  Path : String
  Pty : Bool
deriving DecidableEq, Repr

/-- ShellInputPayload represents shell input. -/
structure ShellInputPayload where
  SessionID : String
  TunnelID : Nat
  Data : String
deriving DecidableEq, Repr

/-- ShellOutputPayload represents shell output; `Data` is a Go string, kept as its bytes. -/
structure ShellOutputPayload where
  SessionID : String
  TunnelID : Nat
  Data : Bytes
deriving DecidableEq, Repr

/-! ## Protobuf messages used by the shell handlers -/

/-- Fields of `sliverpb.Tunnel` set or read by the handlers. -/
structure Tunnel where
  TunnelID : Nat
  SessionID : String
deriving DecidableEq, Repr

/-- Fields of `commonpb.Request` set by the handlers. -/
structure Request where
  SessionID : String
  Timeout : Nat
deriving DecidableEq, Repr

/-- Fields of `sliverpb.ShellReq` set by `handleShellStart`. -/
structure ShellReq where
  Path : String
  EnablePTY : Bool
  TunnelID : Nat
  Request : Request
deriving DecidableEq, Repr

/-- Fields of `commonpb.Response` read by the handlers. -/
structure Response where
  Err : String
deriving DecidableEq, Repr

/-- Fields of `sliverpb.Shell` read by `handleShellStart`; `Response` may be nil. -/
structure Shell where
  Response : Option Response
deriving DecidableEq, Repr

/-- Fields of `sliverpb.TunnelData` set or read by the handlers. -/
structure TunnelData where
  TunnelID : Nat
  SessionID : String
  Data : Bytes
  Closed : Bool
deriving DecidableEq, Repr

/-- FileTransferPayload represents a file transfer request. -/
structure FileTransferPayload where
  SessionID : String
  Path : String
  IsDownload : Bool
  Data : Bytes
deriving DecidableEq, Repr

/-- Fields of `sliverpb.DownloadReq` set by `handleFileDownload`. -/
structure DownloadReq where
  Path : String
  Request : Request
deriving DecidableEq, Repr

/-- Fields of `sliverpb.Download` read by `handleFileDownload`. -/
structure Download where
  Response : Option Response
  Data : Bytes
deriving DecidableEq, Repr

/-- Fields of `sliverpb.UploadReq` set by `handleFileUpload`. -/
structure UploadReq where
  Path : String
  Data : Bytes
  Request : Request
deriving DecidableEq, Repr

/-- Fields of `sliverpb.Upload` read by `handleFileUpload`. -/
structure Upload where
  Response : Option Response
  Path : String
deriving DecidableEq, Repr

/-! ## Values handed to `json.Marshal` -/

/-- Values stored in a `map[string]interface{}` by this package. -/
inductive GoAny where
  | str (s : String)
  | int (n : Nat)
  | bytes (b : Bytes)
deriving DecidableEq, Repr

/-- Go values that `sendMessage` and `BroadcastEvent` marshal. -/
inductive GoValue where
  | stringMap (m : List (String × String))
  | shellOutput (p : ShellOutputPayload)
  | wsMessage (m : WSMessage)
  | anyMap (m : List (String × GoAny))
deriving DecidableEq, Repr

/-- Results of the `encoding/json` calls made by this package. -/
structure Json where
  marshal : GoValue → Bytes
  unmarshalWSMessage : Bytes → Option WSMessage
  unmarshalShellStart : RawMessage → Option ShellStartPayload
  unmarshalShellInput : RawMessage → Option ShellInputPayload
  unmarshalFileTransfer : RawMessage → Option FileTransferPayload

/-! ## Contexts, Remote Bridge, trace -/

/-- Contexts handed to the Remote Bridge. -/
inductive Context where
  | background
  | withCancel (id : Nat)
  | withTimeout (id : Nat) (seconds : Nat)
deriving DecidableEq, Repr

/-- ShellSession represents an active shell session. -/
structure ShellSession where
  SessionID : String
  TunnelID : Nat
  tunnelStream : Option Nat
  cancel : Option Nat
deriving DecidableEq, Repr

/-- Interactions of a client's tasks with the world outside the client state:
the Remote Bridge calls, `cancel()` of a context, `tunnelStream.Send`,
`go c.readTunnelData(session)`, `c.send <- msg`, `close(c.send)`, `log.Printf`,
`hub.unregister <- c` and `c.conn.Close()`. -/
inductive Event where
  | createTunnel (ctx : Context) (req : Tunnel)
  | shell (ctx : Context) (req : ShellReq)
  | tunnelData (ctx : Context)
  | closeTunnel (ctx : Context) (req : Tunnel)
  | cancel (ctx : Context)
  | streamSend (stream : Option Nat) (data : TunnelData)
  | goReadTunnelData (session : ShellSession)
  | chanSend (msg : Bytes)
  | chanClose
  | logPrintf (msg : String)
  | download (ctx : Context) (req : DownloadReq)
  | upload (ctx : Context) (req : UploadReq)
  | hubUnregister
  | connClose
deriving DecidableEq, Repr

/-- Answers of the Remote Bridge (`rpcpb.SliverRPCClient`) and of tunnel streams. -/
structure SliverRPC where
  CreateTunnel : Context → Tunnel → Except String Tunnel
  Shell : Context → ShellReq → Except String Shell
  streamSend : Option Nat → TunnelData → Option String
  TunnelData : Context → Except String Nat
  CloseTunnel : Context → Tunnel → Except String Tunnel
  Download : Context → DownloadReq → Except String Download
  Upload : Context → UploadReq → Except String Upload

/-- States of a gRPC connection (`connectivity.State`). -/
inductive ConnState where
  | Idle | Connecting | Ready | TransientFailure | Shutdown
deriving DecidableEq, Repr

/-- Text of `connectivity.State.String`. -/
def ConnState.String : ConnState → String
  | .Idle => "IDLE"
  | .Connecting => "CONNECTING"
  | .Ready => "READY"
  | .TransientFailure => "TRANSIENT_FAILURE"
  | .Shutdown => "SHUTDOWN"

/-- SliverClient wraps the gRPC connection; `Conn` may be nil. -/
structure SliverClient where
  Conn : Option ConnState
deriving DecidableEq, Repr

/-- IsConnected checks if the client is connected to the server (client.go:146-153);
the receiver may be nil. -/
def IsConnected (c : Option SliverClient) : Bool :=
  match c with
  | none => false
  | some sc =>
    match sc.Conn with
    | none => false
    | some state => state.String == "READY" || state.String == "IDLE"

/-! ## Outbound queue -/

/-- Capacity of the outbound queue, `make(chan []byte, 256)`. -/
def sendCap : Nat := 256

/-- Buffered channel of serialized messages. -/
structure Chan where
  buf : List Bytes
  closed : Bool
deriving DecidableEq, Repr

/-- Outcome of a blocking channel send for the sending task. -/
inductive SendResult where
  | enqueued (ch : Chan)
  | blocks
  | panics
deriving DecidableEq, Repr

/-- Blocking send `ch <- m`. -/
def Chan.send (ch : Chan) (m : Bytes) : SendResult :=
  if ch.closed then .panics
  else if ch.buf.length < sendCap then .enqueued { ch with buf := ch.buf ++ [m] }
  else .blocks

/-- The sends `ms` performed in order on `ch`: the queue after them, or how the sender
stops at the first send that cannot complete. -/
def Chan.deliver (ch : Chan) : List Bytes → SendResult
  | [] => .enqueued ch
  | m :: ms =>
    match ch.send m with
    | .enqueued ch2 => Chan.deliver ch2 ms
    | r => r

/-- Builtin `close(ch)`; `none` is the panic on closing a closed channel. -/
def Chan.close (ch : Chan) : Option Chan :=
  if ch.closed then none else some { ch with closed := true }

/-- Outcome of a channel receive `m, ok := <-ch` for the receiving task. -/
inductive RecvOutcome where
  | value (m : Bytes) (ch : Chan)
  | closed
  | blocks
deriving DecidableEq, Repr

/-- Receive `m, ok := <-ch`: the oldest pending message; on an empty queue `ok` is false
when the queue is closed and the receiver waits when it is open. -/
def Chan.recv (ch : Chan) : RecvOutcome :=
  match ch.buf with
  | m :: rest => .value m { ch with buf := rest }
  | [] => if ch.closed then .closed else .blocks

/-! ## Session map -/

/-- Map lookup `m[key]`. -/
def mapGet (m : List (String × ShellSession)) (key : String) : Option ShellSession :=
  match m with
  | [] => none
  | (k, v) :: rest => if k = key then some v else mapGet rest key

/-- Builtin `delete(m, key)`. -/
def mapDelete (m : List (String × ShellSession)) (key : String) : List (String × ShellSession) :=
  m.filter (fun kv => kv.1 ≠ key)

/-- Map assignment `m[key] = v`. -/
def mapSet (m : List (String × ShellSession)) (key : String) (v : ShellSession) :
    List (String × ShellSession) :=
  (key, v) :: mapDelete m key

/-! ## Client -/

/-- Client represents a WebSocket client. `nextCtx` numbers the contexts it creates. -/
structure Client where
  username : String
  rpcClient : Option SliverClient
  shellSessions : List (String × ShellSession)
  nextCtx : Nat
  trace : List Event
deriving DecidableEq, Repr

/-- Append one interaction to the trace. -/
def Client.emit (c : Client) (e : Event) : Client :=
  { c with trace := c.trace ++ [e] }

/-- Messages handed to the outbound queue by a run of trace entries, in order. -/
def sentOf (evs : List Event) : List Bytes :=
  evs.filterMap (fun e => match e with | .chanSend m => some m | _ => none)

/-- Requests of the `CloseTunnel` calls in a run of trace entries, in order. -/
def closeTunnelCalls (evs : List Event) : List Tunnel :=
  evs.filterMap (fun e => match e with | .closeTunnel _ req => some req | _ => none)

/-- Sessions whose read-pump was spawned in a run of trace entries, in order. -/
def spawnedSessions (evs : List Event) : List ShellSession :=
  evs.filterMap (fun e => match e with | .goReadTunnelData s => some s | _ => none)

/-- Contexts whose cancellation handle was invoked in a run of trace entries, in order. -/
def cancelledContexts (evs : List Event) : List Context :=
  evs.filterMap (fun e => match e with | .cancel ctx => some ctx | _ => none)

/-- Requests of the `Shell` calls in a run of trace entries, in order. -/
def shellCalls (evs : List Event) : List ShellReq :=
  evs.filterMap (fun e => match e with | .shell _ req => some req | _ => none)

/-- Writes on tunnel streams in a run of trace entries, in order. -/
def streamWrites (evs : List Event) : List (Option Nat × TunnelData) :=
  evs.filterMap (fun e => match e with | .streamSend s d => some (s, d) | _ => none)

/-- Whether a trace entry is a call to the Remote Bridge. -/
def Event.isRpc : Event → Bool
  | .createTunnel _ _ => true
  | .shell _ _ => true
  | .tunnelData _ => true
  | .closeTunnel _ _ => true
  | .download _ _ => true
  | .upload _ _ => true
  | _ => false

/-- Whether a trace entry acts on the hub registry or closes the outbound queue:
`hub.unregister <- c` or `close(c.send)`. -/
def Event.isHubRequest : Event → Bool
  | .hubUnregister => true
  | .chanClose => true
  | _ => false

/-- Messages sent on the outbound queue so far, in order. -/
def Client.sent (c : Client) : List Bytes := sentOf c.trace

/-- Serialized envelope built by `sendMessage`. -/
def envelope (j : Json) (msgType : String) (payload : GoValue) : Bytes :=
  j.marshal (.wsMessage { MsgType := msgType, Payload := j.marshal payload })

/-- Method `sendMessage` (handler.go:279-287): the marshalled envelope is sent on `c.send`. -/
def Client.sendMessage (c : Client) (j : Json) (msgType : String) (payload : GoValue) : Client :=
  let payloadBytes := j.marshal payload
  let msg : WSMessage := { MsgType := msgType, Payload := payloadBytes }
  let msgBytes := j.marshal (.wsMessage msg)
  c.emit (.chanSend msgBytes)

/-- Method `sendError` (handler.go:289-291). -/
def Client.sendError (c : Client) (j : Json) (errMsg : String) : Client :=
  c.sendMessage j TypeError (.stringMap [("error", errMsg)])

/-- Method `sendPong` (handler.go:293-295). -/
def Client.sendPong (c : Client) (j : Json) : Client :=
  c.sendMessage j TypePong (.stringMap [])

/-- Request `&sliverpb.Tunnel{SessionID: req.SessionID}` of the `CreateTunnel` call. -/
def createTunnelReq (req : ShellStartPayload) : Tunnel :=
  { TunnelID := 0, SessionID := req.SessionID }

/-- Request of the `Shell` call, with the default shell for an empty path. -/
def shellReq (req : ShellStartPayload) (tunnel : Tunnel) : ShellReq :=
  let shellPath := if req.Path = "" then "/bin/bash" else req.Path
  { Path := shellPath, EnablePTY := req.Pty, TunnelID := tunnel.TunnelID,
    Request := { SessionID := req.SessionID, Timeout := 0 } }

/-- Request `&sliverpb.Tunnel{TunnelID: ..., SessionID: ...}` of a `CloseTunnel` call. -/
def closeTunnelReq (tunnelID : Nat) (sessionID : String) : Tunnel :=
  { TunnelID := tunnelID, SessionID := sessionID }

/-- Value of `shell.Response.Err`, empty when `shell.Response` is nil. -/
def Shell.responseErr (shell : Shell) : String :=
  match shell.Response with
  | some r => r.Err
  | none => ""

/-- Method `handleShellStart` (handler.go:297-390). -/
def Client.handleShellStart (c : Client) (j : Json) (rpc : SliverRPC) (payload : RawMessage) :
    Client :=
  match j.unmarshalShellStart payload with
  | none => c.sendError j "Invalid shell start payload"
  | some req =>
    -- Check if RPC client is available
    if c.rpcClient = none ∨ IsConnected c.rpcClient = false then
      c.sendError j "Not connected to Sliver server"
    else
      -- ctx, cancel := context.WithCancel(context.Background())
      let cancel := c.nextCtx
      let ctx := Context.withCancel cancel
      let c := { c with nextCtx := c.nextCtx + 1 }
      -- Create tunnel first
      let tunnelReq := createTunnelReq req
      let c := c.emit (.createTunnel ctx tunnelReq)
      match rpc.CreateTunnel ctx tunnelReq with
      | .error err =>
        let c := c.emit (.cancel ctx)
        c.sendError j ("Failed to create tunnel: " ++ err)
      | .ok tunnel =>
        -- Start shell with the tunnel
        let startReq := shellReq req tunnel
        let closeReq := closeTunnelReq tunnel.TunnelID req.SessionID
        let c := c.emit (.shell ctx startReq)
        match rpc.Shell ctx startReq with
        | .error err =>
          let c := c.emit (.cancel ctx)
          let c := c.emit (.closeTunnel .background closeReq)
          let _ := rpc.CloseTunnel .background closeReq
          c.sendError j ("Failed to start shell: " ++ err)
        | .ok shell =>
          -- shell.Response != nil && shell.Response.Err != ""
          let responseErr := shell.responseErr
          if responseErr ≠ "" then
            let c := c.emit (.cancel ctx)
            let c := c.emit (.closeTunnel .background closeReq)
            let _ := rpc.CloseTunnel .background closeReq
            c.sendError j ("Shell error: " ++ responseErr)
          else
            -- Start tunnel data stream
            let c := c.emit (.tunnelData ctx)
            match rpc.TunnelData ctx with
            | .error err =>
              let c := c.emit (.cancel ctx)
              let c := c.emit (.closeTunnel .background closeReq)
              let _ := rpc.CloseTunnel .background closeReq
              c.sendError j ("Failed to start tunnel stream: " ++ err)
            | .ok tunnelStream =>
              -- Store shell session
              let shellSession : ShellSession :=
                { SessionID := req.SessionID, TunnelID := tunnel.TunnelID,
                  tunnelStream := some tunnelStream, cancel := some cancel }
              let c := { c with shellSessions := mapSet c.shellSessions req.SessionID shellSession }
              -- Start reading from tunnel stream
              let c := c.emit (.goReadTunnelData shellSession)
              -- Send acknowledgment
              c.sendMessage j TypeShellOutput
                (.shellOutput { SessionID := req.SessionID, TunnelID := tunnel.TunnelID,
                                Data := goString "" })

/-- The envelope that forwards one frame of a session. -/
def outputEnvelope (j : Json) (session : ShellSession) (data : Bytes) : Bytes :=
  envelope j TypeShellOutput
    (.shellOutput { SessionID := session.SessionID, TunnelID := session.TunnelID,
                    Data := data })

/-- Result of one `tunnelStream.Recv()`: a frame, `io.EOF`, or another error together
with whether the stream's context is done at that moment. -/
inductive RecvResult where
  | data (tunnelData : TunnelData)
  | eof
  | error (err : String) (ctxDone : Bool)
deriving DecidableEq, Repr

/-- One iteration of the loop of `readTunnelData` (handler.go:399-435); the flag tells whether the loop goes on. -/
def Client.readTunnelDataIter (c : Client) (j : Json) (session : ShellSession)
    (r : RecvResult) : Client × Bool :=
  match r with
  | .eof =>
    (c.sendMessage j TypeShellOutput
      (.shellOutput { SessionID := session.SessionID, TunnelID := session.TunnelID,
                      Data := shellClosedData }), false)
  | .error err ctxDone =>
    -- Check if context was cancelled
    if ctxDone then (c, false)
    else (c.emit (.logPrintf ("Tunnel read error: " ++ err)), false)
  | .data tunnelData =>
    if tunnelData.Closed then
      (c.sendMessage j TypeShellOutput
        (.shellOutput { SessionID := session.SessionID, TunnelID := session.TunnelID,
                        Data := shellClosedData }), false)
    else
      -- Send output to client
      (c.sendMessage j TypeShellOutput
        (.shellOutput { SessionID := session.SessionID, TunnelID := session.TunnelID,
                        Data := tunnelData.Data }), true)

/-- Method `readTunnelData` (handler.go:392-436), run against the receive results `rs` of its stream. The flag tells
whether it has returned; when `rs` runs out first it is waiting in `Recv`. The deferred
`delete` runs when it returns. -/
def Client.readTunnelData (c : Client) (j : Json) (session : ShellSession) :
    List RecvResult → Client × Bool
  | [] => (c, false)
  | r :: rs =>
    let step := c.readTunnelDataIter j session r
    if step.2 then Client.readTunnelData step.1 j session rs
    else
      ({ step.1 with shellSessions := mapDelete step.1.shellSessions session.SessionID }, true)

/-- Method `handleShellInput` (handler.go:438-464). -/
def Client.handleShellInput (c : Client) (j : Json) (rpc : SliverRPC) (payload : RawMessage) :
    Client :=
  match j.unmarshalShellInput payload with
  | none => c.sendError j "Invalid shell input payload"
  | some req =>
    match mapGet c.shellSessions req.SessionID with
    | none => c.sendError j ("No active shell session for: " ++ req.SessionID)
    | some session =>
      -- Send input to tunnel
      let data : TunnelData :=
        { TunnelID := session.TunnelID, SessionID := req.SessionID,
          Data := goString req.Data, Closed := false }
      let c := c.emit (.streamSend session.tunnelStream data)
      match rpc.streamSend session.tunnelStream data with
      | some err => c.sendError j ("Failed to send input: " ++ err)
      | none => c

/-- Method `handleShellStop` (handler.go:466-500). The `cancel` deferred for the timeout
context runs when the method returns, after the send. -/
def Client.handleShellStop (c : Client) (j : Json) (rpc : SliverRPC) (payload : RawMessage) :
    Client :=
  match j.unmarshalShellInput payload with
  | none => c.sendError j "Invalid shell stop payload"
  | some req =>
    let closedNotice : GoValue :=
      .shellOutput { SessionID := req.SessionID, TunnelID := req.TunnelID,
                     Data := shellClosedData }
    match mapGet c.shellSessions req.SessionID with
    | some session =>
      -- Cancel the context to stop the read loop
      let c := match session.cancel with
        | some cancel => c.emit (.cancel (.withCancel cancel))
        | none => c
      -- Close the tunnel
      if c.rpcClient ≠ none ∧ IsConnected c.rpcClient = true then
        -- ctx, cancel := context.WithTimeout(context.Background(), 5*time.Second)
        let cancel := c.nextCtx
        let ctx := Context.withTimeout cancel 5
        let c := { c with nextCtx := c.nextCtx + 1 }
        let closeReq := closeTunnelReq session.TunnelID req.SessionID
        let c := c.emit (.closeTunnel ctx closeReq)
        let _ := rpc.CloseTunnel ctx closeReq
        let c := { c with shellSessions := mapDelete c.shellSessions req.SessionID }
        let c := c.sendMessage j TypeShellOutput closedNotice
        -- deferred cancel of the timeout context
        c.emit (.cancel ctx)
      else
        let c := { c with shellSessions := mapDelete c.shellSessions req.SessionID }
        c.sendMessage j TypeShellOutput closedNotice
    | none => c.sendMessage j TypeShellOutput closedNotice

/-- Value of `resp.Response.Err`, empty when `resp.Response` is nil. -/
def Download.responseErr (resp : Download) : String :=
  match resp.Response with
  | some r => r.Err
  | none => ""

/-- Value of `resp.Response.Err`, empty when `resp.Response` is nil. -/
def Upload.responseErr (resp : Upload) : String :=
  match resp.Response with
  | some r => r.Err
  | none => ""

/-- Method `handleFileDownload` (handler.go:502-542). The `cancel` deferred for the
timeout context runs when the method returns. -/
def Client.handleFileDownload (c : Client) (j : Json) (rpc : SliverRPC)
    (payload : RawMessage) : Client :=
  match j.unmarshalFileTransfer payload with
  | none => c.sendError j "Invalid file download payload"
  | some req =>
    if c.rpcClient = none ∨ IsConnected c.rpcClient = false then
      c.sendError j "Not connected to Sliver server"
    else
      -- ctx, cancel := context.WithTimeout(context.Background(), 5*time.Minute)
      let ctx := Context.withTimeout c.nextCtx 300
      let c := { c with nextCtx := c.nextCtx + 1 }
      let downloadReq : DownloadReq :=
        { Path := req.Path, Request := { SessionID := req.SessionID, Timeout := 300 } }
      let c := c.emit (.download ctx downloadReq)
      match rpc.Download ctx downloadReq with
      | .error err =>
        let c := c.sendError j ("Download failed: " ++ err)
        c.emit (.cancel ctx)
      | .ok resp =>
        if resp.responseErr ≠ "" then
          let c := c.sendError j ("Download error: " ++ resp.responseErr)
          c.emit (.cancel ctx)
        else
          let c := c.sendMessage j TypeFileProgress
            (.anyMap [("sessionId", .str req.SessionID), ("path", .str req.Path),
                      ("progress", .int 100), ("status", .str "completed"),
                      ("data", .bytes resp.Data), ("size", .int resp.Data.length)])
          c.emit (.cancel ctx)

/-- Method `handleFileUpload` (handler.go:544-583). The `cancel` deferred for the
timeout context runs when the method returns. -/
def Client.handleFileUpload (c : Client) (j : Json) (rpc : SliverRPC)
    (payload : RawMessage) : Client :=
  match j.unmarshalFileTransfer payload with
  | none => c.sendError j "Invalid file upload payload"
  | some req =>
    if c.rpcClient = none ∨ IsConnected c.rpcClient = false then
      c.sendError j "Not connected to Sliver server"
    else
      -- ctx, cancel := context.WithTimeout(context.Background(), 5*time.Minute)
      let ctx := Context.withTimeout c.nextCtx 300
      let c := { c with nextCtx := c.nextCtx + 1 }
      let uploadReq : UploadReq :=
        { Path := req.Path, Data := req.Data,
          Request := { SessionID := req.SessionID, Timeout := 300 } }
      let c := c.emit (.upload ctx uploadReq)
      match rpc.Upload ctx uploadReq with
      | .error err =>
        let c := c.sendError j ("Upload failed: " ++ err)
        c.emit (.cancel ctx)
      | .ok resp =>
        if resp.responseErr ≠ "" then
          let c := c.sendError j ("Upload error: " ++ resp.responseErr)
          c.emit (.cancel ctx)
        else
          let c := c.sendMessage j TypeFileProgress
            (.anyMap [("sessionId", .str req.SessionID), ("path", .str resp.Path),
                      ("progress", .int 100), ("status", .str "completed")])
          c.emit (.cancel ctx)

/-- Method `handleMessage` (handler.go:260-277). -/
def Client.handleMessage (c : Client) (j : Json) (rpc : SliverRPC) (msg : WSMessage) :
    Client :=
  if msg.MsgType = TypePing then c.sendPong j
  else if msg.MsgType = TypeShellStart then c.handleShellStart j rpc msg.Payload
  else if msg.MsgType = TypeShellInput then c.handleShellInput j rpc msg.Payload
  else if msg.MsgType = TypeShellStop then c.handleShellStop j rpc msg.Payload
  else if msg.MsgType = TypeFileDownload then c.handleFileDownload j rpc msg.Payload
  else if msg.MsgType = TypeFileUpload then c.handleFileUpload j rpc msg.Payload
  else c.sendError j ("Unknown message type: " ++ msg.MsgType)

/-- Result of one `c.conn.ReadMessage()`: a frame, or an error together with the answer
of `websocket.IsUnexpectedCloseError(err, CloseGoingAway, CloseAbnormalClosure)`. -/
inductive ReadResult where
  | message (data : Bytes)
  | error (err : String) (unexpectedClose : Bool)
deriving DecidableEq, Repr

/-- One iteration of the loop of `readPump` (handler.go:221-237); the flag tells whether
the loop goes on. -/
def Client.readPumpIter (c : Client) (j : Json) (rpc : SliverRPC) (r : ReadResult) :
    Client × Bool :=
  match r with
  | .error err unexpectedClose =>
    if unexpectedClose then (c.emit (.logPrintf ("WebSocket error: " ++ err)), false)
    else (c, false)
  | .message message =>
    match j.unmarshalWSMessage message with
    | none => (c.sendError j "Invalid message format", true)
    | some msg => (c.handleMessage j rpc msg, true)

/-- Method `readPump` (handler.go:215-238), run against the results `rs` of its reads.
The flag tells whether it has returned; when `rs` runs out first it is waiting in
`ReadMessage`. The deferred function runs when it returns. -/
def Client.readPump (c : Client) (j : Json) (rpc : SliverRPC) :
    List ReadResult → Client × Bool
  | [] => (c, false)
  | r :: rs =>
    let step := c.readPumpIter j rpc r
    if step.2 then Client.readPump step.1 j rpc rs
    else ((step.1.emit .hubUnregister).emit .connClose, true)

/-- Method `cleanupShellSessions` (handler.go:203-213). -/
def Client.cleanupShellSessions (c : Client) : Client :=
  let c := c.shellSessions.foldl
    (fun c kv => match kv.2.cancel with
      | some cancel => c.emit (.cancel (.withCancel cancel))
      | none => c) c
  { c with shellSessions := [] }

/-! ## Hub -/

/-- Hub maintains the set of active clients: `clients` are the keys of the registry,
`heap` the client objects and `chans` their outbound queues, by client address. -/
structure Hub where
  clients : List Nat
  heap : Nat → Client
  chans : Nat → Chan
  rpcClient : Option SliverClient

/-- Message received by `Hub.run` on one of its three channels. -/
inductive HubMsg where
  | register (client : Nat)
  | unregister (client : Nat)
  | broadcast (message : Bytes)
deriving DecidableEq, Repr

/-- SetRPCClient sets the RPC client for the hub. -/
def SetRPCClient (h : Hub) (client : Option SliverClient) : Hub :=
  { h with rpcClient := client }

/-- Body of the broadcast loop (handler.go:163-168) for one client; `none` is a runtime
panic. The registry is a map, so a client already deleted from it is not visited. -/
def Hub.broadcastTo (message : Bytes) (h : Hub) (client : Nat) : Option Hub :=
  if client ∉ h.clients then some h
  else
    let ch := h.chans client
    if ch.closed then none
    else if ch.buf.length < sendCap then
      some { h with
        chans := Function.update h.chans client { ch with buf := ch.buf ++ [message] } }
    else
      some { h with
        chans := Function.update h.chans client { ch with closed := true }
        heap := Function.update h.heap client ((h.heap client).emit .chanClose)
        clients := h.clients.filter (fun p => p ≠ client) }

/-- One iteration of the loop of `Hub.run` (handler.go:144-173); `none` is a runtime
panic. -/
def Hub.run (h : Hub) : HubMsg → Option Hub
  | .register client =>
    some { h with clients := if client ∈ h.clients then h.clients else client :: h.clients }
  | .unregister client =>
    if client ∈ h.clients then
      match (h.chans client).close with
      | none => none
      | some ch =>
        some { h with
          clients := h.clients.filter (fun p => p ≠ client)
          chans := Function.update h.chans client ch
          -- Clean up shell sessions
          heap := Function.update h.heap client
            (((h.heap client).emit .chanClose).cleanupShellSessions) }
    else some h
  | .broadcast message => h.clients.foldlM (Hub.broadcastTo message) h

/-- HandleWebSocket after a successful upgrade (handler.go:185-197): a new client object
at the unused address `addr`, with a new open queue, is registered. -/
def HandleWebSocket (h : Hub) (addr : Nat) (username : String) : Option Hub :=
  let client : Client :=
    { username := username, rpcClient := h.rpcClient, shellSessions := [],
      nextCtx := 0, trace := [] }
  let h := { h with
    heap := Function.update h.heap addr client
    chans := Function.update h.chans addr { buf := [], closed := false } }
  h.run (.register addr)

/-- Every registered client has an open outbound queue. -/
def Hub.registeredOpen (h : Hub) : Prop :=
  ∀ p ∈ h.clients, (h.chans p).closed = false

/-- BroadcastEvent sends an event to all connected clients (handler.go:586-597): the
serialized event goes through `hub.broadcast` to the hub loop. -/
def BroadcastEvent (h : Hub) (j : Json) (eventType : String) (data : GoAny) : Option Hub :=
  let payload := j.marshal (.anyMap [("eventType", .str eventType), ("data", data)])
  let msg : WSMessage := { MsgType := TypeEvent, Payload := payload }
  let msgBytes := j.marshal (.wsMessage msg)
  h.run (.broadcast msgBytes)

/-- How a task of a client goes on after a step, with the hub state it leaves. -/
inductive TaskResult where
  | returned (h : Hub)
  | parked (h : Hub)
  | panicked (h : Hub)

/-- Method `sendMessage` (handler.go:279-287) of the client at address `client`, run
against the outbound queue of that client: the send `c.send <- msgBytes` completes,
parks the caller or panics as `Chan.send` says. -/
def Hub.sendMessage (h : Hub) (client : Nat) (j : Json) (msgType : String)
    (payload : GoValue) : TaskResult :=
  let c := (h.heap client).sendMessage j msgType payload
  let h1 := { h with heap := Function.update h.heap client c }
  match (h.chans client).send (envelope j msgType payload) with
  | .enqueued ch => .returned { h1 with chans := Function.update h.chans client ch }
  | .blocks => .parked h1
  | .panics => .panicked h1

/-! ## Writer task -/

/-- Frame written on the socket: `websocket.TextMessage` with its data, or
`websocket.CloseMessage`. -/
inductive Frame where
  | text (data : Bytes)
  | close
deriving DecidableEq, Repr

/-- Socket side of the writer task: the frames whose `WriteMessage` returned nil, in
order, the number of `WriteMessage` calls made, and whether `writePump` has returned. -/
structure Writer where
  written : List Frame
  attempts : Nat
  returned : Bool
deriving DecidableEq, Repr

/-- One iteration of the loop of `writePump` (handler.go:243-257) on the queue `ch`.
`WriteMessage n f` is the error, if any, of the `n`-th write on the socket. -/
def writePumpIter (WriteMessage : Nat → Frame → Option String) (ch : Chan) (w : Writer) :
    Chan × Writer :=
  match ch.recv with
  | .blocks => (ch, w)
  | .closed =>
    match WriteMessage w.attempts .close with
    | none =>
      (ch, { written := w.written ++ [.close], attempts := w.attempts + 1, returned := true })
    | some _ => (ch, { w with attempts := w.attempts + 1, returned := true })
  | .value message ch2 =>
    match WriteMessage w.attempts (.text message) with
    | none =>
      (ch2, { w with written := w.written ++ [.text message], attempts := w.attempts + 1 })
    | some _ => (ch2, { w with attempts := w.attempts + 1, returned := true })

/-- Data of the text frames among `frames`, in order. -/
def textFrames (frames : List Frame) : List Bytes :=
  frames.filterMap (fun f => match f with | .text data => some data | .close => none)

/-- An operation on the outbound queue of one connection: a send by some task, the
`close` by the hub, or one iteration of the writer task. -/
inductive QueueOp where
  | send (m : Bytes)
  | close
  | write
deriving DecidableEq, Repr

/-- Outbound side of one connection: its queue, its writer, and the messages whose send
on the queue has completed, in order. -/
structure Outbound where
  ch : Chan
  writer : Writer
  enqueued : List Bytes
deriving DecidableEq, Repr

/-- Outbound side of a new connection (handler.go:189-199). -/
def Outbound.new : Outbound :=
  { ch := { buf := [], closed := false },
    writer := { written := [], attempts := 0, returned := false },
    enqueued := [] }

/-- One operation on the outbound side. A send that cannot complete and a `close` of a
closed queue leave the queue as it is; the writer does nothing once it has returned. -/
def Outbound.step (WriteMessage : Nat → Frame → Option String) (s : Outbound) :
    QueueOp → Outbound
  | .send m =>
    match s.ch.send m with
    | .enqueued ch => { s with ch := ch, enqueued := s.enqueued ++ [m] }
    | _ => s
  | .close =>
    match s.ch.close with
    | some ch => { s with ch := ch }
    | none => s
  | .write =>
    if s.writer.returned then s
    else
      let r := writePumpIter WriteMessage s.ch s.writer
      { s with ch := r.1, writer := r.2 }

/-- Hub state carried by the result of a task step. -/
def TaskResult.hub : TaskResult → Hub
  | .returned h => h
  | .parked h => h
  | .panicked h => h

/-- A step of a task of the client at address `client` (a handler run or one iteration
of a read-pump, given as the function `task` on the client state), run against the
outbound queue of that client: the sends of the step are performed on the queue in
order, and the step returns, parks or panics as `Chan.deliver` says. A step touches the
state of its own client and the queue of its own client only. -/
def Hub.runTask (h : Hub) (client : Nat) (task : Client → Client) : TaskResult :=
  let c := task (h.heap client)
  let h1 := { h with heap := Function.update h.heap client c }
  match (h.chans client).deliver (sentOf (c.trace.drop (h.heap client).trace.length)) with
  | .enqueued ch => .returned { h1 with chans := Function.update h.chans client ch }
  | .blocks => .parked h1
  | .panics => .panicked h1

/-! ## JSON text of a Go string

`encoding/json` writes a Go string as a JSON string "coerced to valid UTF-8, replacing
invalid bytes with the Unicode replacement rune": it walks the string with
`utf8.DecodeRuneInString` and writes U+FFFD for every byte that does not start a
well-formed sequence. The escaping of the characters themselves loses nothing and is
not modelled: the value of the JSON string is the sequence of characters below. -/

/-- Rune `utf8.RuneError`, U+FFFD. -/
def RuneError : Nat := 0xFFFD

/-- Length of the sequence announced by a first byte, 0 for a byte that cannot come
first (table `first` of package `unicode/utf8`). -/
def runeSize (s0 : Nat) : Nat :=
  if s0 < 0x80 then 1
  else if s0 < 0xC2 then 0
  else if s0 < 0xE0 then 2
  else if s0 < 0xF0 then 3
  else if s0 < 0xF5 then 4
  else 0

/-- Lowest second byte accepted after the first byte `s0` (table `acceptRanges`). -/
def acceptLo (s0 : Nat) : Nat :=
  if s0 = 0xE0 then 0xA0 else if s0 = 0xF0 then 0x90 else 0x80

/-- Highest second byte accepted after the first byte `s0` (table `acceptRanges`). -/
def acceptHi (s0 : Nat) : Nat :=
  if s0 = 0xED then 0x9F else if s0 = 0xF4 then 0x8F else 0xBF

/-- Function `utf8.DecodeRuneInString`: the first rune of `s` and its width in bytes;
`(RuneError, 1)` for an invalid or incomplete sequence, `(RuneError, 0)` for no bytes. -/
def DecodeRuneInString : Bytes → Nat × Nat
  | [] => (RuneError, 0)
  | s0 :: rest =>
    if s0 < 0x80 then (s0, 1)
    else if runeSize s0 = 0 then (RuneError, 1)
    else
      match rest with
      | [] => (RuneError, 1)
      | s1 :: rest1 =>
        if s1 < acceptLo s0 ∨ acceptHi s0 < s1 then (RuneError, 1)
        else if runeSize s0 = 2 then ((s0 % 32) * 64 + s1 % 64, 2)
        else
          match rest1 with
          | [] => (RuneError, 1)
          | s2 :: rest2 =>
            if s2 < 0x80 ∨ 0xBF < s2 then (RuneError, 1)
            else if runeSize s0 = 3 then ((s0 % 16) * 4096 + (s1 % 64) * 64 + s2 % 64, 3)
            else
              match rest2 with
              | [] => (RuneError, 1)
              | s3 :: _ =>
                if s3 < 0x80 ∨ 0xBF < s3 then (RuneError, 1)
                else ((s0 % 8) * 262144 + (s1 % 64) * 4096 + (s2 % 64) * 64 + s3 % 64, 4)

/-- The loop of the JSON string encoder over the bytes `s`, at most `fuel` runes. -/
def jsonStringRunesAux : Nat → Bytes → List Nat
  | 0, _ => []
  | _ + 1, [] => []
  | fuel + 1, s0 :: rest =>
    (DecodeRuneInString (s0 :: rest)).1 ::
      jsonStringRunesAux fuel ((s0 :: rest).drop (DecodeRuneInString (s0 :: rest)).2)

/-- Characters of the JSON string that `json.Marshal` writes for the Go string `s`. -/
def jsonStringRunes (s : Bytes) : List Nat :=
  jsonStringRunesAux s.length s

/-- Bytes of the string obtained by decoding the JSON string written for `s`. -/
def jsonDecodedBytes (s : Bytes) : Bytes :=
  ((jsonStringRunes s).map utf8EncodeNat).flatten

/-- Well-formed UTF-8 byte sequences (Unicode standard, table 3-7). -/
inductive WellFormedUTF8 : Bytes → Prop where
  | nil : WellFormedUTF8 []
  | one (b0 : Nat) (rest : Bytes) : b0 < 0x80 → WellFormedUTF8 rest →
      WellFormedUTF8 (b0 :: rest)
  | two (b0 b1 : Nat) (rest : Bytes) : 0xC2 ≤ b0 → b0 ≤ 0xDF → 0x80 ≤ b1 → b1 ≤ 0xBF →
      WellFormedUTF8 rest → WellFormedUTF8 (b0 :: b1 :: rest)
  | three (b0 b1 b2 : Nat) (rest : Bytes) : 0xE0 ≤ b0 → b0 ≤ 0xEF →
      0x80 ≤ b1 → b1 ≤ 0xBF → (b0 = 0xE0 → 0xA0 ≤ b1) → (b0 = 0xED → b1 ≤ 0x9F) →
      0x80 ≤ b2 → b2 ≤ 0xBF → WellFormedUTF8 rest → WellFormedUTF8 (b0 :: b1 :: b2 :: rest)
  | four (b0 b1 b2 b3 : Nat) (rest : Bytes) : 0xF0 ≤ b0 → b0 ≤ 0xF4 →
      0x80 ≤ b1 → b1 ≤ 0xBF → (b0 = 0xF0 → 0x90 ≤ b1) → (b0 = 0xF4 → b1 ≤ 0x8F) →
      0x80 ≤ b2 → b2 ≤ 0xBF → 0x80 ≤ b3 → b3 ≤ 0xBF → WellFormedUTF8 rest →
      WellFormedUTF8 (b0 :: b1 :: b2 :: b3 :: rest)

/-! ## Sample data -/

namespace Demo

/-- Payload text `{"sessionId":"abc","tunnelId":7,"data":"ls\n"}`. -/
def inputPayload : RawMessage :=
  goString "\x7b\"sessionId\":\"abc\",\"tunnelId\":7,\"data\":\"ls\\n\"\x7d"

/-- Payload text `{"sessionId":"abc","pty":true}`. -/
def startPayload : RawMessage :=
  goString "\x7b\"sessionId\":\"abc\",\"pty\":true\x7d"

/-- Frame text `{"type":"shell_output","payload":{}}`, a type that only the gateway emits. -/
def outputFrame : Bytes :=
  goString "\x7b\"type\":\"shell_output\",\"payload\":\x7b\x7d\x7d"

/-- Frame text `not json`. -/
def garbageFrame : Bytes := goString "not json"

/-- Payload text `{"sessionId":"abc","path":"/etc/hosts","isDownload":true}`. -/
def filePayload : RawMessage :=
  goString "\x7b\"sessionId\":\"abc\",\"path\":\"/etc/hosts\",\"isDownload\":true\x7d"

/-- A codec that knows the sample payloads and frames and tags what it marshals. -/
def json : Json where
  marshal v :=
    match v with
    | .stringMap m => 1 :: (m.map (fun kv => goString kv.1 ++ [0] ++ goString kv.2 ++ [0])).flatten
    | .shellOutput p => 2 :: goString p.SessionID ++ [0, p.TunnelID] ++ p.Data
    | .wsMessage m => 3 :: goString m.MsgType ++ [0] ++ m.Payload
    | .anyMap m =>
      4 :: (m.map (fun kv => goString kv.1 ++ [0] ++
        (match kv.2 with
          | .str v => 1 :: goString v
          | .int n => [2, n]
          | .bytes b => 3 :: b) ++ [0])).flatten
  unmarshalWSMessage raw :=
    if raw = outputFrame then
      some { MsgType := "shell_output", Payload := goString "\x7b\x7d" }
    else none
  unmarshalShellStart raw :=
    if raw = startPayload then some { SessionID := "abc", Path := "", Pty := true } else none
  unmarshalShellInput raw :=
    if raw = inputPayload then some { SessionID := "abc", TunnelID := 7, Data := "ls\n" } else none
  unmarshalFileTransfer raw :=
    if raw = filePayload then
      some { SessionID := "abc", Path := "/etc/hosts", IsDownload := true, Data := [] }
    else none

/-- A healthy Remote Bridge: tunnel 7, stream 1, no errors. -/
def rpc : SliverRPC where
  CreateTunnel _ req := .ok { req with TunnelID := 7 }
  Shell _ _ := .ok { Response := none }
  streamSend _ _ := none
  TunnelData _ := .ok 1
  CloseTunnel _ req := .ok req
  Download _ _ := .ok { Response := none, Data := [104, 105] }
  Upload _ req := .ok { Response := none, Path := req.Path }

/-- A client with a ready connection and no shell session. -/
def client : Client :=
  { username := "operator", rpcClient := some { Conn := some .Ready },
    shellSessions := [], nextCtx := 0, trace := [] }

/-- A client whose Remote Bridge is shut down. -/
def offline : Client :=
  { client with rpcClient := some { Conn := some .Shutdown } }

/-- A Remote Bridge whose shell start answers with an application error. -/
def rpcShellRefused : SliverRPC :=
  { rpc with Shell := fun _ _ => .ok { Response := some { Err := "no such session" } } }

/-- A Remote Bridge that cannot open the data stream and cannot close tunnels either. -/
def rpcNoStream : SliverRPC :=
  { rpc with
    TunnelData := fun _ => .error "stream refused"
    CloseTunnel := fun _ _ => .error "tunnel unknown" }

/-- A Remote Bridge whose download call fails. -/
def rpcNoDownload : SliverRPC :=
  { rpc with Download := fun _ _ => .error "no such file" }

/-- A Remote Bridge whose tunnel stream refuses writes. -/
def rpcNoWrite : SliverRPC :=
  { rpc with streamSend := fun _ _ => some "stream closed" }

/-- The session that `handleShellStart` stores for `client` against `rpc`. -/
def session : ShellSession :=
  { SessionID := "abc", TunnelID := 7, tunnelStream := some 1, cancel := some 0 }

/-- The sample client with `session` active. -/
def active : Client :=
  { client with shellSessions := [("abc", session)], nextCtx := 1 }

/-- One frame of shell output, `hi`. -/
def frame : TunnelData :=
  { TunnelID := 7, SessionID := "abc", Data := [104, 105], Closed := false }

/-- A second client, with a session of its own. -/
def other : Client :=
  { client with
    username := "guest"
    shellSessions :=
      [("xyz", { SessionID := "xyz", TunnelID := 9, tunnelStream := some 2, cancel := some 0 })]
    nextCtx := 1 }

/-- A hub with the clients `active` (address 1) and `other` (address 2) registered. -/
def hub : Hub :=
  { clients := [2, 1]
    heap := fun p => if p = 1 then active else if p = 2 then other else client
    chans := fun p => if p = 2 then { buf := [[1]], closed := false }
      else { buf := [], closed := false }
    rpcClient := some { Conn := some .Ready } }

/-- A Remote Bridge that numbers tunnels and streams after the context of the call. -/
def rpcCounting : SliverRPC :=
  { rpc with
    CreateTunnel := fun ctx req =>
      match ctx with
      | .withCancel id => .ok { req with TunnelID := 7 + id }
      | _ => .ok { req with TunnelID := 7 }
    TunnelData := fun ctx =>
      match ctx with
      | .withCancel id => .ok (1 + id)
      | _ => .ok 1 }

/-- The sample client after two shell_start requests for "abc" in a row. -/
def startedTwice : Client :=
  (client.handleShellStart json rpcCounting startPayload).handleShellStart json rpcCounting
    startPayload

/-- The sample client after shell_start, shell_stop and a second shell_start for "abc". -/
def restarted : Client :=
  ((client.handleShellStart json rpcCounting startPayload).handleShellStop json rpcCounting
    inputPayload).handleShellStart json rpcCounting startPayload

/-- The session stored by the first shell_start against `rpcCounting`. -/
def firstSession : ShellSession :=
  { SessionID := "abc", TunnelID := 7, tunnelStream := some 1, cancel := some 0 }

/-- The sample client with the sessions "abc" and "xyz" active. -/
def twoSessions : Client :=
  { client with
    shellSessions :=
      [("abc", session),
       ("xyz", { SessionID := "xyz", TunnelID := 9, tunnelStream := some 2, cancel := some 1 })]
    nextCtx := 2 }

/-- A full queue: 256 pending messages. -/
def fullQueue : List Bytes := List.replicate 256 [1]

/-- Outbound side of a connection whose writer has returned after a failed write
(handler.go:254-256) while the queue is open and full. -/
def stalled : Outbound :=
  { ch := { buf := fullQueue, closed := false },
    writer := { written := [], attempts := 1, returned := true },
    enqueued := fullQueue }

/-- The hub `hub` with the queue of client 2 full. -/
def fullHub : Hub :=
  { hub with
    chans := fun p => if p = 2 then { buf := fullQueue, closed := false }
      else { buf := [], closed := false } }

end Demo

/-! ## Lemmas on the session map and the trace -/

theorem mapGet_mapDelete_self (m : List (String × ShellSession)) (key : String) :
    mapGet (mapDelete m key) key = none := by
  induction m with
  | nil => rfl
  | cons kv rest ih =>
    obtain ⟨k, v⟩ := kv
    by_cases hk : k = key
    · simpa [mapDelete, hk] using ih
    · simpa [mapDelete, mapGet, hk] using ih

theorem IsConnected_eq_true_iff (rc : Option SliverClient) :
    IsConnected rc = true ↔
      ∃ sc state, rc = some sc ∧ sc.Conn = some state ∧
        (state = .Ready ∨ state = .Idle) := by
  cases rc with
  | none => simp [IsConnected]
  | some sc =>
    obtain ⟨conn⟩ := sc
    cases conn with
    | none => simp [IsConnected]
    | some state => cases state <;> simp [IsConnected, ConnState.String]

/-! ## Shell input -/

theorem handleShellInput_absent (c : Client) (j : Json) (rpc : SliverRPC)
    (payload : RawMessage) (req : ShellInputPayload)
    (hreq : j.unmarshalShellInput payload = some req)
    (habsent : mapGet c.shellSessions req.SessionID = none) :
    c.handleShellInput j rpc payload =
      { c with trace := c.trace ++ [.chanSend (envelope j TypeError
        (.stringMap [("error", "No active shell session for: " ++ req.SessionID)]))] } := by
  simp [Client.handleShellInput, hreq, habsent, Client.sendError, Client.sendMessage,
    Client.emit, envelope]

/-- C1: when the payload of a shell_input decodes and its sessionId has no entry in the
session map, `handleShellInput` adds exactly one entry to the trace, the send of the
error envelope "No active shell session for: " + sessionId on the outbound queue (so
nothing is written to a stream), and leaves the session map and the rest of the
client state as they were. -/
theorem handleShellInput_no_session (c : Client) (j : Json) (rpc : SliverRPC)
    (payload : RawMessage) (req : ShellInputPayload)
    (hreq : j.unmarshalShellInput payload = some req)
    (habsent : mapGet c.shellSessions req.SessionID = none) :
    c.handleShellInput j rpc payload =
        { c with trace := c.trace ++ [.chanSend (envelope j TypeError
          (.stringMap [("error", "No active shell session for: " ++ req.SessionID)]))] } ∧
      (c.handleShellInput j rpc payload).shellSessions = c.shellSessions ∧
      (c.handleShellInput j rpc payload).sent = c.sent ++ [envelope j TypeError
          (.stringMap [("error", "No active shell session for: " ++ req.SessionID)])] ∧
      ∀ stream data, Event.streamSend stream data ∉
        (c.handleShellInput j rpc payload).trace.drop c.trace.length := by
  rw [handleShellInput_absent c j rpc payload req hreq habsent]
  simp [Client.sent, sentOf]

theorem handleShellInput_no_session_witness :
    Demo.json.unmarshalShellInput Demo.inputPayload =
        some { SessionID := "abc", TunnelID := 7, Data := "ls\n" } ∧
      mapGet Demo.client.shellSessions "abc" = none ∧
      (Demo.client.handleShellInput Demo.json Demo.rpc Demo.inputPayload).sent =
        [envelope Demo.json TypeError
          (.stringMap [("error", "No active shell session for: abc")])] :=
  ⟨by decide, by decide,
    (handleShellInput_no_session Demo.client Demo.json Demo.rpc Demo.inputPayload
      { SessionID := "abc", TunnelID := 7, Data := "ls\n" } (by decide) (by decide)).2.2.1⟩

/-! ## Shell start -/

theorem IsConnected_none : IsConnected none = false := rfl

/-- The error envelope sent by `sendError`. -/
theorem sendError_eq (c : Client) (j : Json) (errMsg : String) :
    c.sendError j errMsg =
      { c with trace := c.trace ++
          [.chanSend (envelope j TypeError (.stringMap [("error", errMsg)]))] } := rfl

theorem handleShellStart_not_connected (c : Client) (j : Json) (rpc : SliverRPC)
    (payload : RawMessage) (req : ShellStartPayload)
    (hreq : j.unmarshalShellStart payload = some req)
    (hdis : c.rpcClient = none ∨ IsConnected c.rpcClient = false) :
    c.handleShellStart j rpc payload = c.sendError j "Not connected to Sliver server" := by
  simp [Client.handleShellStart, hreq, hdis]

theorem handleShellStart_createTunnel_error (c : Client) (j : Json) (rpc : SliverRPC)
    (payload : RawMessage) (req : ShellStartPayload) (err : String)
    (hreq : j.unmarshalShellStart payload = some req)
    (hconn : IsConnected c.rpcClient = true)
    (hct : rpc.CreateTunnel (.withCancel c.nextCtx) (createTunnelReq req) = .error err) :
    c.handleShellStart j rpc payload =
      { c with
        nextCtx := c.nextCtx + 1
        trace := c.trace ++
          [.createTunnel (.withCancel c.nextCtx) (createTunnelReq req),
           .cancel (.withCancel c.nextCtx),
           .chanSend (envelope j TypeError
             (.stringMap [("error", "Failed to create tunnel: " ++ err)]))] } := by
  have hne : c.rpcClient ≠ none := by
    intro h; rw [h, IsConnected_none] at hconn; cases hconn
  simp [Client.handleShellStart, hreq, hconn, hne, hct, Client.sendError, Client.sendMessage,
    Client.emit, envelope]

theorem handleShellStart_shell_error (c : Client) (j : Json) (rpc : SliverRPC)
    (payload : RawMessage) (req : ShellStartPayload) (tunnel : Tunnel) (err : String)
    (hreq : j.unmarshalShellStart payload = some req)
    (hconn : IsConnected c.rpcClient = true)
    (hct : rpc.CreateTunnel (.withCancel c.nextCtx) (createTunnelReq req) = .ok tunnel)
    (hsh : rpc.Shell (.withCancel c.nextCtx) (shellReq req tunnel) = .error err) :
    c.handleShellStart j rpc payload =
      { c with
        nextCtx := c.nextCtx + 1
        trace := c.trace ++
          [.createTunnel (.withCancel c.nextCtx) (createTunnelReq req),
           .shell (.withCancel c.nextCtx) (shellReq req tunnel),
           .cancel (.withCancel c.nextCtx),
           .closeTunnel .background (closeTunnelReq tunnel.TunnelID req.SessionID),
           .chanSend (envelope j TypeError
             (.stringMap [("error", "Failed to start shell: " ++ err)]))] } := by
  have hne : c.rpcClient ≠ none := by
    intro h; rw [h, IsConnected_none] at hconn; cases hconn
  simp [Client.handleShellStart, hreq, hconn, hne, hct, hsh, Client.sendError,
    Client.sendMessage, Client.emit, envelope]

theorem handleShellStart_response_error (c : Client) (j : Json) (rpc : SliverRPC)
    (payload : RawMessage) (req : ShellStartPayload) (tunnel : Tunnel) (shell : Shell)
    (hreq : j.unmarshalShellStart payload = some req)
    (hconn : IsConnected c.rpcClient = true)
    (hct : rpc.CreateTunnel (.withCancel c.nextCtx) (createTunnelReq req) = .ok tunnel)
    (hsh : rpc.Shell (.withCancel c.nextCtx) (shellReq req tunnel) = .ok shell)
    (herr : shell.responseErr ≠ "") :
    c.handleShellStart j rpc payload =
      { c with
        nextCtx := c.nextCtx + 1
        trace := c.trace ++
          [.createTunnel (.withCancel c.nextCtx) (createTunnelReq req),
           .shell (.withCancel c.nextCtx) (shellReq req tunnel),
           .cancel (.withCancel c.nextCtx),
           .closeTunnel .background (closeTunnelReq tunnel.TunnelID req.SessionID),
           .chanSend (envelope j TypeError
             (.stringMap [("error", "Shell error: " ++ shell.responseErr)]))] } := by
  have hne : c.rpcClient ≠ none := by
    intro h; rw [h, IsConnected_none] at hconn; cases hconn
  simp [Client.handleShellStart, hreq, hconn, hne, hct, hsh, herr, Client.sendError,
    Client.sendMessage, Client.emit, envelope]

theorem handleShellStart_stream_error (c : Client) (j : Json) (rpc : SliverRPC)
    (payload : RawMessage) (req : ShellStartPayload) (tunnel : Tunnel) (shell : Shell)
    (err : String)
    (hreq : j.unmarshalShellStart payload = some req)
    (hconn : IsConnected c.rpcClient = true)
    (hct : rpc.CreateTunnel (.withCancel c.nextCtx) (createTunnelReq req) = .ok tunnel)
    (hsh : rpc.Shell (.withCancel c.nextCtx) (shellReq req tunnel) = .ok shell)
    (herr : shell.responseErr = "")
    (hst : rpc.TunnelData (.withCancel c.nextCtx) = .error err) :
    c.handleShellStart j rpc payload =
      { c with
        nextCtx := c.nextCtx + 1
        trace := c.trace ++
          [.createTunnel (.withCancel c.nextCtx) (createTunnelReq req),
           .shell (.withCancel c.nextCtx) (shellReq req tunnel),
           .tunnelData (.withCancel c.nextCtx),
           .cancel (.withCancel c.nextCtx),
           .closeTunnel .background (closeTunnelReq tunnel.TunnelID req.SessionID),
           .chanSend (envelope j TypeError
             (.stringMap [("error", "Failed to start tunnel stream: " ++ err)]))] } := by
  have hne : c.rpcClient ≠ none := by
    intro h; rw [h, IsConnected_none] at hconn; cases hconn
  simp [Client.handleShellStart, hreq, hconn, hne, hct, hsh, herr, hst, Client.sendError,
    Client.sendMessage, Client.emit, envelope]

theorem handleShellStart_success (c : Client) (j : Json) (rpc : SliverRPC)
    (payload : RawMessage) (req : ShellStartPayload) (tunnel : Tunnel) (shell : Shell)
    (stream : Nat)
    (hreq : j.unmarshalShellStart payload = some req)
    (hconn : IsConnected c.rpcClient = true)
    (hct : rpc.CreateTunnel (.withCancel c.nextCtx) (createTunnelReq req) = .ok tunnel)
    (hsh : rpc.Shell (.withCancel c.nextCtx) (shellReq req tunnel) = .ok shell)
    (herr : shell.responseErr = "")
    (hst : rpc.TunnelData (.withCancel c.nextCtx) = .ok stream) :
    c.handleShellStart j rpc payload =
      { c with
        nextCtx := c.nextCtx + 1
        shellSessions := mapSet c.shellSessions req.SessionID
          { SessionID := req.SessionID, TunnelID := tunnel.TunnelID,
            tunnelStream := some stream, cancel := some c.nextCtx }
        trace := c.trace ++
          [.createTunnel (.withCancel c.nextCtx) (createTunnelReq req),
           .shell (.withCancel c.nextCtx) (shellReq req tunnel),
           .tunnelData (.withCancel c.nextCtx),
           .goReadTunnelData
             { SessionID := req.SessionID, TunnelID := tunnel.TunnelID,
               tunnelStream := some stream, cancel := some c.nextCtx },
           .chanSend (envelope j TypeShellOutput
             (.shellOutput { SessionID := req.SessionID, TunnelID := tunnel.TunnelID,
                             Data := [] }))] } := by
  have hne : c.rpcClient ≠ none := by
    intro h; rw [h, IsConnected_none] at hconn; cases hconn
  simp [Client.handleShellStart, hreq, hconn, hne, hct, hsh, herr, hst,
    Client.sendMessage, Client.emit, envelope, goString]

/-- The answer of `CloseTunnel` is never looked at by `handleShellStart`. -/
theorem handleShellStart_congr (c : Client) (j : Json) (rpc rpc2 : SliverRPC)
    (payload : RawMessage)
    (h1 : rpc2.CreateTunnel = rpc.CreateTunnel) (h2 : rpc2.Shell = rpc.Shell)
    (h3 : rpc2.TunnelData = rpc.TunnelData) :
    c.handleShellStart j rpc2 payload = c.handleShellStart j rpc payload := by
  simp only [Client.handleShellStart, h1, h2, h3]

theorem mapGet_mapSet_self (m : List (String × ShellSession)) (key : String)
    (v : ShellSession) : mapGet (mapSet m key v) key = some v := by
  simp [mapSet, mapGet]

theorem not_connected_of_state (rc : Option SliverClient)
    (hdis : rc = none ∨ (∃ sc, rc = some sc ∧ sc.Conn = none) ∨
      (∃ sc state, rc = some sc ∧ sc.Conn = some state ∧ state ≠ .Ready ∧ state ≠ .Idle)) :
    rc = none ∨ IsConnected rc = false := by
  by_cases h : IsConnected rc = true
  · exfalso
    obtain ⟨sc, state, hrc, hconn, hstate⟩ := (IsConnected_eq_true_iff rc).1 h
    rcases hdis with h0 | ⟨sc1, h1, h2⟩ | ⟨sc1, state1, h1, h2, h3, h4⟩
    · rw [h0] at hrc; cases hrc
    · rw [h1] at hrc; cases hrc; rw [h2] at hconn; cases hconn
    · rw [h1] at hrc; cases hrc; rw [h2] at hconn; cases hconn
      rcases hstate with hs | hs
      · exact h3 hs
      · exact h4 hs
  · right
    simpa using h

/-- C2: while the Remote Bridge is not connected (nil RPC client, nil connection, or a
connection state other than READY/IDLE), `handleShellStart` adds exactly one entry to
the trace, the send of one error envelope (with the text "Not connected to Sliver
server" when the payload decodes), so it issues no Remote Bridge call, and it leaves
the session map as it was. -/
theorem handleShellStart_remote_unavailable (c : Client) (j : Json) (rpc : SliverRPC)
    (payload : RawMessage)
    (hdis : c.rpcClient = none ∨ (∃ sc, c.rpcClient = some sc ∧ sc.Conn = none) ∨
      (∃ sc state, c.rpcClient = some sc ∧ sc.Conn = some state ∧
        state ≠ .Ready ∧ state ≠ .Idle)) :
    (∃ errMsg, c.handleShellStart j rpc payload =
        { c with trace := c.trace ++
          [.chanSend (envelope j TypeError (.stringMap [("error", errMsg)]))] }) ∧
      (∀ req, j.unmarshalShellStart payload = some req →
        c.handleShellStart j rpc payload =
          { c with trace := c.trace ++ [.chanSend (envelope j TypeError
            (.stringMap [("error", "Not connected to Sliver server")]))] }) ∧
      (∀ e ∈ (c.handleShellStart j rpc payload).trace.drop c.trace.length,
        e.isRpc = false) ∧
      (c.handleShellStart j rpc payload).shellSessions = c.shellSessions := by
  have hoff := not_connected_of_state c.rpcClient hdis
  have hall : ∃ errMsg, c.handleShellStart j rpc payload = c.sendError j errMsg := by
    cases hreq : j.unmarshalShellStart payload with
    | none => exact ⟨"Invalid shell start payload", by simp [Client.handleShellStart, hreq]⟩
    | some req => exact ⟨_, handleShellStart_not_connected c j rpc payload req hreq hoff⟩
  obtain ⟨errMsg, hres⟩ := hall
  refine ⟨⟨errMsg, by rw [hres, sendError_eq]⟩, ?_, ?_, ?_⟩
  · intro req hreq
    rw [handleShellStart_not_connected c j rpc payload req hreq hoff, sendError_eq]
  · rw [hres, sendError_eq]
    simp [Event.isRpc]
  · rw [hres, sendError_eq]

theorem handleShellStart_remote_unavailable_witness :
    (Demo.offline.rpcClient = none ∨
      (∃ sc, Demo.offline.rpcClient = some sc ∧ sc.Conn = none) ∨
      (∃ sc state, Demo.offline.rpcClient = some sc ∧ sc.Conn = some state ∧
        state ≠ .Ready ∧ state ≠ .Idle)) ∧
      (Demo.offline.handleShellStart Demo.json Demo.rpc Demo.startPayload).shellSessions =
        Demo.offline.shellSessions :=
  have hdis : Demo.offline.rpcClient = none ∨
      (∃ sc, Demo.offline.rpcClient = some sc ∧ sc.Conn = none) ∨
      (∃ sc state, Demo.offline.rpcClient = some sc ∧ sc.Conn = some state ∧
        state ≠ .Ready ∧ state ≠ .Idle) :=
    Or.inr (Or.inr ⟨{ Conn := some .Shutdown }, .Shutdown, rfl, rfl, by decide, by decide⟩)
  ⟨hdis, (handleShellStart_remote_unavailable Demo.offline Demo.json Demo.rpc
    Demo.startPayload hdis).2.2.2⟩

/-- C3: when the Remote Bridge is connected and tunnel creation fails, or the
shell-start RPC fails or answers with a non-empty application error, or opening the
data stream fails, each with the remote error text `remoteErr`, `handleShellStart`
leaves the session map as it was, spawns no read-pump, invokes the cancellation handle
it has just created (number `c.nextCtx`), and sends exactly one message on the
outbound queue, an error envelope whose text ends with `remoteErr`. -/
theorem handleShellStart_failure_rolls_back (c : Client) (j : Json) (rpc : SliverRPC)
    (payload : RawMessage) (req : ShellStartPayload) (tunnel : Tunnel) (shell : Shell)
    (remoteErr : String)
    (hreq : j.unmarshalShellStart payload = some req)
    (hconn : IsConnected c.rpcClient = true)
    (hfail :
      rpc.CreateTunnel (.withCancel c.nextCtx) (createTunnelReq req) = .error remoteErr ∨
      (rpc.CreateTunnel (.withCancel c.nextCtx) (createTunnelReq req) = .ok tunnel ∧
        rpc.Shell (.withCancel c.nextCtx) (shellReq req tunnel) = .error remoteErr) ∨
      (rpc.CreateTunnel (.withCancel c.nextCtx) (createTunnelReq req) = .ok tunnel ∧
        rpc.Shell (.withCancel c.nextCtx) (shellReq req tunnel) = .ok shell ∧
        shell.Response = some { Err := remoteErr } ∧ remoteErr ≠ "") ∨
      (rpc.CreateTunnel (.withCancel c.nextCtx) (createTunnelReq req) = .ok tunnel ∧
        rpc.Shell (.withCancel c.nextCtx) (shellReq req tunnel) = .ok shell ∧
        shell.responseErr = "" ∧
        rpc.TunnelData (.withCancel c.nextCtx) = .error remoteErr)) :
    ∃ evs errPrefix,
      (c.handleShellStart j rpc payload).trace = c.trace ++ evs ∧
      (c.handleShellStart j rpc payload).shellSessions = c.shellSessions ∧
      (∀ s, Event.goReadTunnelData s ∉ evs) ∧
      Event.cancel (.withCancel c.nextCtx) ∈ evs ∧
      sentOf evs =
        [envelope j TypeError (.stringMap [("error", errPrefix ++ remoteErr)])] := by
  rcases hfail with hct | ⟨hct, hsh⟩ | ⟨hct, hsh, hresp, hne⟩ | ⟨hct, hsh, herr, hst⟩
  · rw [handleShellStart_createTunnel_error c j rpc payload req remoteErr hreq hconn hct]
    exact ⟨_, "Failed to create tunnel: ", rfl, rfl, by simp, by simp, by simp [sentOf]⟩
  · rw [handleShellStart_shell_error c j rpc payload req tunnel remoteErr hreq hconn hct hsh]
    exact ⟨_, "Failed to start shell: ", rfl, rfl, by simp, by simp, by simp [sentOf]⟩
  · have herr : shell.responseErr = remoteErr := by simp [Shell.responseErr, hresp]
    rw [handleShellStart_response_error c j rpc payload req tunnel shell hreq hconn hct hsh
      (by rw [herr]; exact hne), herr]
    exact ⟨_, "Shell error: ", rfl, rfl, by simp, by simp, by simp [sentOf]⟩
  · rw [handleShellStart_stream_error c j rpc payload req tunnel shell remoteErr hreq hconn
      hct hsh herr hst]
    exact ⟨_, "Failed to start tunnel stream: ", rfl, rfl, by simp, by simp,
      by simp [sentOf]⟩

theorem handleShellStart_failure_rolls_back_witness :
    Demo.json.unmarshalShellStart Demo.startPayload =
        some { SessionID := "abc", Path := "", Pty := true } ∧
      IsConnected Demo.client.rpcClient = true ∧
      Demo.rpcShellRefused.Shell (.withCancel 0)
          (shellReq { SessionID := "abc", Path := "", Pty := true }
            { TunnelID := 7, SessionID := "abc" }) =
        .ok { Response := some { Err := "no such session" } } ∧
      ∃ evs errPrefix,
        (Demo.client.handleShellStart Demo.json Demo.rpcShellRefused
            Demo.startPayload).trace = Demo.client.trace ++ evs ∧
        (Demo.client.handleShellStart Demo.json Demo.rpcShellRefused
            Demo.startPayload).shellSessions = Demo.client.shellSessions ∧
        (∀ s, Event.goReadTunnelData s ∉ evs) ∧
        Event.cancel (.withCancel 0) ∈ evs ∧
        sentOf evs = [envelope Demo.json TypeError
          (.stringMap [("error", errPrefix ++ "no such session")])] :=
  ⟨by decide, by decide, rfl,
    handleShellStart_failure_rolls_back Demo.client Demo.json Demo.rpcShellRefused
      Demo.startPayload { SessionID := "abc", Path := "", Pty := true }
      { TunnelID := 7, SessionID := "abc" }
      { Response := some { Err := "no such session" } } "no such session"
      (by decide) (by decide) (Or.inr (Or.inr (Or.inl ⟨rfl, rfl, rfl, by decide⟩)))⟩

/-- C4: when a tunnel was assigned and a later step fails (shell-start RPC error,
non-empty application error in the shell response, or stream-open error),
`handleShellStart` issues exactly one `CloseTunnel` call, carrying the assigned tunnel
identifier and the sessionId of the request, and whatever that call answers the
handler ends in the same state with the same trace, so the same is reported to the
client. -/
theorem handleShellStart_closes_tunnel_once (c : Client) (j : Json) (rpc : SliverRPC)
    (payload : RawMessage) (req : ShellStartPayload) (tunnel : Tunnel) (shell : Shell)
    (remoteErr : String)
    (hreq : j.unmarshalShellStart payload = some req)
    (hconn : IsConnected c.rpcClient = true)
    (hct : rpc.CreateTunnel (.withCancel c.nextCtx) (createTunnelReq req) = .ok tunnel)
    (hfail :
      rpc.Shell (.withCancel c.nextCtx) (shellReq req tunnel) = .error remoteErr ∨
      (rpc.Shell (.withCancel c.nextCtx) (shellReq req tunnel) = .ok shell ∧
        shell.Response = some { Err := remoteErr } ∧ remoteErr ≠ "") ∨
      (rpc.Shell (.withCancel c.nextCtx) (shellReq req tunnel) = .ok shell ∧
        shell.responseErr = "" ∧
        rpc.TunnelData (.withCancel c.nextCtx) = .error remoteErr)) :
    (∃ evs, (c.handleShellStart j rpc payload).trace = c.trace ++ evs ∧
      closeTunnelCalls evs = [{ TunnelID := tunnel.TunnelID, SessionID := req.SessionID }]) ∧
      ∀ answer : Context → Tunnel → Except String Tunnel,
        c.handleShellStart j { rpc with CloseTunnel := answer } payload =
          c.handleShellStart j rpc payload := by
  refine ⟨?_, fun answer => handleShellStart_congr c j rpc _ payload rfl rfl rfl⟩
  rcases hfail with hsh | ⟨hsh, hresp, hne⟩ | ⟨hsh, herr, hst⟩
  · rw [handleShellStart_shell_error c j rpc payload req tunnel remoteErr hreq hconn hct hsh]
    exact ⟨_, rfl, by simp [closeTunnelCalls, closeTunnelReq]⟩
  · have herr : shell.responseErr ≠ "" := by simpa [Shell.responseErr, hresp] using hne
    rw [handleShellStart_response_error c j rpc payload req tunnel shell hreq hconn hct hsh
      herr]
    exact ⟨_, rfl, by simp [closeTunnelCalls, closeTunnelReq]⟩
  · rw [handleShellStart_stream_error c j rpc payload req tunnel shell remoteErr hreq hconn
      hct hsh herr hst]
    exact ⟨_, rfl, by simp [closeTunnelCalls, closeTunnelReq]⟩

theorem handleShellStart_closes_tunnel_once_witness :
    Demo.json.unmarshalShellStart Demo.startPayload =
        some { SessionID := "abc", Path := "", Pty := true } ∧
      IsConnected Demo.client.rpcClient = true ∧
      Demo.rpcNoStream.TunnelData (.withCancel 0) = .error "stream refused" ∧
      ((∃ evs, (Demo.client.handleShellStart Demo.json Demo.rpcNoStream
            Demo.startPayload).trace = Demo.client.trace ++ evs ∧
          closeTunnelCalls evs = [{ TunnelID := 7, SessionID := "abc" }]) ∧
        ∀ answer : Context → Tunnel → Except String Tunnel,
          Demo.client.handleShellStart Demo.json
              { Demo.rpcNoStream with CloseTunnel := answer } Demo.startPayload =
            Demo.client.handleShellStart Demo.json Demo.rpcNoStream Demo.startPayload) :=
  ⟨by decide, by decide, rfl,
    handleShellStart_closes_tunnel_once Demo.client Demo.json Demo.rpcNoStream
      Demo.startPayload { SessionID := "abc", Path := "", Pty := true }
      { TunnelID := 7, SessionID := "abc" } { Response := none } "stream refused"
      (by decide) (by decide) rfl (Or.inr (Or.inr ⟨rfl, rfl, rfl⟩))⟩

/-- C5: when tunnel creation, the shell-start RPC (with no application error) and the
stream open all succeed, `handleShellStart` stores under the sessionId of the request a
session whose TunnelID is the identifier returned by `CreateTunnel` and whose stream
handle is the opened stream (not nil), spawns the read-pump of that session, and sends
exactly one message on the outbound queue: a shell_output envelope with that sessionId,
that tunnelId and empty data. -/
theorem handleShellStart_stores_session (c : Client) (j : Json) (rpc : SliverRPC)
    (payload : RawMessage) (req : ShellStartPayload) (tunnel : Tunnel) (shell : Shell)
    (stream : Nat)
    (hreq : j.unmarshalShellStart payload = some req)
    (hconn : IsConnected c.rpcClient = true)
    (hct : rpc.CreateTunnel (.withCancel c.nextCtx) (createTunnelReq req) = .ok tunnel)
    (hsh : rpc.Shell (.withCancel c.nextCtx) (shellReq req tunnel) = .ok shell)
    (herr : shell.responseErr = "")
    (hst : rpc.TunnelData (.withCancel c.nextCtx) = .ok stream) :
    ∃ session evs,
      mapGet (c.handleShellStart j rpc payload).shellSessions req.SessionID = some session ∧
      session.SessionID = req.SessionID ∧
      session.TunnelID = tunnel.TunnelID ∧
      session.tunnelStream = some stream ∧
      session.tunnelStream ≠ none ∧
      (c.handleShellStart j rpc payload).trace = c.trace ++ evs ∧
      Event.goReadTunnelData session ∈ evs ∧
      sentOf evs = [envelope j TypeShellOutput
        (.shellOutput { SessionID := req.SessionID, TunnelID := tunnel.TunnelID,
                        Data := [] })] := by
  rw [handleShellStart_success c j rpc payload req tunnel shell stream hreq hconn hct hsh
    herr hst]
  exact ⟨_, _, mapGet_mapSet_self _ _ _, rfl, rfl, rfl, by simp, rfl, by simp,
    by simp [sentOf]⟩

theorem handleShellStart_stores_session_witness :
    Demo.json.unmarshalShellStart Demo.startPayload =
        some { SessionID := "abc", Path := "", Pty := true } ∧
      IsConnected Demo.client.rpcClient = true ∧
      Demo.rpc.TunnelData (.withCancel 0) = .ok 1 ∧
      ∃ session evs,
        mapGet (Demo.client.handleShellStart Demo.json Demo.rpc
          Demo.startPayload).shellSessions "abc" = some session ∧
        session.SessionID = "abc" ∧
        session.TunnelID = 7 ∧
        session.tunnelStream = some 1 ∧
        session.tunnelStream ≠ none ∧
        (Demo.client.handleShellStart Demo.json Demo.rpc Demo.startPayload).trace =
          Demo.client.trace ++ evs ∧
        Event.goReadTunnelData session ∈ evs ∧
        sentOf evs = [envelope Demo.json TypeShellOutput
          (.shellOutput { SessionID := "abc", TunnelID := 7, Data := [] })] :=
  ⟨by decide, by decide, rfl,
    handleShellStart_stores_session Demo.client Demo.json Demo.rpc Demo.startPayload
      { SessionID := "abc", Path := "", Pty := true } { TunnelID := 7, SessionID := "abc" }
      { Response := none } 1 (by decide) (by decide) rfl rfl rfl rfl⟩

/-! ## Shell stop -/

theorem handleShellStop_absent (c : Client) (j : Json) (rpc : SliverRPC)
    (payload : RawMessage) (req : ShellInputPayload)
    (hreq : j.unmarshalShellInput payload = some req)
    (habsent : mapGet c.shellSessions req.SessionID = none) :
    c.handleShellStop j rpc payload =
      { c with trace := c.trace ++ [.chanSend (envelope j TypeShellOutput
          (.shellOutput { SessionID := req.SessionID, TunnelID := req.TunnelID,
                          Data := shellClosedData }))] } := by
  simp [Client.handleShellStop, hreq, habsent, Client.sendMessage, Client.emit, envelope]

theorem handleShellStop_connected (c : Client) (j : Json) (rpc : SliverRPC)
    (payload : RawMessage) (req : ShellInputPayload) (session : ShellSession)
    (hreq : j.unmarshalShellInput payload = some req)
    (hactive : mapGet c.shellSessions req.SessionID = some session)
    (hconn : IsConnected c.rpcClient = true) :
    c.handleShellStop j rpc payload =
      { c with
        nextCtx := c.nextCtx + 1
        shellSessions := mapDelete c.shellSessions req.SessionID
        trace := c.trace ++ (session.cancel.toList.map (fun h => Event.cancel (.withCancel h)) ++
          [.closeTunnel (.withTimeout c.nextCtx 5)
             (closeTunnelReq session.TunnelID req.SessionID),
           .chanSend (envelope j TypeShellOutput
             (.shellOutput { SessionID := req.SessionID, TunnelID := req.TunnelID,
                             Data := shellClosedData })),
           .cancel (.withTimeout c.nextCtx 5)]) } := by
  have hne : c.rpcClient ≠ none := by
    intro h; rw [h, IsConnected_none] at hconn; cases hconn
  cases hc : session.cancel <;>
    simp [Client.handleShellStop, hreq, hactive, hconn, hne, hc, Client.sendMessage,
      Client.emit, envelope]

theorem handleShellStop_disconnected (c : Client) (j : Json) (rpc : SliverRPC)
    (payload : RawMessage) (req : ShellInputPayload) (session : ShellSession)
    (hreq : j.unmarshalShellInput payload = some req)
    (hactive : mapGet c.shellSessions req.SessionID = some session)
    (hconn : IsConnected c.rpcClient = false) :
    c.handleShellStop j rpc payload =
      { c with
        shellSessions := mapDelete c.shellSessions req.SessionID
        trace := c.trace ++ (session.cancel.toList.map (fun h => Event.cancel (.withCancel h)) ++
          [.chanSend (envelope j TypeShellOutput
             (.shellOutput { SessionID := req.SessionID, TunnelID := req.TunnelID,
                             Data := shellClosedData }))]) } := by
  cases hc : session.cancel <;>
    simp [Client.handleShellStop, hreq, hactive, hconn, hc, Client.sendMessage,
      Client.emit, envelope]

/-- C6: for every client state and every shell_stop payload that decodes, the session
map of the state in which `handleShellStop` returns has no entry for the sessionId of
the payload. -/
theorem handleShellStop_removes_entry (c : Client) (j : Json) (rpc : SliverRPC)
    (payload : RawMessage) (req : ShellInputPayload)
    (hreq : j.unmarshalShellInput payload = some req) :
    mapGet (c.handleShellStop j rpc payload).shellSessions req.SessionID = none := by
  cases hget : mapGet c.shellSessions req.SessionID with
  | none => rw [handleShellStop_absent c j rpc payload req hreq hget]; exact hget
  | some session =>
    cases hconn : IsConnected c.rpcClient with
    | true =>
      rw [handleShellStop_connected c j rpc payload req session hreq hget hconn]
      exact mapGet_mapDelete_self _ _
    | false =>
      rw [handleShellStop_disconnected c j rpc payload req session hreq hget hconn]
      exact mapGet_mapDelete_self _ _

theorem handleShellStop_removes_entry_witness :
    Demo.json.unmarshalShellInput Demo.inputPayload =
        some { SessionID := "abc", TunnelID := 7, Data := "ls\n" } ∧
      mapGet Demo.active.shellSessions "abc" = some Demo.session ∧
      mapGet (Demo.active.handleShellStop Demo.json Demo.rpc
        Demo.inputPayload).shellSessions "abc" = none :=
  ⟨by decide, by decide,
    handleShellStop_removes_entry Demo.active Demo.json Demo.rpc Demo.inputPayload
      { SessionID := "abc", TunnelID := 7, Data := "ls\n" } (by decide)⟩

/-- C7: when the sessionId of a shell_stop has an active session, `handleShellStop`
invokes the cancellation handle of that session (when it has one), calls `CloseTunnel`
once with the stored tunnel identifier of the session when the Remote Bridge is
connected (and not at all otherwise), removes the entry, and sends exactly one message
on the outbound queue, the shell_output envelope with the closed notice
"\r\n[Shell closed]\r\n"; the answer of `CloseTunnel` changes nothing of this. -/
theorem handleShellStop_active (c : Client) (j : Json) (rpc : SliverRPC)
    (payload : RawMessage) (req : ShellInputPayload) (session : ShellSession)
    (hreq : j.unmarshalShellInput payload = some req)
    (hactive : mapGet c.shellSessions req.SessionID = some session) :
    (∃ evs, (c.handleShellStop j rpc payload).trace = c.trace ++ evs ∧
      (∀ cancel, session.cancel = some cancel → Event.cancel (.withCancel cancel) ∈ evs) ∧
      closeTunnelCalls evs =
        (if IsConnected c.rpcClient = true then
          [{ TunnelID := session.TunnelID, SessionID := req.SessionID }] else []) ∧
      sentOf evs = [envelope j TypeShellOutput
        (.shellOutput { SessionID := req.SessionID, TunnelID := req.TunnelID,
                        Data := goString "\r\n[Shell closed]\r\n" })]) ∧
      (c.handleShellStop j rpc payload).shellSessions =
        mapDelete c.shellSessions req.SessionID ∧
      mapGet (c.handleShellStop j rpc payload).shellSessions req.SessionID = none ∧
      ∀ answer : Context → Tunnel → Except String Tunnel,
        c.handleShellStop j { rpc with CloseTunnel := answer } payload =
          c.handleShellStop j rpc payload := by
  have hmap : (c.handleShellStop j rpc payload).shellSessions =
      mapDelete c.shellSessions req.SessionID := by
    cases hconn : IsConnected c.rpcClient with
    | true => rw [handleShellStop_connected c j rpc payload req session hreq hactive hconn]
    | false =>
      rw [handleShellStop_disconnected c j rpc payload req session hreq hactive hconn]
  refine ⟨?_, hmap, by rw [hmap]; exact mapGet_mapDelete_self _ _, fun _ => rfl⟩
  · cases hconn : IsConnected c.rpcClient with
    | true =>
      rw [handleShellStop_connected c j rpc payload req session hreq hactive hconn]
      refine ⟨_, rfl, ?_, ?_, ?_⟩
      · intro cancel hc; simp [hc]
      · cases hc : session.cancel <;> simp [closeTunnelCalls, closeTunnelReq]
      · cases hc : session.cancel <;> simp [sentOf, shellClosedData]
    | false =>
      rw [handleShellStop_disconnected c j rpc payload req session hreq hactive hconn]
      refine ⟨_, rfl, ?_, ?_, ?_⟩
      · intro cancel hc; simp [hc]
      · cases hc : session.cancel <;> simp [closeTunnelCalls]
      · cases hc : session.cancel <;> simp [sentOf, shellClosedData]

theorem handleShellStop_active_witness :
    Demo.json.unmarshalShellInput Demo.inputPayload =
        some { SessionID := "abc", TunnelID := 7, Data := "ls\n" } ∧
      mapGet Demo.active.shellSessions "abc" = some Demo.session ∧
      ∃ evs, (Demo.active.handleShellStop Demo.json Demo.rpcNoStream
          Demo.inputPayload).trace = Demo.active.trace ++ evs ∧
        (∀ cancel, Demo.session.cancel = some cancel → Event.cancel (.withCancel cancel) ∈ evs) ∧
        closeTunnelCalls evs =
          (if IsConnected Demo.active.rpcClient = true then
            [{ TunnelID := 7, SessionID := "abc" }] else []) ∧
        sentOf evs = [envelope Demo.json TypeShellOutput
          (.shellOutput { SessionID := "abc", TunnelID := 7,
                          Data := goString "\r\n[Shell closed]\r\n" })] :=
  ⟨by decide, by decide,
    (handleShellStop_active Demo.active Demo.json Demo.rpcNoStream Demo.inputPayload
      { SessionID := "abc", TunnelID := 7, Data := "ls\n" } Demo.session
      (by decide) (by decide)).1⟩

/-! ## Read-pump -/

theorem sent_sendMessage (c : Client) (j : Json) (msgType : String) (payload : GoValue) :
    (c.sendMessage j msgType payload).sent = c.sent ++ [envelope j msgType payload] := by
  simp [Client.sent, sentOf, Client.sendMessage, Client.emit, envelope]

theorem sent_emit_logPrintf (c : Client) (msg : String) :
    (c.emit (.logPrintf msg)).sent = c.sent := by
  simp [Client.sent, sentOf, Client.emit]

theorem readTunnelData_cons_data (c : Client) (j : Json) (session : ShellSession)
    (d : TunnelData) (rs : List RecvResult) (hd : d.Closed = false) :
    c.readTunnelData j session (.data d :: rs) =
      (c.sendMessage j TypeShellOutput
        (.shellOutput { SessionID := session.SessionID, TunnelID := session.TunnelID,
                        Data := d.Data })).readTunnelData j session rs := by
  simp [Client.readTunnelData, Client.readTunnelDataIter, hd]

theorem readTunnelData_frames (j : Json) (session : ShellSession)
    (frames : List TunnelData) (hframes : ∀ d ∈ frames, d.Closed = false)
    (c : Client) (rest : List RecvResult) :
    ∃ c1 : Client, c1.sent = c.sent ++ frames.map (fun d => outputEnvelope j session d.Data) ∧
      c1.shellSessions = c.shellSessions ∧
      c.readTunnelData j session (frames.map RecvResult.data ++ rest) =
        c1.readTunnelData j session rest := by
  induction frames generalizing c with
  | nil => exact ⟨c, by simp, rfl, rfl⟩
  | cons d ds ih =>
    have hd : d.Closed = false := hframes d (List.mem_cons_self _ _)
    obtain ⟨c1, hsent, hmap, hrun⟩ := ih (fun x hx => hframes x (List.mem_cons_of_mem _ hx))
      (c.sendMessage j TypeShellOutput
        (.shellOutput { SessionID := session.SessionID, TunnelID := session.TunnelID,
                        Data := d.Data }))
    refine ⟨c1, ?_, ?_, ?_⟩
    · rw [hsent, sent_sendMessage]; simp [outputEnvelope]
    · rw [hmap]; rfl
    · rw [← hrun]
      exact readTunnelData_cons_data c j session d _ hd

/-- C8: run against the receive results of its stream, `readTunnelData` sends on the
outbound queue, in order, one shell_output envelope per received frame without the
closed flag, with the sessionId and tunnelId of the session and the data of the frame,
up to the first terminator; at end-of-stream or at a frame with the closed flag it then
sends exactly one closed notice "\r\n[Shell closed]\r\n" and returns; at a transport
error it sends nothing more and returns; whatever follows the terminator is not
forwarded. While no terminator has arrived it has forwarded every frame and has not
returned. -/
theorem readTunnelData_forwards (c : Client) (j : Json) (session : ShellSession)
    (frames : List TunnelData) (hframes : ∀ d ∈ frames, d.Closed = false) :
    ((c.readTunnelData j session (frames.map RecvResult.data)).1.sent =
        c.sent ++ frames.map (fun d => envelope j TypeShellOutput
          (.shellOutput { SessionID := session.SessionID, TunnelID := session.TunnelID,
                          Data := d.Data })) ∧
      (c.readTunnelData j session (frames.map RecvResult.data)).2 = false) ∧
    (∀ post : List RecvResult,
      (c.readTunnelData j session (frames.map RecvResult.data ++ .eof :: post)).1.sent =
        c.sent ++ frames.map (fun d => envelope j TypeShellOutput
          (.shellOutput { SessionID := session.SessionID, TunnelID := session.TunnelID,
                          Data := d.Data })) ++
          [envelope j TypeShellOutput
            (.shellOutput { SessionID := session.SessionID, TunnelID := session.TunnelID,
                            Data := goString "\r\n[Shell closed]\r\n" })] ∧
      (c.readTunnelData j session (frames.map RecvResult.data ++ .eof :: post)).2 = true) ∧
    (∀ (last : TunnelData) (post : List RecvResult), last.Closed = true →
      (c.readTunnelData j session
          (frames.map RecvResult.data ++ .data last :: post)).1.sent =
        c.sent ++ frames.map (fun d => envelope j TypeShellOutput
          (.shellOutput { SessionID := session.SessionID, TunnelID := session.TunnelID,
                          Data := d.Data })) ++
          [envelope j TypeShellOutput
            (.shellOutput { SessionID := session.SessionID, TunnelID := session.TunnelID,
                            Data := goString "\r\n[Shell closed]\r\n" })] ∧
      (c.readTunnelData j session
          (frames.map RecvResult.data ++ .data last :: post)).2 = true) ∧
    (∀ (err : String) (ctxDone : Bool) (post : List RecvResult),
      (c.readTunnelData j session
          (frames.map RecvResult.data ++ .error err ctxDone :: post)).1.sent =
        c.sent ++ frames.map (fun d => envelope j TypeShellOutput
          (.shellOutput { SessionID := session.SessionID, TunnelID := session.TunnelID,
                          Data := d.Data })) ∧
      (c.readTunnelData j session
          (frames.map RecvResult.data ++ .error err ctxDone :: post)).2 = true) := by
  refine ⟨?_, ?_, ?_, ?_⟩
  · obtain ⟨c1, hsent, -, hrun⟩ := readTunnelData_frames j session frames hframes c []
    rw [List.append_nil] at hrun
    rw [hrun]
    exact ⟨hsent, rfl⟩
  · intro post
    obtain ⟨c1, hsent, -, hrun⟩ :=
      readTunnelData_frames j session frames hframes c (.eof :: post)
    rw [hrun]
    simp [Client.readTunnelData, Client.readTunnelDataIter, Client.sent, sentOf,
      Client.sendMessage, Client.emit, shellClosedData] at hsent ⊢
    simp [hsent, outputEnvelope, envelope]
  · intro last post hlast
    obtain ⟨c1, hsent, -, hrun⟩ :=
      readTunnelData_frames j session frames hframes c (.data last :: post)
    rw [hrun]
    simp [Client.readTunnelData, Client.readTunnelDataIter, Client.sent, sentOf,
      Client.sendMessage, Client.emit, shellClosedData, hlast] at hsent ⊢
    simp [hsent, outputEnvelope, envelope]
  · intro err ctxDone post
    obtain ⟨c1, hsent, -, hrun⟩ :=
      readTunnelData_frames j session frames hframes c (.error err ctxDone :: post)
    rw [hrun]
    cases ctxDone <;>
      simp [Client.readTunnelData, Client.readTunnelDataIter, Client.sent, sentOf,
        Client.emit] at hsent ⊢ <;>
      simp [hsent, outputEnvelope, envelope]

theorem readTunnelData_forwards_witness :
    (∀ d ∈ [Demo.frame], d.Closed = false) ∧
      (Demo.active.readTunnelData Demo.json Demo.session
          ([Demo.frame].map RecvResult.data ++ [.eof, .data Demo.frame])).1.sent =
        Demo.active.sent ++ [Demo.frame].map (fun d => envelope Demo.json TypeShellOutput
          (.shellOutput { SessionID := "abc", TunnelID := 7, Data := d.Data })) ++
          [envelope Demo.json TypeShellOutput
            (.shellOutput { SessionID := "abc", TunnelID := 7,
                            Data := goString "\r\n[Shell closed]\r\n" })] :=
  ⟨by decide,
    ((readTunnelData_forwards Demo.active Demo.json Demo.session [Demo.frame]
      (by decide)).2.1 [.data Demo.frame]).1⟩

theorem readTunnelData_exit (j : Json) (session : ShellSession) (rs : List RecvResult)
    (c : Client)
    (hterm : ∃ r ∈ rs, r = RecvResult.eof ∨ (∃ d, r = .data d ∧ d.Closed = true) ∨
      ∃ err ctxDone, r = .error err ctxDone) :
    (c.readTunnelData j session rs).2 = true ∧
      mapGet (c.readTunnelData j session rs).1.shellSessions session.SessionID = none := by
  induction rs generalizing c with
  | nil => obtain ⟨r, hr, -⟩ := hterm; cases hr
  | cons r rs ih =>
    cases r with
    | eof =>
      simp [Client.readTunnelData, Client.readTunnelDataIter, mapGet_mapDelete_self]
    | error err ctxDone =>
      cases ctxDone <;>
        simp [Client.readTunnelData, Client.readTunnelDataIter, mapGet_mapDelete_self]
    | data d =>
      cases hd : d.Closed with
      | true =>
        simp [Client.readTunnelData, Client.readTunnelDataIter, hd, mapGet_mapDelete_self]
      | false =>
        rw [readTunnelData_cons_data c j session d rs hd]
        apply ih
        obtain ⟨r, hr, hkind⟩ := hterm
        rcases List.mem_cons.1 hr with hhead | htail
        · exfalso
          subst hhead
          rcases hkind with h | ⟨d2, h, hclosed⟩ | ⟨err, ctxDone, h⟩
          · cases h
          · cases h; rw [hd] at hclosed; cases hclosed
          · cases h
        · exact ⟨r, htail, hkind⟩

/-- C9: whenever the receive results of a session's stream contain a terminator
(end-of-stream, a frame with the closed flag, or an error, be it a transport failure or
the one that follows cancellation), `readTunnelData` returns, the session map then has
no entry for the key of that session, and a shell_input for that key handled in that
state sends exactly the error envelope "No active shell session for: " + key and
changes nothing else. -/
theorem readTunnelData_exit_removes_session (c : Client) (j : Json) (rpc : SliverRPC)
    (session : ShellSession) (rs : List RecvResult)
    (hterm : ∃ r ∈ rs, r = RecvResult.eof ∨ (∃ d, r = .data d ∧ d.Closed = true) ∨
      ∃ err ctxDone, r = .error err ctxDone) :
    (c.readTunnelData j session rs).2 = true ∧
      mapGet (c.readTunnelData j session rs).1.shellSessions session.SessionID = none ∧
      ∀ payload req, j.unmarshalShellInput payload = some req →
        req.SessionID = session.SessionID →
        (c.readTunnelData j session rs).1.handleShellInput j rpc payload =
          { (c.readTunnelData j session rs).1 with
            trace := (c.readTunnelData j session rs).1.trace ++
              [.chanSend (envelope j TypeError (.stringMap
                [("error", "No active shell session for: " ++ session.SessionID)]))] } := by
  obtain ⟨hexit, hgone⟩ := readTunnelData_exit j session rs c hterm
  refine ⟨hexit, hgone, ?_⟩
  intro payload req hreq hkey
  have habsent : mapGet (c.readTunnelData j session rs).1.shellSessions req.SessionID =
      none := by rw [hkey]; exact hgone
  rw [handleShellInput_absent _ j rpc payload req hreq habsent, hkey]

theorem readTunnelData_exit_removes_session_witness :
    (∃ r ∈ [RecvResult.data Demo.frame, .error "context canceled" true],
        r = RecvResult.eof ∨ (∃ d, r = .data d ∧ d.Closed = true) ∨
        ∃ err ctxDone, r = .error err ctxDone) ∧
      mapGet Demo.active.shellSessions "abc" = some Demo.session ∧
      (Demo.active.readTunnelData Demo.json Demo.session
        [.data Demo.frame, .error "context canceled" true]).2 = true ∧
      mapGet (Demo.active.readTunnelData Demo.json Demo.session
        [.data Demo.frame, .error "context canceled" true]).1.shellSessions "abc" = none :=
  have hterm : ∃ r ∈ [RecvResult.data Demo.frame, .error "context canceled" true],
      r = RecvResult.eof ∨ (∃ d, r = .data d ∧ d.Closed = true) ∨
      ∃ err ctxDone, r = .error err ctxDone :=
    ⟨.error "context canceled" true, by simp, Or.inr (Or.inr ⟨_, _, rfl⟩)⟩
  ⟨hterm, by decide,
    (readTunnelData_exit_removes_session Demo.active Demo.json Demo.rpc Demo.session
      [.data Demo.frame, .error "context canceled" true] hterm).1,
    (readTunnelData_exit_removes_session Demo.active Demo.json Demo.rpc Demo.session
      [.data Demo.frame, .error "context canceled" true] hterm).2.1⟩

/-! ## Outbound queue and registry -/

theorem Chan.deliver_of_room (ms : List Bytes) (ch : Chan) (hopen : ch.closed = false)
    (hroom : ch.buf.length + ms.length ≤ sendCap) :
    ch.deliver ms = .enqueued { ch with buf := ch.buf ++ ms } := by
  induction ms generalizing ch with
  | nil => simp [Chan.deliver]
  | cons m ms ih =>
    have hlt : ch.buf.length < sendCap := by
      simp only [List.length_cons] at hroom; omega
    have hstep : ch.send m = .enqueued { ch with buf := ch.buf ++ [m] } := by
      simp [Chan.send, hopen, hlt]
    have hrest := ih { ch with buf := ch.buf ++ [m] } hopen
      (by simp only [List.length_append, List.length_cons, List.length_nil] at hroom ⊢; omega)
    simp only [Chan.deliver, hstep]
    rw [hrest]
    simp

theorem Hub.broadcastTo_registeredOpen (message : Bytes) (h : Hub) (client : Nat)
    (hwf : h.registeredOpen) :
    ∃ h2, Hub.broadcastTo message h client = some h2 ∧ h2.registeredOpen := by
  unfold Hub.broadcastTo
  by_cases hmem : client ∈ h.clients
  · have hopen := hwf client hmem
    by_cases hroom : (h.chans client).buf.length < sendCap
    · refine ⟨_, by simp [hmem, hopen, hroom]; rfl, ?_⟩
      intro p hp
      by_cases hpc : p = client
      · subst hpc; simp [hopen]
      · simpa [Function.update, hpc] using hwf p hp
    · refine ⟨_, by simp [hmem, hopen, hroom]; rfl, ?_⟩
      intro p hp
      have hp2 : p ∈ h.clients ∧ p ≠ client := by simpa using hp
      simpa [Function.update, hp2.2] using hwf p hp2.1
  · exact ⟨h, by simp [hmem], hwf⟩

theorem Hub.broadcast_registeredOpen (message : Bytes) (l : List Nat) (h : Hub)
    (hwf : h.registeredOpen) :
    ∃ h2, l.foldlM (Hub.broadcastTo message) h = some h2 ∧ h2.registeredOpen := by
  induction l generalizing h with
  | nil => exact ⟨h, rfl, hwf⟩
  | cons p ps ih =>
    obtain ⟨h1, hstep, hwf1⟩ := Hub.broadcastTo_registeredOpen message h p hwf
    obtain ⟨h2, hrest, hwf2⟩ := ih h1 hwf1
    exact ⟨h2, by simp [List.foldlM_cons, hstep, hrest], hwf2⟩

/-- The hub loop never panics and keeps every registered queue open, as long as the
clients that register come with an open queue. -/
theorem Hub.run_registeredOpen (h : Hub) (msg : HubMsg) (hwf : h.registeredOpen)
    (hnew : ∀ p, msg = .register p → (h.chans p).closed = false) :
    ∃ h2, h.run msg = some h2 ∧ h2.registeredOpen := by
  cases msg with
  | register client =>
    refine ⟨_, rfl, ?_⟩
    intro p hp
    by_cases hmem : client ∈ h.clients
    · exact hwf p (by simpa [hmem] using hp)
    · have hp2 : p = client ∨ p ∈ h.clients := by simpa [hmem] using hp
      rcases hp2 with hpc | hpo
      · subst hpc; exact hnew p rfl
      · exact hwf p hpo
  | unregister client =>
    by_cases hmem : client ∈ h.clients
    · have hopen := hwf client hmem
      refine ⟨_, by simp [Hub.run, hmem, Chan.close, hopen]; rfl, ?_⟩
      intro p hp
      have hp2 : p ∈ h.clients ∧ p ≠ client := by simpa using hp
      simpa [Function.update, hp2.2] using hwf p hp2.1
    · exact ⟨h, by simp [Hub.run, hmem], hwf⟩
  | broadcast message => exact Hub.broadcast_registeredOpen message h.clients h hwf

/-! ## Hub: unregister -/

theorem foldl_cancel_eq (l : List (String × ShellSession)) (c : Client) :
    l.foldl (fun c kv => match kv.2.cancel with
      | some cancel => c.emit (.cancel (.withCancel cancel))
      | none => c) c =
      { c with trace := c.trace ++ l.filterMap (fun kv => kv.2.cancel.map (fun h => Event.cancel (.withCancel h))) } := by
  induction l generalizing c with
  | nil => simp
  | cons kv rest ih =>
    rw [List.foldl_cons, ih]
    cases hc : kv.2.cancel <;> simp [hc, Client.emit]

theorem cleanupShellSessions_eq (c : Client) :
    c.cleanupShellSessions =
      { c with
        shellSessions := []
        trace := c.trace ++
          c.shellSessions.filterMap (fun kv => kv.2.cancel.map (fun h => Event.cancel (.withCancel h))) } := by
  simp [Client.cleanupShellSessions, foldl_cancel_eq]

/-- C10: handling unregister for a registered client (whose queue, like that of every
registered client, is open) removes it from the registry, closes its outbound queue
with exactly one `close` (the pending messages stay), invokes the cancellation handle
of every session in its session map and leaves that map empty; for every other client
the registry membership, the client state (sessions included) and the queue are
unchanged. -/
theorem unregister_registered (h : Hub) (client : Nat)
    (hreg : client ∈ h.clients) (hopen : (h.chans client).closed = false) :
    ∃ h2, h.run (.unregister client) = some h2 ∧
      client ∉ h2.clients ∧
      h2.chans client = { buf := (h.chans client).buf, closed := true } ∧
      (∃ evs, (h2.heap client).trace = (h.heap client).trace ++ evs ∧
        evs.count .chanClose = 1 ∧
        ∀ kv ∈ (h.heap client).shellSessions, ∀ cancel, kv.2.cancel = some cancel →
          Event.cancel (.withCancel cancel) ∈ evs) ∧
      (h2.heap client).shellSessions = [] ∧
      ∀ p, p ≠ client →
        (p ∈ h2.clients ↔ p ∈ h.clients) ∧ h2.heap p = h.heap p ∧ h2.chans p = h.chans p := by
  refine ⟨_, by simp [Hub.run, hreg, Chan.close, hopen]; rfl, ?_, ?_, ?_, ?_, ?_⟩
  · simp
  · simp
  · refine ⟨Event.chanClose ::
      (h.heap client).shellSessions.filterMap (fun kv => kv.2.cancel.map (fun h => Event.cancel (.withCancel h))),
      ?_, ?_, ?_⟩
    · simp [cleanupShellSessions_eq, Client.emit]
    · rw [List.count_cons_self, List.count_eq_zero_of_not_mem]
      simp
    · intro kv hkv cancel hc
      apply List.mem_cons_of_mem
      exact List.mem_filterMap.2 ⟨kv, hkv, by simp [hc]⟩
  · simp [cleanupShellSessions_eq]
  · intro p hp
    simp [hp, Function.update]

theorem unregister_registered_witness :
    (1 ∈ Demo.hub.clients ∧ (Demo.hub.chans 1).closed = false) ∧
      ∃ h2, Demo.hub.run (.unregister 1) = some h2 ∧
        1 ∉ h2.clients ∧
        h2.chans 1 = { buf := (Demo.hub.chans 1).buf, closed := true } ∧
        (∃ evs, (h2.heap 1).trace = (Demo.hub.heap 1).trace ++ evs ∧
          evs.count .chanClose = 1 ∧
          ∀ kv ∈ (Demo.hub.heap 1).shellSessions, ∀ cancel, kv.2.cancel = some cancel →
            Event.cancel (.withCancel cancel) ∈ evs) ∧
        (h2.heap 1).shellSessions = [] ∧
        ∀ p, p ≠ 1 →
          (p ∈ h2.clients ↔ p ∈ Demo.hub.clients) ∧ h2.heap p = Demo.hub.heap p ∧
            h2.chans p = Demo.hub.chans p :=
  ⟨⟨by decide, by decide⟩, unregister_registered Demo.hub 1 (by decide) (by decide)⟩

/-! ## Teardown of a connection -/

/-- Handling unregister adds no `CloseTunnel` call to the trace of any client. -/
theorem unregister_closeTunnelCalls (h h2 : Hub) (client p : Nat)
    (hrun : h.run (.unregister client) = some h2) :
    closeTunnelCalls (h2.heap p).trace = closeTunnelCalls (h.heap p).trace := by
  by_cases hmem : client ∈ h.clients
  · cases hclose : (h.chans client).close with
    | none => simp [Hub.run, hmem, hclose] at hrun
    | some ch =>
      simp only [Hub.run, hmem, hclose, if_true, Option.some.injEq] at hrun
      subst hrun
      by_cases hp : p = client
      · subst hp
        simp [cleanupShellSessions_eq, Client.emit, closeTunnelCalls, List.filterMap_append,
          List.filterMap_filterMap]
      · simp [Function.update, hp]
  · simp only [Hub.run, hmem, if_false, Option.some.injEq] at hrun
    subst hrun
    rfl

/-- C11, the code at a failing input: client 1 owns the session "abc" on tunnel 7; its
inbound task ends on a read error and sends itself on `hub.unregister`, and the hub
handles the unregister. The trace of the client then holds the log line, the
unregister, the close of the socket, the close of the queue and the cancellation of the
session, and no `CloseTunnel` call at all, although the claim asks for one with tunnel
7 and key "abc". -/
theorem teardown_issues_no_closeTunnel :
    mapGet Demo.active.shellSessions "abc" = some Demo.session ∧
      (Demo.active.readPump Demo.json Demo.rpc [.error "close 1011" true]).2 = true ∧
      ∃ h2, ({ Demo.hub with
            heap := Function.update Demo.hub.heap 1
              (Demo.active.readPump Demo.json Demo.rpc [.error "close 1011" true]).1 }).run
            (.unregister 1) = some h2 ∧
        (h2.heap 1).trace =
          [.logPrintf "WebSocket error: close 1011", .hubUnregister, .connClose,
           .chanClose, .cancel (.withCancel 0)] ∧
        (h2.heap 1).shellSessions = [] ∧
        closeTunnelCalls (h2.heap 1).trace = [] := by
  refine ⟨by decide, by decide, _, rfl, ?_, ?_, ?_⟩
  · simp [Function.update, cleanupShellSessions_eq, Client.emit, Client.readPump,
      Client.readPumpIter, Demo.active, Demo.client, Demo.session]
  · simp [Function.update, cleanupShellSessions_eq]
  · simp [Function.update, cleanupShellSessions_eq, Client.emit, Client.readPump,
      Client.readPumpIter, Demo.active, Demo.client, Demo.session, closeTunnelCalls]

/-- C12: handling unregister for a client that is not in the registry returns the hub
as it was: registry, client states and queues are unchanged, and no queue is closed
(again). Hence for every hub, handling unregister twice for the same client gives what
handling it once gives. -/
theorem unregister_absent (h : Hub) (client : Nat) (habsent : client ∉ h.clients) :
    h.run (.unregister client) = some h ∧
      ∀ h0 : Hub, (h0.run (.unregister client)).bind (fun h1 => h1.run (.unregister client)) =
        h0.run (.unregister client) := by
  refine ⟨by simp [Hub.run, habsent], ?_⟩
  intro h0
  by_cases hmem : client ∈ h0.clients
  · cases hclose : (h0.chans client).close with
    | none => simp [Hub.run, hmem, hclose]
    | some ch => simp [Hub.run, hmem, hclose]
  · simp [Hub.run, hmem]

theorem unregister_absent_witness :
    3 ∉ Demo.hub.clients ∧
      (Demo.hub.run (.unregister 3) = some Demo.hub ∧
        ∀ h0 : Hub, (h0.run (.unregister 3)).bind (fun h1 => h1.run (.unregister 3)) =
          h0.run (.unregister 3)) :=
  ⟨by decide, unregister_absent Demo.hub 3 (by decide)⟩

/-! ## Hub: broadcast -/

/-- Result of the broadcast loop over the clients `l`, all registered with an open
queue: a client of `l` with room gets the message at the tail of its queue, a client of
`l` without room has its queue closed and leaves the registry. -/
theorem Hub.broadcast_fold (message : Bytes) (l : List Nat) (h : Hub)
    (hnodup : l.Nodup) (hreg : ∀ q ∈ l, q ∈ h.clients)
    (hopen : ∀ q ∈ l, (h.chans q).closed = false) :
    ∃ h2, l.foldlM (Hub.broadcastTo message) h = some h2 ∧
      h2.clients = h.clients.filter
        (fun q => !(decide (q ∈ l) && decide (sendCap ≤ (h.chans q).buf.length))) ∧
      (∀ q, h2.chans q =
        if q ∈ l then
          if (h.chans q).buf.length < sendCap then
            { buf := (h.chans q).buf ++ [message], closed := false }
          else { buf := (h.chans q).buf, closed := true }
        else h.chans q) ∧
      (∀ q, h2.heap q =
        if q ∈ l ∧ sendCap ≤ (h.chans q).buf.length then (h.heap q).emit .chanClose
        else h.heap q) ∧
      h2.rpcClient = h.rpcClient := by
  induction l generalizing h with
  | nil => exact ⟨h, rfl, by simp, by simp, by simp, rfl⟩
  | cons p ps ih =>
    obtain ⟨hpnot, hps⟩ := List.nodup_cons.1 hnodup
    have hpreg := hreg p (List.mem_cons_self _ _)
    have hpopen := hopen p (List.mem_cons_self _ _)
    have hne : ∀ q ∈ ps, q ≠ p := fun q hq hqp => hpnot (hqp ▸ hq)
    by_cases hroom : (h.chans p).buf.length < sendCap
    · obtain ⟨h2, hfold, hcl, hch, hheap, hrpc⟩ :=
        ih { h with
              chans := Function.update h.chans p
                ⟨(h.chans p).buf ++ [message], false⟩ } hps
          (fun q hq => hreg q (List.mem_cons_of_mem _ hq))
          (fun q hq => by
            simpa [Function.update, hne q hq] using hopen q (List.mem_cons_of_mem _ hq))
      refine ⟨h2, ?_, ?_, ?_, ?_, hrpc⟩
      · simp [List.foldlM_cons, Hub.broadcastTo, hpreg, hpopen, hroom, hfold]
      · rw [hcl]
        apply List.filter_congr
        intro q _
        by_cases hqp : q = p
        · subst hqp; simp [hpnot, Nat.not_le.2 hroom]
        · simp [Function.update, hqp]
      · intro q
        rw [hch q]
        by_cases hqp : q = p
        · subst hqp; simp [hpnot, hroom, hpopen]
        · simp [Function.update, hqp]
      · intro q
        rw [hheap q]
        by_cases hqp : q = p
        · subst hqp; simp [hpnot, Nat.not_le.2 hroom]
        · simp [Function.update, hqp]
    · obtain ⟨h2, hfold, hcl, hch, hheap, hrpc⟩ :=
        ih { h with
              chans := Function.update h.chans p ⟨(h.chans p).buf, true⟩
              heap := Function.update h.heap p ((h.heap p).emit .chanClose)
              clients := h.clients.filter (fun q => q ≠ p) } hps
          (fun q hq => by
            simpa [hne q hq] using hreg q (List.mem_cons_of_mem _ hq))
          (fun q hq => by
            simpa [Function.update, hne q hq] using hopen q (List.mem_cons_of_mem _ hq))
      refine ⟨h2, ?_, ?_, ?_, ?_, hrpc⟩
      · simpa [List.foldlM_cons, Hub.broadcastTo, hpreg, hpopen, hroom] using hfold
      · rw [hcl, List.filter_filter]
        apply List.filter_congr
        intro q _
        by_cases hqp : q = p
        · subst hqp; simp [Nat.le_of_not_lt hroom]
        · simp [Function.update, hqp]
      · intro q
        rw [hch q]
        by_cases hqp : q = p
        · subst hqp; simp [hpnot, hroom]
        · simp [Function.update, hqp]
      · intro q
        rw [hheap q]
        by_cases hqp : q = p
        · subst hqp; simp [hpnot, Nat.le_of_not_lt hroom]
        · simp [Function.update, hqp]

theorem Hub.broadcastTo_sublist (message : Bytes) (h h2 : Hub) (client : Nat)
    (hstep : Hub.broadcastTo message h client = some h2) :
    h2.clients.Sublist h.clients := by
  unfold Hub.broadcastTo at hstep
  by_cases hmem : client ∈ h.clients
  · cases hclosed : (h.chans client).closed with
    | true => simp [hmem, hclosed] at hstep
    | false =>
      by_cases hroom : (h.chans client).buf.length < sendCap
      · simp [hmem, hclosed, hroom] at hstep
        rw [← hstep]
      · simp [hmem, hclosed, hroom] at hstep
        rw [← hstep]
        exact List.filter_sublist _
  · simp [hmem] at hstep
    rw [← hstep]

theorem Hub.broadcast_sublist (message : Bytes) (l : List Nat) (h h2 : Hub)
    (hfold : l.foldlM (Hub.broadcastTo message) h = some h2) :
    h2.clients.Sublist h.clients := by
  induction l generalizing h with
  | nil =>
    simp only [List.foldlM_nil] at hfold
    cases hfold
    exact List.Sublist.refl _
  | cons p ps ih =>
    rw [List.foldlM_cons] at hfold
    cases hstep : Hub.broadcastTo message h p with
    | none => rw [hstep] at hfold; cases hfold
    | some h1 =>
      rw [hstep] at hfold
      exact (ih h1 hfold).trans (Hub.broadcastTo_sublist message h h1 p hstep)

/-- The registry, a map, never lists a client twice. -/
theorem Hub.run_nodup (h h2 : Hub) (msg : HubMsg) (hnodup : h.clients.Nodup)
    (hrun : h.run msg = some h2) : h2.clients.Nodup := by
  cases msg with
  | register client =>
    simp only [Hub.run, Option.some.injEq] at hrun
    subst hrun
    by_cases hmem : client ∈ h.clients
    · simpa [hmem] using hnodup
    · simpa [hmem] using hnodup
  | unregister client =>
    by_cases hmem : client ∈ h.clients
    · cases hclose : (h.chans client).close with
      | none => simp [Hub.run, hmem, hclose] at hrun
      | some ch =>
        simp only [Hub.run, hmem, hclose, if_true, Option.some.injEq] at hrun
        subst hrun
        exact hnodup.sublist (List.filter_sublist _)
    · simp only [Hub.run, hmem, if_false, Option.some.injEq] at hrun
      subst hrun
      exact hnodup
  | broadcast message =>
    exact hnodup.sublist (Hub.broadcast_sublist message h.clients h h2 hrun)

/-- C13: in a registry without repetition whose clients all have an open queue, of
which exactly one, `p`, is full (256 pending messages), one broadcast step completes
(the hub does not wait on any queue), appends the message at the tail of the queue of
every other registered client and leaves those clients registered and unchanged,
closes the queue of `p` with its pending messages left in place, and removes `p` from
the registry, which so has one client less. -/
theorem broadcast_evicts_full_client (h : Hub) (message : Bytes) (p : Nat)
    (hnodup : h.clients.Nodup) (hopen : h.registeredOpen) (hp : p ∈ h.clients)
    (hfull : (h.chans p).buf.length = sendCap)
    (hothers : ∀ q ∈ h.clients, q ≠ p → (h.chans q).buf.length < sendCap) :
    ∃ h2, h.run (.broadcast message) = some h2 ∧
      (∀ q ∈ h.clients, q ≠ p →
        h2.chans q = { buf := (h.chans q).buf ++ [message], closed := false } ∧
        q ∈ h2.clients ∧ h2.heap q = h.heap q) ∧
      h2.chans p = { buf := (h.chans p).buf, closed := true } ∧
      p ∉ h2.clients ∧
      h2.clients = h.clients.filter (fun q => q ≠ p) ∧
      h2.clients.length + 1 = h.clients.length := by
  obtain ⟨h2, hfold, hcl, hch, hheap, -⟩ :=
    Hub.broadcast_fold message h.clients h hnodup (fun _ hq => hq) hopen
  have hclients : h2.clients = h.clients.filter (fun q => q ≠ p) := by
    rw [hcl]
    apply List.filter_congr
    intro q hq
    by_cases hqp : q = p
    · subst hqp; simp [hq, hfull]
    · simp [hq, hqp, Nat.not_le.2 (hothers q hq hqp)]
  refine ⟨h2, hfold, ?_, ?_, ?_, hclients, ?_⟩
  · intro q hq hqp
    refine ⟨?_, ?_, ?_⟩
    · rw [hch q]; simp [hq, hothers q hq hqp]
    · rw [hclients]; simp [hq, hqp]
    · rw [hheap q]; simp [Nat.not_le.2 (hothers q hq hqp)]
  · rw [hch p]; simp [hp, hfull]
  · rw [hclients]; simp
  · have herase : h.clients.erase p = h.clients.filter (fun q => q ≠ p) := by
      rw [hnodup.erase_eq_filter]
      apply List.filter_congr
      intro q _
      by_cases hqp : q = p <;> simp [hqp]
    rw [hclients, ← herase, List.length_erase_of_mem hp]
    have hpos : 0 < h.clients.length := List.length_pos_of_mem hp
    omega

theorem Demo.fullQueue_length : Demo.fullQueue.length = 256 :=
  List.length_replicate _ _

theorem broadcast_evicts_full_client_witness :
    (Demo.fullHub.clients.Nodup ∧ Demo.fullHub.registeredOpen ∧ 2 ∈ Demo.fullHub.clients ∧
        (Demo.fullHub.chans 2).buf.length = sendCap ∧
        ∀ q ∈ Demo.fullHub.clients, q ≠ 2 → (Demo.fullHub.chans q).buf.length < sendCap) ∧
      ∃ h2, Demo.fullHub.run (.broadcast [9]) = some h2 ∧
        (∀ q ∈ Demo.fullHub.clients, q ≠ 2 →
          h2.chans q = { buf := (Demo.fullHub.chans q).buf ++ [[9]], closed := false } ∧
          q ∈ h2.clients ∧ h2.heap q = Demo.fullHub.heap q) ∧
        h2.chans 2 = { buf := (Demo.fullHub.chans 2).buf, closed := true } ∧
        2 ∉ h2.clients ∧
        h2.clients = Demo.fullHub.clients.filter (fun q => q ≠ 2) ∧
        h2.clients.length + 1 = Demo.fullHub.clients.length :=
  have hopen : Demo.fullHub.registeredOpen := by
    intro p hp
    simp [Demo.fullHub, Demo.hub] at hp ⊢
    rcases hp with hp | hp <;> simp [hp]
  have hothers : ∀ q ∈ Demo.fullHub.clients, q ≠ 2 →
      (Demo.fullHub.chans q).buf.length < sendCap := by
    intro q hq hne
    simp [Demo.fullHub, Demo.hub, hne, sendCap] at hq ⊢
  ⟨⟨by decide, hopen, by decide, by simp [Demo.fullHub, sendCap, Demo.fullQueue_length],
      hothers⟩,
    broadcast_evicts_full_client Demo.fullHub [9] 2 (by decide) hopen (by decide)
      (by simp [Demo.fullHub, sendCap, Demo.fullQueue_length]) hothers⟩

theorem Demo.fullHub_registeredOpen : Demo.fullHub.registeredOpen := by
  intro p hp
  simp [Demo.fullHub, Demo.hub] at hp ⊢
  rcases hp with hp | hp <;> simp [hp]

/-- C14, the code at a failing input: client 2 is registered with a full queue and owns
the session "xyz" with cancellation handle 0. A broadcast evicts it: its queue is closed
and it leaves the registry. The unregister that follows finds it absent and changes
nothing. After both, the session map of the client still holds "xyz" and its trace holds
the close of the queue only: the cancellation handle was never invoked. -/
theorem eviction_leaves_sessions :
    mapGet (Demo.fullHub.heap 2).shellSessions "xyz" =
        some { SessionID := "xyz", TunnelID := 9, tunnelStream := some 2, cancel := some 0 } ∧
      ∃ h2, Demo.fullHub.run (.broadcast [9]) = some h2 ∧
        2 ∉ h2.clients ∧
        (h2.chans 2).closed = true ∧
        h2.run (.unregister 2) = some h2 ∧
        (h2.heap 2).shellSessions = (Demo.fullHub.heap 2).shellSessions ∧
        (h2.heap 2).trace = [.chanClose] ∧
        Event.cancel (.withCancel 0) ∉ (h2.heap 2).trace := by
  refine ⟨by decide, ?_⟩
  obtain ⟨h2, hfold, hcl, hch, hheap, -⟩ :=
    Hub.broadcast_fold [9] Demo.fullHub.clients Demo.fullHub (by decide) (fun _ hq => hq)
      Demo.fullHub_registeredOpen
  have hfull : sendCap ≤ (Demo.fullHub.chans 2).buf.length := by
    simp [Demo.fullHub, sendCap, Demo.fullQueue_length]
  have hmem : 2 ∈ Demo.fullHub.clients := by decide
  have hgone : 2 ∉ h2.clients := by
    rw [hcl]; simp [hmem, hfull]
  have hclient : h2.heap 2 = (Demo.fullHub.heap 2).emit .chanClose := by
    rw [hheap 2]; simp [hmem, hfull]
  refine ⟨h2, hfold, hgone, ?_, ?_, ?_, ?_, ?_⟩
  · rw [hch 2]; simp [hmem, Nat.not_lt.2 hfull]
  · simp [Hub.run, hgone]
  · rw [hclient]; rfl
  · rw [hclient]; rfl
  · rw [hclient]; decide

/-! ## Sending on the outbound queue -/

/-- C15, the code at a failing input: the queue of client 2 is open and full, with 256
pending messages. `sendMessage` of that client does not return: its send parks the
caller, the client stays in the registry and its queue stays as it was, open; nothing
tears the client down, unlike the broadcast of the hub on the same queue. When the
writer of that connection has returned after a failed write, no later iteration of the
writer and no later send changes the queue, so the parked send never completes. -/
theorem sendMessage_full_queue_parks :
    (Demo.fullHub.chans 2).closed = false ∧
      (Demo.fullHub.chans 2).buf.length = 256 ∧
      (∃ h2, Demo.fullHub.sendMessage 2 Demo.json TypePong (.stringMap []) = .parked h2 ∧
        2 ∈ h2.clients ∧ h2.chans 2 = Demo.fullHub.chans 2) ∧
      (¬ ∃ h2, Demo.fullHub.sendMessage 2 Demo.json TypePong (.stringMap []) =
        .returned h2) ∧
      Demo.stalled.ch = Demo.fullHub.chans 2 ∧
      Demo.stalled.writer.returned = true ∧
      (∀ m, Demo.stalled.ch.send m = .blocks) ∧
      ∀ (WriteMessage : Nat → Frame → Option String) (ops : List QueueOp),
        QueueOp.close ∉ ops →
        ops.foldl (Outbound.step WriteMessage) Demo.stalled = Demo.stalled := by
  have hlen : (Demo.fullHub.chans 2).buf.length = 256 := by
    simp [Demo.fullHub, Demo.fullQueue_length]
  have hsend : (Demo.fullHub.chans 2).send (envelope Demo.json TypePong (.stringMap [])) =
      .blocks := by
    have hopen : (Demo.fullHub.chans 2).closed = false := by simp [Demo.fullHub]
    simp [Chan.send, hopen, hlen, sendCap]
  have hpark : Demo.fullHub.sendMessage 2 Demo.json TypePong (.stringMap []) =
      .parked { Demo.fullHub with
        heap := Function.update Demo.fullHub.heap 2
          ((Demo.fullHub.heap 2).sendMessage Demo.json TypePong (.stringMap [])) } := by
    simp only [Hub.sendMessage, hsend]
  have hblocks : ∀ m, Demo.stalled.ch.send m = .blocks := by
    intro m
    simp [Chan.send, Demo.stalled, Demo.fullQueue_length, sendCap]
  refine ⟨by simp [Demo.fullHub], hlen, ⟨_, hpark, by decide, rfl⟩, ?_,
    by simp [Demo.stalled, Demo.fullHub], rfl, hblocks, ?_⟩
  · rintro ⟨h2, hret⟩
    rw [hpark] at hret
    exact TaskResult.noConfusion hret
  · intro WriteMessage ops
    induction ops with
    | nil => intro _; rfl
    | cons op ops ih =>
      intro hnoclose
      have hstep : Demo.stalled.step WriteMessage op = Demo.stalled := by
        cases op with
        | send m => simp [Outbound.step, hblocks m]
        | close => exact absurd (List.mem_cons_self _ _) hnoclose
        | write => simp [Outbound.step, Demo.stalled]
      rw [List.foldl_cons, hstep]
      exact ih (fun hmem => hnoclose (List.mem_cons_of_mem _ hmem))

/-- Method `sendMessage` performs a blocking send on the outbound queue. For a client
whose queue is open, when the queue is not full the serialized envelope is appended at
its tail and `sendMessage` returns, the registry and the other queues being as before;
when the queue is full (256 pending messages) `sendMessage` does not return: the caller
is parked in the send, nothing is enqueued, no queue is closed and the registry is as
before. -/
theorem sendMessage_blocking_send (h : Hub) (client : Nat) (j : Json) (msgType : String)
    (payload : GoValue) (hopen : (h.chans client).closed = false) :
    ((h.chans client).buf.length < sendCap →
      ∃ h2, h.sendMessage client j msgType payload = .returned h2 ∧
        h2.chans client =
          { buf := (h.chans client).buf ++ [envelope j msgType payload], closed := false } ∧
        h2.clients = h.clients ∧
        ∀ q, q ≠ client → h2.chans q = h.chans q) ∧
    (sendCap ≤ (h.chans client).buf.length →
      ∃ h2, h.sendMessage client j msgType payload = .parked h2 ∧
        h2.chans = h.chans ∧ h2.clients = h.clients) := by
  constructor
  · intro hroom
    have hsend : (h.chans client).send (envelope j msgType payload) =
        .enqueued { buf := (h.chans client).buf ++ [envelope j msgType payload],
                    closed := false } := by
      simp [Chan.send, hopen, hroom]
    refine ⟨{ h with
        heap := Function.update h.heap client ((h.heap client).sendMessage j msgType payload)
        chans := Function.update h.chans client
          ⟨(h.chans client).buf ++ [envelope j msgType payload], false⟩ }, ?_, ?_, rfl, ?_⟩
    · simp only [Hub.sendMessage, hsend]
    · simp
    · intro q hq
      simp [Function.update, hq]
  · intro hfull
    have hsend : (h.chans client).send (envelope j msgType payload) = .blocks := by
      simp [Chan.send, hopen, Nat.not_lt.2 hfull]
    refine ⟨{ h with
        heap := Function.update h.heap client ((h.heap client).sendMessage j msgType payload) },
      ?_, rfl, rfl⟩
    simp only [Hub.sendMessage, hsend]

theorem sendMessage_blocking_send_witness :
    (Demo.fullHub.chans 1).closed = false ∧
      (((Demo.fullHub.chans 1).buf.length < sendCap →
        ∃ h2, Demo.fullHub.sendMessage 1 Demo.json TypePong (.stringMap []) = .returned h2 ∧
          h2.chans 1 =
            { buf := (Demo.fullHub.chans 1).buf ++ [envelope Demo.json TypePong (.stringMap [])],
              closed := false } ∧
          h2.clients = Demo.fullHub.clients ∧
          ∀ q, q ≠ 1 → h2.chans q = Demo.fullHub.chans q) ∧
      (sendCap ≤ (Demo.fullHub.chans 1).buf.length →
        ∃ h2, Demo.fullHub.sendMessage 1 Demo.json TypePong (.stringMap []) = .parked h2 ∧
          h2.chans = Demo.fullHub.chans ∧ h2.clients = Demo.fullHub.clients)) :=
  ⟨by decide, sendMessage_blocking_send Demo.fullHub 1 Demo.json TypePong (.stringMap [])
    (by decide)⟩

/-! ## Inbound task -/

/-- C17: for every inbound frame that does not decode as an envelope, the iteration of
the inbound task adds exactly one entry to the trace, the send of the error envelope
"Invalid message format", and goes on: no handler has run, the session map and the
rest of the client state are as they were, nothing is sent to `hub.unregister`, and the
task continues with the next frame. -/
theorem readPump_invalid_frame (c : Client) (j : Json) (rpc : SliverRPC) (raw : Bytes)
    (hbad : j.unmarshalWSMessage raw = none) :
    c.readPumpIter j rpc (.message raw) =
        ({ c with trace := c.trace ++ [.chanSend (envelope j TypeError
          (.stringMap [("error", "Invalid message format")]))] }, true) ∧
      (c.readPumpIter j rpc (.message raw)).1.shellSessions = c.shellSessions ∧
      Event.hubUnregister ∉ (c.readPumpIter j rpc (.message raw)).1.trace.drop c.trace.length ∧
      ∀ rest, c.readPump j rpc (.message raw :: rest) =
        Client.readPump { c with trace := c.trace ++ [.chanSend (envelope j TypeError
          (.stringMap [("error", "Invalid message format")]))] } j rpc rest := by
  have hiter : c.readPumpIter j rpc (.message raw) =
      ({ c with trace := c.trace ++ [.chanSend (envelope j TypeError
        (.stringMap [("error", "Invalid message format")]))] }, true) := by
    simp [Client.readPumpIter, hbad, sendError_eq]
  refine ⟨hiter, by rw [hiter], by rw [hiter]; simp, ?_⟩
  intro rest
  simp [Client.readPump, hiter]

theorem readPump_invalid_frame_witness :
    Demo.json.unmarshalWSMessage Demo.garbageFrame = none ∧
      (Demo.active.readPumpIter Demo.json Demo.rpc (.message Demo.garbageFrame)).1.shellSessions =
        Demo.active.shellSessions :=
  ⟨by decide,
    (readPump_invalid_frame Demo.active Demo.json Demo.rpc Demo.garbageFrame (by decide)).2.1⟩

/-! ## Writer task -/

/-- What the writer has written, then at most one message it took and failed to write,
then what is pending, is what was enqueued. -/
theorem Outbound.step_invariant (WriteMessage : Nat → Frame → Option String)
    (s : Outbound) (op : QueueOp) (dropped : List Bytes)
    (hinv : textFrames s.writer.written ++ dropped ++ s.ch.buf = s.enqueued)
    (hrun : s.writer.returned = false → dropped = [])
    (hok : (∀ n f, WriteMessage n f = none) → dropped = []) :
    ∃ dropped2,
      textFrames (s.step WriteMessage op).writer.written ++ dropped2 ++
          (s.step WriteMessage op).ch.buf = (s.step WriteMessage op).enqueued ∧
      ((s.step WriteMessage op).writer.returned = false → dropped2 = []) ∧
      ((∀ n f, WriteMessage n f = none) → dropped2 = []) := by
  cases op with
  | send m =>
    cases hsend : s.ch.send m with
    | enqueued ch =>
      refine ⟨dropped, ?_, by simpa [Outbound.step, hsend] using hrun, hok⟩
      have hch : ch = { s.ch with buf := s.ch.buf ++ [m] } := by
        unfold Chan.send at hsend
        split at hsend
        · cases hsend
        · split at hsend
          · cases hsend; rfl
          · cases hsend
      simp [Outbound.step, hsend, hch, ← hinv]
    | blocks => exact ⟨dropped, by simpa [Outbound.step, hsend] using hinv,
        by simpa [Outbound.step, hsend] using hrun, hok⟩
    | panics => exact ⟨dropped, by simpa [Outbound.step, hsend] using hinv,
        by simpa [Outbound.step, hsend] using hrun, hok⟩
  | close =>
    cases hclose : s.ch.close with
    | none => exact ⟨dropped, by simpa [Outbound.step, hclose] using hinv,
        by simpa [Outbound.step, hclose] using hrun, hok⟩
    | some ch =>
      have hch : ch.buf = s.ch.buf := by
        unfold Chan.close at hclose
        split at hclose
        · cases hclose
        · cases hclose; rfl
      exact ⟨dropped, by simpa [Outbound.step, hclose, hch] using hinv,
        by simpa [Outbound.step, hclose] using hrun, hok⟩
  | write =>
    cases hret : s.writer.returned with
    | true => exact ⟨dropped, by simpa [Outbound.step, hret] using hinv,
        by simp [Outbound.step, hret], hok⟩
    | false =>
      have hd : dropped = [] := hrun hret
      subst hd
      cases hbuf : s.ch.buf with
      | nil =>
        rw [hbuf] at hinv
        cases hclosed : s.ch.closed with
        | false =>
          exact ⟨[], by simpa [Outbound.step, hret, writePumpIter, Chan.recv, hbuf, hclosed]
            using hinv, by simp, by simp⟩
        | true =>
          cases hw : WriteMessage s.writer.attempts .close with
          | none =>
            exact ⟨[], by simpa [Outbound.step, hret, writePumpIter, Chan.recv, hbuf,
              hclosed, hw, textFrames] using hinv, by simp, by simp⟩
          | some err =>
            exact ⟨[], by simpa [Outbound.step, hret, writePumpIter, Chan.recv, hbuf,
              hclosed, hw] using hinv, by simp, by simp⟩
      | cons m rest =>
        rw [hbuf] at hinv
        cases hw : WriteMessage s.writer.attempts (.text m) with
        | none =>
          refine ⟨[], ?_, by simp, by simp⟩
          simp [Outbound.step, hret, writePumpIter, Chan.recv, hbuf, hw, textFrames,
            List.filterMap_append] at hinv ⊢
          exact hinv
        | some err =>
          refine ⟨[m], ?_, ?_, ?_⟩
          · simpa [Outbound.step, hret, writePumpIter, Chan.recv, hbuf, hw] using hinv
          · simp [Outbound.step, hret, writePumpIter, Chan.recv, hbuf, hw]
          · intro hall
            rw [hall] at hw
            cases hw

theorem Outbound.run_invariant (WriteMessage : Nat → Frame → Option String)
    (ops : List QueueOp) (s : Outbound) (dropped : List Bytes)
    (hinv : textFrames s.writer.written ++ dropped ++ s.ch.buf = s.enqueued)
    (hrun : s.writer.returned = false → dropped = [])
    (hok : (∀ n f, WriteMessage n f = none) → dropped = []) :
    ∃ dropped2,
      textFrames (ops.foldl (Outbound.step WriteMessage) s).writer.written ++ dropped2 ++
          (ops.foldl (Outbound.step WriteMessage) s).ch.buf =
        (ops.foldl (Outbound.step WriteMessage) s).enqueued ∧
      ((ops.foldl (Outbound.step WriteMessage) s).writer.returned = false → dropped2 = []) ∧
      ((∀ n f, WriteMessage n f = none) → dropped2 = []) := by
  induction ops generalizing s dropped with
  | nil => exact ⟨dropped, hinv, hrun, hok⟩
  | cons op ops ih =>
    obtain ⟨d1, h1, h2, h3⟩ := Outbound.step_invariant WriteMessage s op dropped hinv hrun hok
    exact ih (s.step WriteMessage op) d1 h1 h2 h3

/-- Once the writer has returned without a failed write, the queue is closed and empty. -/
theorem Outbound.step_drained (WriteMessage : Nat → Frame → Option String)
    (hall : ∀ n f, WriteMessage n f = none) (s : Outbound) (op : QueueOp)
    (hinv : s.writer.returned = true → s.ch.closed = true ∧ s.ch.buf = []) :
    (s.step WriteMessage op).writer.returned = true →
      (s.step WriteMessage op).ch.closed = true ∧ (s.step WriteMessage op).ch.buf = [] := by
  cases op with
  | send m =>
    cases hclosed : s.ch.closed with
    | true =>
      have hsend : s.ch.send m = .panics := by simp [Chan.send, hclosed]
      simpa [Outbound.step, hsend, hclosed] using hinv
    | false =>
      intro hret
      cases hsend : s.ch.send m <;> simp [Outbound.step, hsend] at hret <;>
        simp [hinv hret] at hclosed
  | close =>
    cases hclosed : s.ch.closed with
    | true =>
      have hclose : s.ch.close = none := by simp [Chan.close, hclosed]
      simpa [Outbound.step, hclose, hclosed] using hinv
    | false =>
      intro hret
      have hclose : s.ch.close = some { s.ch with closed := true } := by
        simp [Chan.close, hclosed]
      simp [Outbound.step, hclose] at hret
      simp [hinv hret] at hclosed
  | write =>
    cases hret : s.writer.returned with
    | true => simpa [Outbound.step, hret] using hinv
    | false =>
      cases hbuf : s.ch.buf with
      | nil =>
        cases hclosed : s.ch.closed with
        | false => simp [Outbound.step, hret, writePumpIter, Chan.recv, hbuf, hclosed]
        | true =>
          simp [Outbound.step, hret, writePumpIter, Chan.recv, hbuf, hclosed, hall]
      | cons m rest =>
        simp [Outbound.step, hret, writePumpIter, Chan.recv, hbuf, hall]

theorem Outbound.run_drained (WriteMessage : Nat → Frame → Option String)
    (hall : ∀ n f, WriteMessage n f = none) (ops : List QueueOp) (s : Outbound)
    (hinv : s.writer.returned = true → s.ch.closed = true ∧ s.ch.buf = []) :
    (ops.foldl (Outbound.step WriteMessage) s).writer.returned = true →
      (ops.foldl (Outbound.step WriteMessage) s).ch.closed = true ∧
        (ops.foldl (Outbound.step WriteMessage) s).ch.buf = [] := by
  induction ops generalizing s with
  | nil => exact hinv
  | cons op ops ih => exact ih _ (Outbound.step_drained WriteMessage hall s op hinv)

/-- Progress of the writer: while it has not returned, `k` iterations on a queue with
at least `k` pending messages, whose writes succeed, write those `k` messages in queue
order and take them off the queue. -/
theorem Outbound.write_progress (WriteMessage : Nat → Frame → Option String) (k : Nat) :
    ∀ s : Outbound, s.writer.returned = false → k ≤ s.ch.buf.length →
      (∀ i m, i < k → s.ch.buf[i]? = some m →
        WriteMessage (s.writer.attempts + i) (.text m) = none) →
      (List.replicate k QueueOp.write).foldl (Outbound.step WriteMessage) s =
        { ch := { buf := s.ch.buf.drop k, closed := s.ch.closed },
          writer := { written := s.writer.written ++ (s.ch.buf.take k).map Frame.text,
                      attempts := s.writer.attempts + k, returned := false },
          enqueued := s.enqueued } := by
  induction k with
  | zero =>
    intro s hret _ _
    obtain ⟨⟨buf, closed⟩, ⟨written, attempts, returned⟩, enq⟩ := s
    simp only at hret
    simp [hret]
  | succ k ih =>
    intro s hret hk hok
    obtain ⟨⟨buf, closed⟩, ⟨written, attempts, returned⟩, enq⟩ := s
    simp only at hret hk hok
    subst hret
    cases buf with
    | nil => simp at hk
    | cons m rest =>
      have h0 : WriteMessage attempts (.text m) = none := by
        simpa using hok 0 m (by omega) (by simp)
      have hstep : Outbound.step WriteMessage
          ⟨⟨m :: rest, closed⟩, ⟨written, attempts, false⟩, enq⟩ .write =
          ⟨⟨rest, closed⟩, ⟨written ++ [.text m], attempts + 1, false⟩, enq⟩ := by
        simp [Outbound.step, writePumpIter, Chan.recv, h0]
      have hrest := ih ⟨⟨rest, closed⟩, ⟨written ++ [.text m], attempts + 1, false⟩, enq⟩ rfl
        (by simpa using hk)
        (by
          intro i m2 hi hm
          have h := hok (i + 1) m2 (by omega) (by simpa using hm)
          simpa [Nat.add_assoc, Nat.add_comm 1 i] using h)
      rw [List.replicate_succ, List.foldl_cons, hstep, hrest]
      simp [Nat.add_assoc, Nat.add_comm 1 k]

/-- Once the writer has returned, no operation makes it write again. -/
theorem Outbound.returned_stays (WriteMessage : Nat → Frame → Option String)
    (ops : List QueueOp) (s : Outbound) (hret : s.writer.returned = true) :
    (ops.foldl (Outbound.step WriteMessage) s).writer = s.writer := by
  induction ops generalizing s with
  | nil => rfl
  | cons op ops ih =>
    have hstep : (s.step WriteMessage op).writer = s.writer := by
      cases op with
      | send m => cases hsend : s.ch.send m <;> simp [Outbound.step, hsend]
      | close => cases hclose : s.ch.close <;> simp [Outbound.step, hclose]
      | write => simp [Outbound.step, hret]
    rw [List.foldl_cons, ih _ (by rw [hstep]; exact hret), hstep]

/-- A failed write of the oldest pending message makes the writer return without
writing it. -/
theorem Outbound.write_failure (WriteMessage : Nat → Frame → Option String) (s : Outbound)
    (m : Bytes) (rest : List Bytes) (err : String) (hret : s.writer.returned = false)
    (hbuf : s.ch.buf = m :: rest)
    (hfail : WriteMessage s.writer.attempts (.text m) = some err) :
    (s.step WriteMessage .write).writer =
      { s.writer with attempts := s.writer.attempts + 1, returned := true } := by
  simp [Outbound.step, hret, writePumpIter, Chan.recv, hbuf, hfail]

theorem textFrames_append_text (frames : List Frame) (ms : List Bytes) :
    textFrames (frames ++ ms.map Frame.text) = textFrames frames ++ ms := by
  induction ms generalizing frames with
  | nil => simp
  | cons m ms ih =>
    have hsplit : frames ++ (m :: ms).map Frame.text =
        (frames ++ [.text m]) ++ ms.map Frame.text := by simp
    rw [hsplit, ih]
    simp [textFrames]

/-- C18: on a new connection, after any sequence of sends on the outbound queue, closes
of the queue and iterations of the writer task, and whatever the socket answers to the
writes, the text frames written are a prefix of the messages enqueued, each once and in
enqueue order; as long as the writer has not returned, and always when no write fails,
the frames written followed by the messages still pending are exactly the messages
enqueued; and when the writer has returned without a failed write, the queue is closed
and the frames written are exactly the messages enqueued. The writer makes progress:
while it has not returned, `k` further iterations whose writes succeed write the `k`
oldest pending messages, in order, and take them off the queue, whether the queue is
closed or not; so when no write fails, as many iterations as there are pending messages
leave the queue empty and the frames written equal to the messages enqueued. A failed
write of the oldest pending message makes the writer return without that frame, and
nothing is written afterwards. -/
theorem writePump_writes_in_enqueue_order (WriteMessage : Nat → Frame → Option String)
    (ops : List QueueOp) :
    textFrames (ops.foldl (Outbound.step WriteMessage) Outbound.new).writer.written <+:
        (ops.foldl (Outbound.step WriteMessage) Outbound.new).enqueued ∧
      ((ops.foldl (Outbound.step WriteMessage) Outbound.new).writer.returned = false →
        textFrames (ops.foldl (Outbound.step WriteMessage) Outbound.new).writer.written ++
            (ops.foldl (Outbound.step WriteMessage) Outbound.new).ch.buf =
          (ops.foldl (Outbound.step WriteMessage) Outbound.new).enqueued) ∧
      ((∀ n f, WriteMessage n f = none) →
        textFrames (ops.foldl (Outbound.step WriteMessage) Outbound.new).writer.written ++
            (ops.foldl (Outbound.step WriteMessage) Outbound.new).ch.buf =
          (ops.foldl (Outbound.step WriteMessage) Outbound.new).enqueued) ∧
      ((∀ n f, WriteMessage n f = none) →
        (ops.foldl (Outbound.step WriteMessage) Outbound.new).writer.returned = true →
        (ops.foldl (Outbound.step WriteMessage) Outbound.new).ch.closed = true ∧
          textFrames (ops.foldl (Outbound.step WriteMessage) Outbound.new).writer.written =
            (ops.foldl (Outbound.step WriteMessage) Outbound.new).enqueued) ∧
      (∀ k, (ops.foldl (Outbound.step WriteMessage) Outbound.new).writer.returned = false →
        k ≤ (ops.foldl (Outbound.step WriteMessage) Outbound.new).ch.buf.length →
        (∀ i m, i < k →
          (ops.foldl (Outbound.step WriteMessage) Outbound.new).ch.buf[i]? = some m →
          WriteMessage ((ops.foldl (Outbound.step WriteMessage) Outbound.new).writer.attempts
            + i) (.text m) = none) →
        textFrames ((ops ++ List.replicate k QueueOp.write).foldl
              (Outbound.step WriteMessage) Outbound.new).writer.written =
            textFrames (ops.foldl (Outbound.step WriteMessage) Outbound.new).writer.written ++
              (ops.foldl (Outbound.step WriteMessage) Outbound.new).ch.buf.take k ∧
          ((ops ++ List.replicate k QueueOp.write).foldl
              (Outbound.step WriteMessage) Outbound.new).ch.buf =
            (ops.foldl (Outbound.step WriteMessage) Outbound.new).ch.buf.drop k ∧
          ((ops ++ List.replicate k QueueOp.write).foldl
              (Outbound.step WriteMessage) Outbound.new).enqueued =
            (ops.foldl (Outbound.step WriteMessage) Outbound.new).enqueued) ∧
      ((∀ n f, WriteMessage n f = none) →
        (ops.foldl (Outbound.step WriteMessage) Outbound.new).writer.returned = false →
        textFrames ((ops ++ List.replicate
              (ops.foldl (Outbound.step WriteMessage) Outbound.new).ch.buf.length
              QueueOp.write).foldl (Outbound.step WriteMessage) Outbound.new).writer.written =
            (ops.foldl (Outbound.step WriteMessage) Outbound.new).enqueued ∧
          ((ops ++ List.replicate
              (ops.foldl (Outbound.step WriteMessage) Outbound.new).ch.buf.length
              QueueOp.write).foldl (Outbound.step WriteMessage) Outbound.new).ch.buf = []) ∧
      (∀ m rest err ops2,
        (ops.foldl (Outbound.step WriteMessage) Outbound.new).writer.returned = false →
        (ops.foldl (Outbound.step WriteMessage) Outbound.new).ch.buf = m :: rest →
        WriteMessage (ops.foldl (Outbound.step WriteMessage) Outbound.new).writer.attempts
          (.text m) = some err →
        ((ops ++ QueueOp.write :: ops2).foldl
            (Outbound.step WriteMessage) Outbound.new).writer.returned = true ∧
          ((ops ++ QueueOp.write :: ops2).foldl
              (Outbound.step WriteMessage) Outbound.new).writer.written =
            (ops.foldl (Outbound.step WriteMessage) Outbound.new).writer.written) := by
  obtain ⟨dropped, hinv, hrun, hok⟩ :=
    Outbound.run_invariant WriteMessage ops Outbound.new [] rfl (fun _ => rfl) (fun _ => rfl)
  have hlive : (ops.foldl (Outbound.step WriteMessage) Outbound.new).writer.returned = false →
      textFrames (ops.foldl (Outbound.step WriteMessage) Outbound.new).writer.written ++
          (ops.foldl (Outbound.step WriteMessage) Outbound.new).ch.buf =
        (ops.foldl (Outbound.step WriteMessage) Outbound.new).enqueued := by
    intro hret
    have hd := hrun hret
    subst hd
    simpa using hinv
  have hprogress : ∀ k,
      (ops.foldl (Outbound.step WriteMessage) Outbound.new).writer.returned = false →
      k ≤ (ops.foldl (Outbound.step WriteMessage) Outbound.new).ch.buf.length →
      (∀ i m, i < k →
        (ops.foldl (Outbound.step WriteMessage) Outbound.new).ch.buf[i]? = some m →
        WriteMessage ((ops.foldl (Outbound.step WriteMessage) Outbound.new).writer.attempts
          + i) (.text m) = none) →
      textFrames ((ops ++ List.replicate k QueueOp.write).foldl
            (Outbound.step WriteMessage) Outbound.new).writer.written =
          textFrames (ops.foldl (Outbound.step WriteMessage) Outbound.new).writer.written ++
            (ops.foldl (Outbound.step WriteMessage) Outbound.new).ch.buf.take k ∧
        ((ops ++ List.replicate k QueueOp.write).foldl
            (Outbound.step WriteMessage) Outbound.new).ch.buf =
          (ops.foldl (Outbound.step WriteMessage) Outbound.new).ch.buf.drop k ∧
        ((ops ++ List.replicate k QueueOp.write).foldl
            (Outbound.step WriteMessage) Outbound.new).enqueued =
          (ops.foldl (Outbound.step WriteMessage) Outbound.new).enqueued := by
    intro k hret hk hwrites
    rw [List.foldl_append,
      Outbound.write_progress WriteMessage k _ hret hk hwrites]
    exact ⟨textFrames_append_text _ _, rfl, rfl⟩
  refine ⟨⟨dropped ++ (ops.foldl (Outbound.step WriteMessage) Outbound.new).ch.buf, ?_⟩,
    hlive, ?_, ?_, hprogress, ?_, ?_⟩
  · rw [← List.append_assoc]; exact hinv
  · intro hall
    have hd := hok hall
    subst hd
    simpa using hinv
  · intro hall hret
    obtain ⟨hclosed, hbuf⟩ :=
      Outbound.run_drained WriteMessage hall ops Outbound.new (by simp [Outbound.new]) hret
    have hd := hok hall
    subst hd
    refine ⟨hclosed, ?_⟩
    simpa [hbuf] using hinv
  · intro hall hret
    obtain ⟨hwritten, hbuf, -⟩ := hprogress _ hret (Nat.le_refl _) (fun _ _ _ _ => hall _ _)
    refine ⟨?_, ?_⟩
    · rw [hwritten, List.take_length]
      exact hlive hret
    · rw [hbuf, List.drop_length]
  · intro m rest err ops2 hret hbuf hfail
    have hwriter := Outbound.write_failure WriteMessage _ m rest err hret hbuf hfail
    have hstays := Outbound.returned_stays WriteMessage ops2
      ((ops.foldl (Outbound.step WriteMessage) Outbound.new).step WriteMessage .write)
      (by rw [hwriter])
    rw [List.foldl_append, List.foldl_cons, hstays, hwriter]
    exact ⟨rfl, rfl⟩

theorem writePump_writes_in_enqueue_order_witness :
    textFrames (([QueueOp.send [1], .send [2], .write, .send [3]] ++
          List.replicate 2 QueueOp.write).foldl
        (Outbound.step (fun _ _ => none)) Outbound.new).writer.written =
      textFrames ([QueueOp.send [1], .send [2], .write, .send [3]].foldl
          (Outbound.step (fun _ _ => none)) Outbound.new).writer.written ++
        ([QueueOp.send [1], .send [2], .write, .send [3]].foldl
          (Outbound.step (fun _ _ => none)) Outbound.new).ch.buf.take 2 ∧
      textFrames (([QueueOp.send [1], .send [2], .write, .send [3]] ++
          List.replicate 2 QueueOp.write).foldl
        (Outbound.step (fun _ _ => none)) Outbound.new).writer.written = [[1], [2], [3]] :=
  ⟨((writePump_writes_in_enqueue_order (fun _ _ => none)
      [.send [1], .send [2], .write, .send [3]]).2.2.2.2.1 2 (by decide) (by decide)
      (fun _ _ _ _ => rfl)).1, by decide⟩

/-! ## Sessions that share a key -/

/-- C19, the code at a failing input: two shell_start requests for "abc" are handled in
a row against a healthy Remote Bridge. Both succeed (two ready envelopes are sent), a
read-pump is spawned for each of the two sessions, no cancellation handle is invoked,
and the map keeps the second session only: the first one, on tunnel 7, stays live with
its pump and stream but is no longer reachable. -/
theorem second_shell_start_leaves_two_sessions :
    spawnedSessions Demo.startedTwice.trace =
        [{ SessionID := "abc", TunnelID := 7, tunnelStream := some 1, cancel := some 0 },
         { SessionID := "abc", TunnelID := 8, tunnelStream := some 2, cancel := some 1 }] ∧
      cancelledContexts Demo.startedTwice.trace = [] ∧
      closeTunnelCalls Demo.startedTwice.trace = [] ∧
      Demo.startedTwice.shellSessions =
        [("abc", { SessionID := "abc", TunnelID := 8, tunnelStream := some 2,
                   cancel := some 1 })] ∧
      Demo.startedTwice.sent =
        [envelope Demo.json TypeShellOutput
           (.shellOutput { SessionID := "abc", TunnelID := 7, Data := [] }),
         envelope Demo.json TypeShellOutput
           (.shellOutput { SessionID := "abc", TunnelID := 8, Data := [] })] := by
  decide

/-- C20, the code at a failing input: shell_start, shell_stop and again shell_start for
"abc" are handled; the map then holds the second session, on tunnel 9 with cancellation
handle 2. The read-pump of the first session now gets the error of its cancelled stream
and returns: its deferred delete removes the entry of the second session, whose handle
was not invoked and for whose key no stop was handled since, and a shell_input for
"abc" is answered with the no-active-session error. -/
theorem earlier_pump_exit_removes_session :
    mapGet Demo.restarted.shellSessions "abc" =
        some { SessionID := "abc", TunnelID := 9, tunnelStream := some 3, cancel := some 2 } ∧
      (Demo.restarted.readTunnelData Demo.json Demo.firstSession
        [.error "context canceled" true]).2 = true ∧
      mapGet (Demo.restarted.readTunnelData Demo.json Demo.firstSession
        [.error "context canceled" true]).1.shellSessions "abc" = none ∧
      cancelledContexts (Demo.restarted.readTunnelData Demo.json Demo.firstSession
        [.error "context canceled" true]).1.trace = [.withCancel 0, .withTimeout 1 5] ∧
      sentOf (((Demo.restarted.readTunnelData Demo.json Demo.firstSession
          [.error "context canceled" true]).1.handleShellInput Demo.json Demo.rpcCounting
          Demo.inputPayload).trace.drop
            (Demo.restarted.readTunnelData Demo.json Demo.firstSession
              [.error "context canceled" true]).1.trace.length) =
        [envelope Demo.json TypeError
          (.stringMap [("error", "No active shell session for: abc")])] := by
  decide

/-! ## File transfer -/

theorem handleFileDownload_not_connected (c : Client) (j : Json) (rpc : SliverRPC)
    (payload : RawMessage) (req : FileTransferPayload)
    (hreq : j.unmarshalFileTransfer payload = some req)
    (hdis : c.rpcClient = none ∨ IsConnected c.rpcClient = false) :
    c.handleFileDownload j rpc payload = c.sendError j "Not connected to Sliver server" := by
  simp [Client.handleFileDownload, hreq, hdis]

theorem handleFileUpload_not_connected (c : Client) (j : Json) (rpc : SliverRPC)
    (payload : RawMessage) (req : FileTransferPayload)
    (hreq : j.unmarshalFileTransfer payload = some req)
    (hdis : c.rpcClient = none ∨ IsConnected c.rpcClient = false) :
    c.handleFileUpload j rpc payload = c.sendError j "Not connected to Sliver server" := by
  simp [Client.handleFileUpload, hreq, hdis]

theorem handleFileDownload_rpc_error (c : Client) (j : Json) (rpc : SliverRPC)
    (payload : RawMessage) (req : FileTransferPayload) (err : String)
    (hreq : j.unmarshalFileTransfer payload = some req)
    (hconn : IsConnected c.rpcClient = true)
    (hrpc : rpc.Download (.withTimeout c.nextCtx 300)
      { Path := req.Path, Request := { SessionID := req.SessionID, Timeout := 300 } } =
        .error err) :
    c.handleFileDownload j rpc payload =
      { c with
        nextCtx := c.nextCtx + 1
        trace := c.trace ++
          [.download (.withTimeout c.nextCtx 300)
             { Path := req.Path, Request := { SessionID := req.SessionID, Timeout := 300 } },
           .chanSend (envelope j TypeError
             (.stringMap [("error", "Download failed: " ++ err)])),
           .cancel (.withTimeout c.nextCtx 300)] } := by
  have hne : c.rpcClient ≠ none := by
    intro h; rw [h, IsConnected_none] at hconn; cases hconn
  simp [Client.handleFileDownload, hreq, hconn, hne, hrpc, Client.sendError,
    Client.sendMessage, Client.emit, envelope]

theorem handleFileDownload_response_error (c : Client) (j : Json) (rpc : SliverRPC)
    (payload : RawMessage) (req : FileTransferPayload) (resp : Download)
    (hreq : j.unmarshalFileTransfer payload = some req)
    (hconn : IsConnected c.rpcClient = true)
    (hrpc : rpc.Download (.withTimeout c.nextCtx 300)
      { Path := req.Path, Request := { SessionID := req.SessionID, Timeout := 300 } } =
        .ok resp)
    (herr : resp.responseErr ≠ "") :
    c.handleFileDownload j rpc payload =
      { c with
        nextCtx := c.nextCtx + 1
        trace := c.trace ++
          [.download (.withTimeout c.nextCtx 300)
             { Path := req.Path, Request := { SessionID := req.SessionID, Timeout := 300 } },
           .chanSend (envelope j TypeError
             (.stringMap [("error", "Download error: " ++ resp.responseErr)])),
           .cancel (.withTimeout c.nextCtx 300)] } := by
  have hne : c.rpcClient ≠ none := by
    intro h; rw [h, IsConnected_none] at hconn; cases hconn
  simp [Client.handleFileDownload, hreq, hconn, hne, hrpc, herr, Client.sendError,
    Client.sendMessage, Client.emit, envelope]

theorem handleFileDownload_success (c : Client) (j : Json) (rpc : SliverRPC)
    (payload : RawMessage) (req : FileTransferPayload) (resp : Download)
    (hreq : j.unmarshalFileTransfer payload = some req)
    (hconn : IsConnected c.rpcClient = true)
    (hrpc : rpc.Download (.withTimeout c.nextCtx 300)
      { Path := req.Path, Request := { SessionID := req.SessionID, Timeout := 300 } } =
        .ok resp)
    (herr : resp.responseErr = "") :
    c.handleFileDownload j rpc payload =
      { c with
        nextCtx := c.nextCtx + 1
        trace := c.trace ++
          [.download (.withTimeout c.nextCtx 300)
             { Path := req.Path, Request := { SessionID := req.SessionID, Timeout := 300 } },
           .chanSend (envelope j TypeFileProgress
             (.anyMap [("sessionId", .str req.SessionID), ("path", .str req.Path),
                       ("progress", .int 100), ("status", .str "completed"),
                       ("data", .bytes resp.Data), ("size", .int resp.Data.length)])),
           .cancel (.withTimeout c.nextCtx 300)] } := by
  have hne : c.rpcClient ≠ none := by
    intro h; rw [h, IsConnected_none] at hconn; cases hconn
  simp [Client.handleFileDownload, hreq, hconn, hne, hrpc, herr, Client.sendMessage,
    Client.emit, envelope]

theorem handleFileUpload_rpc_error (c : Client) (j : Json) (rpc : SliverRPC)
    (payload : RawMessage) (req : FileTransferPayload) (err : String)
    (hreq : j.unmarshalFileTransfer payload = some req)
    (hconn : IsConnected c.rpcClient = true)
    (hrpc : rpc.Upload (.withTimeout c.nextCtx 300)
      { Path := req.Path, Data := req.Data,
        Request := { SessionID := req.SessionID, Timeout := 300 } } = .error err) :
    c.handleFileUpload j rpc payload =
      { c with
        nextCtx := c.nextCtx + 1
        trace := c.trace ++
          [.upload (.withTimeout c.nextCtx 300)
             { Path := req.Path, Data := req.Data,
               Request := { SessionID := req.SessionID, Timeout := 300 } },
           .chanSend (envelope j TypeError
             (.stringMap [("error", "Upload failed: " ++ err)])),
           .cancel (.withTimeout c.nextCtx 300)] } := by
  have hne : c.rpcClient ≠ none := by
    intro h; rw [h, IsConnected_none] at hconn; cases hconn
  simp [Client.handleFileUpload, hreq, hconn, hne, hrpc, Client.sendError,
    Client.sendMessage, Client.emit, envelope]

theorem handleFileUpload_response_error (c : Client) (j : Json) (rpc : SliverRPC)
    (payload : RawMessage) (req : FileTransferPayload) (resp : Upload)
    (hreq : j.unmarshalFileTransfer payload = some req)
    (hconn : IsConnected c.rpcClient = true)
    (hrpc : rpc.Upload (.withTimeout c.nextCtx 300)
      { Path := req.Path, Data := req.Data,
        Request := { SessionID := req.SessionID, Timeout := 300 } } = .ok resp)
    (herr : resp.responseErr ≠ "") :
    c.handleFileUpload j rpc payload =
      { c with
        nextCtx := c.nextCtx + 1
        trace := c.trace ++
          [.upload (.withTimeout c.nextCtx 300)
             { Path := req.Path, Data := req.Data,
               Request := { SessionID := req.SessionID, Timeout := 300 } },
           .chanSend (envelope j TypeError
             (.stringMap [("error", "Upload error: " ++ resp.responseErr)])),
           .cancel (.withTimeout c.nextCtx 300)] } := by
  have hne : c.rpcClient ≠ none := by
    intro h; rw [h, IsConnected_none] at hconn; cases hconn
  simp [Client.handleFileUpload, hreq, hconn, hne, hrpc, herr, Client.sendError,
    Client.sendMessage, Client.emit, envelope]

theorem handleFileUpload_success (c : Client) (j : Json) (rpc : SliverRPC)
    (payload : RawMessage) (req : FileTransferPayload) (resp : Upload)
    (hreq : j.unmarshalFileTransfer payload = some req)
    (hconn : IsConnected c.rpcClient = true)
    (hrpc : rpc.Upload (.withTimeout c.nextCtx 300)
      { Path := req.Path, Data := req.Data,
        Request := { SessionID := req.SessionID, Timeout := 300 } } = .ok resp)
    (herr : resp.responseErr = "") :
    c.handleFileUpload j rpc payload =
      { c with
        nextCtx := c.nextCtx + 1
        trace := c.trace ++
          [.upload (.withTimeout c.nextCtx 300)
             { Path := req.Path, Data := req.Data,
               Request := { SessionID := req.SessionID, Timeout := 300 } },
           .chanSend (envelope j TypeFileProgress
             (.anyMap [("sessionId", .str req.SessionID), ("path", .str resp.Path),
                       ("progress", .int 100), ("status", .str "completed")])),
           .cancel (.withTimeout c.nextCtx 300)] } := by
  have hne : c.rpcClient ≠ none := by
    intro h; rw [h, IsConnected_none] at hconn; cases hconn
  simp [Client.handleFileUpload, hreq, hconn, hne, hrpc, herr, Client.sendMessage,
    Client.emit, envelope]

theorem Demo.envelope_eq (msgType : String) (payload : GoValue) :
    envelope Demo.json msgType payload =
      3 :: (goString msgType ++ [0] ++ Demo.json.marshal payload) := rfl

/-- C21, counterexample: a well-formed file_download is handled while the Remote Bridge
is connected and the download call fails with "no such file". The one message sent is
an envelope of type error with the text "Download failed: no such file"; no envelope of
type file_progress is sent. -/
theorem download_failure_sends_error_envelope :
    Demo.json.unmarshalFileTransfer Demo.filePayload =
        some { SessionID := "abc", Path := "/etc/hosts", IsDownload := true, Data := [] } ∧
      IsConnected Demo.client.rpcClient = true ∧
      (Demo.client.handleFileDownload Demo.json Demo.rpcNoDownload Demo.filePayload).sent =
        [envelope Demo.json TypeError
          (.stringMap [("error", "Download failed: no such file")])] ∧
      ∀ payload : GoValue, envelope Demo.json TypeFileProgress payload ∉
        (Demo.client.handleFileDownload Demo.json Demo.rpcNoDownload Demo.filePayload).sent := by
  have hsent : (Demo.client.handleFileDownload Demo.json Demo.rpcNoDownload
      Demo.filePayload).sent = [envelope Demo.json TypeError
        (.stringMap [("error", "Download failed: no such file")])] := by decide
  refine ⟨by decide, by decide, hsent, ?_⟩
  intro payload hmem
  rw [hsent, List.mem_singleton, Demo.envelope_eq, Demo.envelope_eq] at hmem
  have hprogress : goString TypeFileProgress =
      [102, 105, 108, 101, 95, 112, 114, 111, 103, 114, 101, 115, 115] := by decide
  have herror : goString TypeError = [101, 114, 114, 111, 114] := by decide
  rw [hprogress, herror] at hmem
  simp at hmem

/-- C21, amended: for every well-formed file_download or file_upload request handled
while the Remote Bridge is connected, exactly one Remote Bridge request is issued and
exactly one envelope is sent: an error envelope with the text of the failure when the
call fails ("Download failed: ", "Upload failed: ") or when the response carries an
application error ("Download error: ", "Upload error: "), and a file_progress envelope
when the transfer succeeded. -/
theorem file_transfer_reports_once (c : Client) (j : Json) (rpc : SliverRPC)
    (payload : RawMessage) (req : FileTransferPayload)
    (hreq : j.unmarshalFileTransfer payload = some req)
    (hconn : IsConnected c.rpcClient = true) :
    (∃ evs, (c.handleFileDownload j rpc payload).trace = c.trace ++ evs ∧
      evs.filter Event.isRpc = [.download (.withTimeout c.nextCtx 300)
        { Path := req.Path, Request := { SessionID := req.SessionID, Timeout := 300 } }] ∧
      (sentOf evs).length = 1 ∧
      (∀ err, rpc.Download (.withTimeout c.nextCtx 300)
          { Path := req.Path, Request := { SessionID := req.SessionID, Timeout := 300 } } =
            .error err →
        sentOf evs = [envelope j TypeError
          (.stringMap [("error", "Download failed: " ++ err)])]) ∧
      (∀ resp, rpc.Download (.withTimeout c.nextCtx 300)
          { Path := req.Path, Request := { SessionID := req.SessionID, Timeout := 300 } } =
            .ok resp → resp.responseErr ≠ "" →
        sentOf evs = [envelope j TypeError
          (.stringMap [("error", "Download error: " ++ resp.responseErr)])]) ∧
      (∀ resp, rpc.Download (.withTimeout c.nextCtx 300)
          { Path := req.Path, Request := { SessionID := req.SessionID, Timeout := 300 } } =
            .ok resp → resp.responseErr = "" →
        sentOf evs = [envelope j TypeFileProgress
          (.anyMap [("sessionId", .str req.SessionID), ("path", .str req.Path),
                    ("progress", .int 100), ("status", .str "completed"),
                    ("data", .bytes resp.Data), ("size", .int resp.Data.length)])])) ∧
    (∃ evs, (c.handleFileUpload j rpc payload).trace = c.trace ++ evs ∧
      evs.filter Event.isRpc = [.upload (.withTimeout c.nextCtx 300)
        { Path := req.Path, Data := req.Data,
          Request := { SessionID := req.SessionID, Timeout := 300 } }] ∧
      (sentOf evs).length = 1 ∧
      (∀ err, rpc.Upload (.withTimeout c.nextCtx 300)
          { Path := req.Path, Data := req.Data,
            Request := { SessionID := req.SessionID, Timeout := 300 } } = .error err →
        sentOf evs = [envelope j TypeError
          (.stringMap [("error", "Upload failed: " ++ err)])]) ∧
      (∀ resp, rpc.Upload (.withTimeout c.nextCtx 300)
          { Path := req.Path, Data := req.Data,
            Request := { SessionID := req.SessionID, Timeout := 300 } } = .ok resp →
        resp.responseErr ≠ "" →
        sentOf evs = [envelope j TypeError
          (.stringMap [("error", "Upload error: " ++ resp.responseErr)])]) ∧
      (∀ resp, rpc.Upload (.withTimeout c.nextCtx 300)
          { Path := req.Path, Data := req.Data,
            Request := { SessionID := req.SessionID, Timeout := 300 } } = .ok resp →
        resp.responseErr = "" →
        sentOf evs = [envelope j TypeFileProgress
          (.anyMap [("sessionId", .str req.SessionID), ("path", .str resp.Path),
                    ("progress", .int 100), ("status", .str "completed")])])) := by
  constructor
  · cases hrpc : rpc.Download (.withTimeout c.nextCtx 300)
        { Path := req.Path, Request := { SessionID := req.SessionID, Timeout := 300 } } with
    | error err =>
      rw [handleFileDownload_rpc_error c j rpc payload req err hreq hconn hrpc]
      refine ⟨_, rfl, by simp [Event.isRpc], by simp [sentOf], ?_, ?_, ?_⟩
      · intro e he; cases he; simp [sentOf]
      · intro resp he; cases he
      · intro resp he; cases he
    | ok resp =>
      by_cases herr : resp.responseErr = ""
      · rw [handleFileDownload_success c j rpc payload req resp hreq hconn hrpc herr]
        refine ⟨_, rfl, by simp [Event.isRpc], by simp [sentOf], ?_, ?_, ?_⟩
        · intro e he; cases he
        · intro r he hne; cases he; exact absurd herr hne
        · intro r he _; cases he; simp [sentOf]
      · rw [handleFileDownload_response_error c j rpc payload req resp hreq hconn hrpc herr]
        refine ⟨_, rfl, by simp [Event.isRpc], by simp [sentOf], ?_, ?_, ?_⟩
        · intro e he; cases he
        · intro r he _; cases he; simp [sentOf]
        · intro r he he2; cases he; exact absurd he2 herr
  · cases hrpc : rpc.Upload (.withTimeout c.nextCtx 300)
        { Path := req.Path, Data := req.Data,
          Request := { SessionID := req.SessionID, Timeout := 300 } } with
    | error err =>
      rw [handleFileUpload_rpc_error c j rpc payload req err hreq hconn hrpc]
      refine ⟨_, rfl, by simp [Event.isRpc], by simp [sentOf], ?_, ?_, ?_⟩
      · intro e he; cases he; simp [sentOf]
      · intro resp he; cases he
      · intro resp he; cases he
    | ok resp =>
      by_cases herr : resp.responseErr = ""
      · rw [handleFileUpload_success c j rpc payload req resp hreq hconn hrpc herr]
        refine ⟨_, rfl, by simp [Event.isRpc], by simp [sentOf], ?_, ?_, ?_⟩
        · intro e he; cases he
        · intro r he hne; cases he; exact absurd herr hne
        · intro r he _; cases he; simp [sentOf]
      · rw [handleFileUpload_response_error c j rpc payload req resp hreq hconn hrpc herr]
        refine ⟨_, rfl, by simp [Event.isRpc], by simp [sentOf], ?_, ?_, ?_⟩
        · intro e he; cases he
        · intro r he _; cases he; simp [sentOf]
        · intro r he he2; cases he; exact absurd he2 herr

theorem file_transfer_reports_once_witness :
    Demo.json.unmarshalFileTransfer Demo.filePayload =
        some { SessionID := "abc", Path := "/etc/hosts", IsDownload := true, Data := [] } ∧
      IsConnected Demo.client.rpcClient = true ∧
      ∃ evs, (Demo.client.handleFileDownload Demo.json Demo.rpcNoDownload
          Demo.filePayload).trace = Demo.client.trace ++ evs ∧
        evs.filter Event.isRpc = [.download (.withTimeout 0 300)
          { Path := "/etc/hosts", Request := { SessionID := "abc", Timeout := 300 } }] ∧
        (sentOf evs).length = 1 :=
  ⟨by decide, by decide,
    match (file_transfer_reports_once Demo.client Demo.json Demo.rpcNoDownload
      Demo.filePayload
      { SessionID := "abc", Path := "/etc/hosts", IsDownload := true, Data := [] }
      (by decide) (by decide)).1 with
    | ⟨evs, htrace, hrpc, hlen, _⟩ => ⟨evs, htrace, hrpc, hlen⟩⟩

/-- C22: for every file_download request whose Remote Bridge call succeeds with an
empty response error, the single message sent is the file_progress envelope whose
sessionId and path are those of the request, whose progress is 100, whose status is
"completed", whose data is the byte sequence returned by the bridge and whose size is
the length of that byte sequence. -/
theorem handleFileDownload_completed (c : Client) (j : Json) (rpc : SliverRPC)
    (payload : RawMessage) (req : FileTransferPayload) (resp : Download)
    (hreq : j.unmarshalFileTransfer payload = some req)
    (hconn : IsConnected c.rpcClient = true)
    (hrpc : rpc.Download (.withTimeout c.nextCtx 300)
      { Path := req.Path, Request := { SessionID := req.SessionID, Timeout := 300 } } =
        .ok resp)
    (herr : resp.responseErr = "") :
    ∃ evs, (c.handleFileDownload j rpc payload).trace = c.trace ++ evs ∧
      sentOf evs = [envelope j TypeFileProgress
        (.anyMap [("sessionId", .str req.SessionID), ("path", .str req.Path),
                  ("progress", .int 100), ("status", .str "completed"),
                  ("data", .bytes resp.Data), ("size", .int resp.Data.length)])] := by
  rw [handleFileDownload_success c j rpc payload req resp hreq hconn hrpc herr]
  exact ⟨_, rfl, by simp [sentOf]⟩

theorem handleFileDownload_completed_witness :
    Demo.json.unmarshalFileTransfer Demo.filePayload =
        some { SessionID := "abc", Path := "/etc/hosts", IsDownload := true, Data := [] } ∧
      IsConnected Demo.client.rpcClient = true ∧
      Demo.rpc.Download (.withTimeout 0 300)
          { Path := "/etc/hosts", Request := { SessionID := "abc", Timeout := 300 } } =
        .ok { Response := none, Data := [104, 105] } ∧
      ∃ evs, (Demo.client.handleFileDownload Demo.json Demo.rpc Demo.filePayload).trace =
          Demo.client.trace ++ evs ∧
        sentOf evs = [envelope Demo.json TypeFileProgress
          (.anyMap [("sessionId", .str "abc"), ("path", .str "/etc/hosts"),
                    ("progress", .int 100), ("status", .str "completed"),
                    ("data", .bytes [104, 105]), ("size", .int 2)])] :=
  ⟨by decide, by decide, rfl,
    handleFileDownload_completed Demo.client Demo.json Demo.rpc Demo.filePayload
      { SessionID := "abc", Path := "/etc/hosts", IsDownload := true, Data := [] }
      { Response := none, Data := [104, 105] } (by decide) (by decide) rfl rfl⟩

/-- C23: while the Remote Bridge is not connected (nil RPC client, nil connection, or a
connection state other than READY/IDLE), `handleFileDownload` and `handleFileUpload`
each add exactly one entry to the trace, the send of one error envelope (with the text
"Not connected to Sliver server" when the payload decodes): no download or upload call
is issued, once or again, and no other envelope is sent. -/
theorem file_transfer_remote_unavailable (c : Client) (j : Json) (rpc : SliverRPC)
    (payload : RawMessage)
    (hdis : c.rpcClient = none ∨ (∃ sc, c.rpcClient = some sc ∧ sc.Conn = none) ∨
      (∃ sc state, c.rpcClient = some sc ∧ sc.Conn = some state ∧
        state ≠ .Ready ∧ state ≠ .Idle)) :
    ((∃ errMsg, c.handleFileDownload j rpc payload =
        { c with trace := c.trace ++
          [.chanSend (envelope j TypeError (.stringMap [("error", errMsg)]))] }) ∧
      (∀ req, j.unmarshalFileTransfer payload = some req →
        c.handleFileDownload j rpc payload =
          { c with trace := c.trace ++ [.chanSend (envelope j TypeError
            (.stringMap [("error", "Not connected to Sliver server")]))] }) ∧
      (∀ e ∈ (c.handleFileDownload j rpc payload).trace.drop c.trace.length,
        e.isRpc = false)) ∧
    ((∃ errMsg, c.handleFileUpload j rpc payload =
        { c with trace := c.trace ++
          [.chanSend (envelope j TypeError (.stringMap [("error", errMsg)]))] }) ∧
      (∀ req, j.unmarshalFileTransfer payload = some req →
        c.handleFileUpload j rpc payload =
          { c with trace := c.trace ++ [.chanSend (envelope j TypeError
            (.stringMap [("error", "Not connected to Sliver server")]))] }) ∧
      (∀ e ∈ (c.handleFileUpload j rpc payload).trace.drop c.trace.length,
        e.isRpc = false)) := by
  have hoff := not_connected_of_state c.rpcClient hdis
  have hdown : ∃ errMsg, c.handleFileDownload j rpc payload = c.sendError j errMsg := by
    cases hreq : j.unmarshalFileTransfer payload with
    | none => exact ⟨"Invalid file download payload", by simp [Client.handleFileDownload, hreq]⟩
    | some req => exact ⟨_, handleFileDownload_not_connected c j rpc payload req hreq hoff⟩
  have hup : ∃ errMsg, c.handleFileUpload j rpc payload = c.sendError j errMsg := by
    cases hreq : j.unmarshalFileTransfer payload with
    | none => exact ⟨"Invalid file upload payload", by simp [Client.handleFileUpload, hreq]⟩
    | some req => exact ⟨_, handleFileUpload_not_connected c j rpc payload req hreq hoff⟩
  obtain ⟨e1, h1⟩ := hdown
  obtain ⟨e2, h2⟩ := hup
  refine ⟨⟨⟨e1, by rw [h1, sendError_eq]⟩, ?_, ?_⟩, ⟨⟨e2, by rw [h2, sendError_eq]⟩, ?_, ?_⟩⟩
  · intro req hreq
    rw [handleFileDownload_not_connected c j rpc payload req hreq hoff, sendError_eq]
  · rw [h1, sendError_eq]; simp [Event.isRpc]
  · intro req hreq
    rw [handleFileUpload_not_connected c j rpc payload req hreq hoff, sendError_eq]
  · rw [h2, sendError_eq]; simp [Event.isRpc]

theorem file_transfer_remote_unavailable_witness :
    (Demo.offline.rpcClient = none ∨
      (∃ sc, Demo.offline.rpcClient = some sc ∧ sc.Conn = none) ∨
      (∃ sc state, Demo.offline.rpcClient = some sc ∧ sc.Conn = some state ∧
        state ≠ .Ready ∧ state ≠ .Idle)) ∧
      Demo.json.unmarshalFileTransfer Demo.filePayload =
        some { SessionID := "abc", Path := "/etc/hosts", IsDownload := true, Data := [] } ∧
      Demo.offline.handleFileDownload Demo.json Demo.rpc Demo.filePayload =
        { Demo.offline with trace := Demo.offline.trace ++ [.chanSend (envelope Demo.json
          TypeError (.stringMap [("error", "Not connected to Sliver server")]))] } :=
  have hdis : Demo.offline.rpcClient = none ∨
      (∃ sc, Demo.offline.rpcClient = some sc ∧ sc.Conn = none) ∨
      (∃ sc state, Demo.offline.rpcClient = some sc ∧ sc.Conn = some state ∧
        state ≠ .Ready ∧ state ≠ .Idle) :=
    Or.inr (Or.inr ⟨{ Conn := some .Shutdown }, .Shutdown, rfl, rfl, by decide, by decide⟩)
  ⟨hdis, by decide,
    (file_transfer_remote_unavailable Demo.offline Demo.json Demo.rpc Demo.filePayload
      hdis).1.2.1 { SessionID := "abc", Path := "/etc/hosts", IsDownload := true, Data := [] }
      (by decide)⟩

/-! ## Ping -/

/-- C24: for every inbound envelope of type ping, whatever its payload, `handleMessage`
adds exactly one entry to the trace, the send of the envelope of type pong whose
payload is the marshalled empty map, `{}`; it issues no Remote Bridge call and leaves
the session map and the rest of the client state as they were. -/
theorem handleMessage_ping (c : Client) (j : Json) (rpc : SliverRPC) (msg : WSMessage)
    (hping : msg.MsgType = TypePing) :
    c.handleMessage j rpc msg =
        { c with trace := c.trace ++
          [.chanSend (envelope j TypePong (.stringMap []))] } ∧
      (∀ e ∈ (c.handleMessage j rpc msg).trace.drop c.trace.length, e.isRpc = false) ∧
      (c.handleMessage j rpc msg).shellSessions = c.shellSessions := by
  have hres : c.handleMessage j rpc msg =
      { c with trace := c.trace ++ [.chanSend (envelope j TypePong (.stringMap []))] } := by
    simp [Client.handleMessage, hping, Client.sendPong, Client.sendMessage, Client.emit,
      envelope]
  refine ⟨hres, ?_, ?_⟩
  · rw [hres]; simp [Event.isRpc]
  · rw [hres]

theorem handleMessage_ping_witness :
    (({ MsgType := "ping", Payload := Demo.inputPayload } : WSMessage).MsgType = TypePing) ∧
      Demo.active.handleMessage Demo.json Demo.rpc
          { MsgType := "ping", Payload := Demo.inputPayload } =
        { Demo.active with trace := Demo.active.trace ++
          [.chanSend (envelope Demo.json TypePong (.stringMap []))] } :=
  ⟨rfl, (handleMessage_ping Demo.active Demo.json Demo.rpc
    { MsgType := "ping", Payload := Demo.inputPayload } rfl).1⟩

/-! ## Shell input to an active session -/

theorem handleShellInput_write_ok (c : Client) (j : Json) (rpc : SliverRPC)
    (payload : RawMessage) (req : ShellInputPayload) (session : ShellSession)
    (hreq : j.unmarshalShellInput payload = some req)
    (hactive : mapGet c.shellSessions req.SessionID = some session)
    (hok : rpc.streamSend session.tunnelStream
      { TunnelID := session.TunnelID, SessionID := req.SessionID,
        Data := goString req.Data, Closed := false } = none) :
    c.handleShellInput j rpc payload =
      { c with trace := c.trace ++ [.streamSend session.tunnelStream
        { TunnelID := session.TunnelID, SessionID := req.SessionID,
          Data := goString req.Data, Closed := false }] } := by
  simp [Client.handleShellInput, hreq, hactive, hok, Client.emit]

theorem handleShellInput_write_error (c : Client) (j : Json) (rpc : SliverRPC)
    (payload : RawMessage) (req : ShellInputPayload) (session : ShellSession) (err : String)
    (hreq : j.unmarshalShellInput payload = some req)
    (hactive : mapGet c.shellSessions req.SessionID = some session)
    (hfail : rpc.streamSend session.tunnelStream
      { TunnelID := session.TunnelID, SessionID := req.SessionID,
        Data := goString req.Data, Closed := false } = some err) :
    c.handleShellInput j rpc payload =
      { c with trace := c.trace ++ [.streamSend session.tunnelStream
          { TunnelID := session.TunnelID, SessionID := req.SessionID,
            Data := goString req.Data, Closed := false },
        .chanSend (envelope j TypeError
          (.stringMap [("error", "Failed to send input: " ++ err)]))] } := by
  simp [Client.handleShellInput, hreq, hactive, hfail, Client.emit, Client.sendError,
    Client.sendMessage, envelope]

/-- C25: when the sessionId of a shell_input has an active session, `handleShellInput`
performs exactly one stream write, on the stream of that session, carrying the data
and the sessionId of the payload and the tunnel identifier stored in the session (not
the tunnelId of the payload); when the write succeeds nothing is sent on the outbound
queue, when it fails exactly one error envelope is sent; in both cases the session map
is as before and no cancellation handle is invoked. -/
theorem handleShellInput_active (c : Client) (j : Json) (rpc : SliverRPC)
    (payload : RawMessage) (req : ShellInputPayload) (session : ShellSession)
    (hreq : j.unmarshalShellInput payload = some req)
    (hactive : mapGet c.shellSessions req.SessionID = some session) :
    (∃ evs, (c.handleShellInput j rpc payload).trace = c.trace ++ evs ∧
      streamWrites evs = [(session.tunnelStream,
        { TunnelID := session.TunnelID, SessionID := req.SessionID,
          Data := goString req.Data, Closed := false })] ∧
      (rpc.streamSend session.tunnelStream
          { TunnelID := session.TunnelID, SessionID := req.SessionID,
            Data := goString req.Data, Closed := false } = none → sentOf evs = []) ∧
      (∀ err, rpc.streamSend session.tunnelStream
          { TunnelID := session.TunnelID, SessionID := req.SessionID,
            Data := goString req.Data, Closed := false } = some err →
        sentOf evs = [envelope j TypeError
          (.stringMap [("error", "Failed to send input: " ++ err)])]) ∧
      cancelledContexts evs = []) ∧
      (c.handleShellInput j rpc payload).shellSessions = c.shellSessions ∧
      mapGet (c.handleShellInput j rpc payload).shellSessions req.SessionID =
        some session := by
  cases hsend : rpc.streamSend session.tunnelStream
      { TunnelID := session.TunnelID, SessionID := req.SessionID,
        Data := goString req.Data, Closed := false } with
  | none =>
    rw [handleShellInput_write_ok c j rpc payload req session hreq hactive hsend]
    refine ⟨⟨_, rfl, by simp [streamWrites], ?_, ?_, by simp [cancelledContexts]⟩, rfl,
      hactive⟩
    · intro _; simp [sentOf]
    · intro err he; cases he
  | some err =>
    rw [handleShellInput_write_error c j rpc payload req session err hreq hactive hsend]
    refine ⟨⟨_, rfl, by simp [streamWrites], ?_, ?_, by simp [cancelledContexts]⟩, rfl,
      hactive⟩
    · intro he; cases he
    · intro e he; cases he; simp [sentOf]

theorem handleShellInput_active_witness :
    Demo.json.unmarshalShellInput Demo.inputPayload =
        some { SessionID := "abc", TunnelID := 7, Data := "ls\n" } ∧
      mapGet Demo.restarted.shellSessions "abc" =
        some { SessionID := "abc", TunnelID := 9, tunnelStream := some 3, cancel := some 2 } ∧
      ∃ evs, (Demo.restarted.handleShellInput Demo.json Demo.rpcNoWrite
          Demo.inputPayload).trace = Demo.restarted.trace ++ evs ∧
        streamWrites evs = [(some 3,
          { TunnelID := 9, SessionID := "abc", Data := goString "ls\n", Closed := false })] ∧
        (Demo.rpcNoWrite.streamSend (some 3)
            { TunnelID := 9, SessionID := "abc", Data := goString "ls\n",
              Closed := false } = none → sentOf evs = []) ∧
        (∀ err, Demo.rpcNoWrite.streamSend (some 3)
            { TunnelID := 9, SessionID := "abc", Data := goString "ls\n",
              Closed := false } = some err →
          sentOf evs = [envelope Demo.json TypeError
            (.stringMap [("error", "Failed to send input: " ++ err)])]) ∧
        cancelledContexts evs = [] :=
  ⟨by decide, by decide,
    (handleShellInput_active Demo.restarted Demo.json Demo.rpcNoWrite Demo.inputPayload
      { SessionID := "abc", TunnelID := 7, Data := "ls\n" }
      { SessionID := "abc", TunnelID := 9, tunnelStream := some 3, cancel := some 2 }
      (by decide) (by decide)).1⟩

/-! ## Request of the shell-start call -/

/-- C28: for every shell_start request for which a tunnel was created, exactly one
shell-start call is issued; its path is the path of the request when that is not empty
and "/bin/bash" when it is empty (a missing path decodes as empty); its pty flag is the
one of the request, its tunnel identifier the one assigned by `CreateTunnel`, and its
sessionId the one of the request. -/
theorem handleShellStart_shell_request (c : Client) (j : Json) (rpc : SliverRPC)
    (payload : RawMessage) (req : ShellStartPayload) (tunnel : Tunnel)
    (hreq : j.unmarshalShellStart payload = some req)
    (hconn : IsConnected c.rpcClient = true)
    (hct : rpc.CreateTunnel (.withCancel c.nextCtx) (createTunnelReq req) = .ok tunnel) :
    ∃ evs sent, (c.handleShellStart j rpc payload).trace = c.trace ++ evs ∧
      shellCalls evs = [sent] ∧
      (req.Path ≠ "" → sent.Path = req.Path) ∧
      (req.Path = "" → sent.Path = "/bin/bash") ∧
      sent.EnablePTY = req.Pty ∧
      sent.TunnelID = tunnel.TunnelID ∧
      sent.Request.SessionID = req.SessionID := by
  have hfields : (req.Path ≠ "" → (shellReq req tunnel).Path = req.Path) ∧
      (req.Path = "" → (shellReq req tunnel).Path = "/bin/bash") ∧
      (shellReq req tunnel).EnablePTY = req.Pty ∧
      (shellReq req tunnel).TunnelID = tunnel.TunnelID ∧
      (shellReq req tunnel).Request.SessionID = req.SessionID := by
    refine ⟨?_, ?_, rfl, rfl, rfl⟩
    · intro hp; simp [shellReq, hp]
    · intro hp; simp [shellReq, hp]
  cases hsh : rpc.Shell (.withCancel c.nextCtx) (shellReq req tunnel) with
  | error err =>
    rw [handleShellStart_shell_error c j rpc payload req tunnel err hreq hconn hct hsh]
    exact ⟨_, _, rfl, by simp [shellCalls], hfields⟩
  | ok shell =>
    by_cases herr : shell.responseErr = ""
    · cases hst : rpc.TunnelData (.withCancel c.nextCtx) with
      | error err =>
        rw [handleShellStart_stream_error c j rpc payload req tunnel shell err hreq hconn
          hct hsh herr hst]
        exact ⟨_, _, rfl, by simp [shellCalls], hfields⟩
      | ok stream =>
        rw [handleShellStart_success c j rpc payload req tunnel shell stream hreq hconn
          hct hsh herr hst]
        exact ⟨_, _, rfl, by simp [shellCalls], hfields⟩
    · rw [handleShellStart_response_error c j rpc payload req tunnel shell hreq hconn
        hct hsh herr]
      exact ⟨_, _, rfl, by simp [shellCalls], hfields⟩

theorem handleShellStart_shell_request_witness :
    Demo.json.unmarshalShellStart Demo.startPayload =
        some { SessionID := "abc", Path := "", Pty := true } ∧
      IsConnected Demo.client.rpcClient = true ∧
      Demo.rpc.CreateTunnel (.withCancel 0)
          (createTunnelReq { SessionID := "abc", Path := "", Pty := true }) =
        .ok { TunnelID := 7, SessionID := "abc" } ∧
      ∃ evs sent, (Demo.client.handleShellStart Demo.json Demo.rpc
          Demo.startPayload).trace = Demo.client.trace ++ evs ∧
        shellCalls evs = [sent] ∧
        (("" : String) ≠ "" → sent.Path = "") ∧
        (("" : String) = "" → sent.Path = "/bin/bash") ∧
        sent.EnablePTY = true ∧
        sent.TunnelID = 7 ∧
        sent.Request.SessionID = "abc" :=
  ⟨by decide, by decide, rfl,
    handleShellStart_shell_request Demo.client Demo.json Demo.rpc Demo.startPayload
      { SessionID := "abc", Path := "", Pty := true } { TunnelID := 7, SessionID := "abc" }
      (by decide) (by decide) rfl⟩

/-! ## Shell stop without a session -/

/-- C29: when the sessionId of a shell_stop has no entry in the session map,
`handleShellStop` adds exactly one entry to the trace, the send of the shell_output
envelope (not an error envelope) with the closed notice "\r\n[Shell closed]\r\n" and the
sessionId and tunnelId of the request payload; it issues no Remote Bridge call, invokes
no cancellation handle, and leaves the session map and the rest of the client state as
they were. -/
theorem handleShellStop_no_session (c : Client) (j : Json) (rpc : SliverRPC)
    (payload : RawMessage) (req : ShellInputPayload)
    (hreq : j.unmarshalShellInput payload = some req)
    (habsent : mapGet c.shellSessions req.SessionID = none) :
    c.handleShellStop j rpc payload =
        { c with trace := c.trace ++ [.chanSend (envelope j TypeShellOutput
          (.shellOutput { SessionID := req.SessionID, TunnelID := req.TunnelID,
                          Data := goString "\r\n[Shell closed]\r\n" }))] } ∧
      (∀ e ∈ (c.handleShellStop j rpc payload).trace.drop c.trace.length,
        e.isRpc = false) ∧
      cancelledContexts ((c.handleShellStop j rpc payload).trace.drop c.trace.length) = [] ∧
      (c.handleShellStop j rpc payload).shellSessions = c.shellSessions := by
  have hres := handleShellStop_absent c j rpc payload req hreq habsent
  rw [hres]
  refine ⟨rfl, ?_, ?_, rfl⟩
  · simp [Event.isRpc]
  · simp [cancelledContexts]

theorem handleShellStop_no_session_witness :
    Demo.json.unmarshalShellInput Demo.inputPayload =
        some { SessionID := "abc", TunnelID := 7, Data := "ls\n" } ∧
      mapGet Demo.client.shellSessions "abc" = none ∧
      Demo.client.handleShellStop Demo.json Demo.rpc Demo.inputPayload =
        { Demo.client with trace := Demo.client.trace ++ [.chanSend (envelope Demo.json
          TypeShellOutput (.shellOutput ⟨"abc", 7, goString "\r\n[Shell closed]\r\n"⟩))] } :=
  ⟨by decide, by decide,
    (handleShellStop_no_session Demo.client Demo.json Demo.rpc Demo.inputPayload
      { SessionID := "abc", TunnelID := 7, Data := "ls\n" } (by decide) (by decide)).1⟩

/-! ## Shell output through the JSON envelope -/

theorem DecodeRuneInString_one (b0 : Nat) (rest : Bytes) (h0 : b0 < 0x80) :
    DecodeRuneInString (b0 :: rest) = (b0, 1) := by
  simp [DecodeRuneInString, h0]

theorem DecodeRuneInString_two (b0 b1 : Nat) (rest : Bytes)
    (h0 : 0xC2 ≤ b0) (h0' : b0 ≤ 0xDF) (h1 : 0x80 ≤ b1) (h1' : b1 ≤ 0xBF) :
    DecodeRuneInString (b0 :: b1 :: rest) = ((b0 % 32) * 64 + b1 % 64, 2) := by
  have hsize : runeSize b0 = 2 := by
    unfold runeSize
    rw [if_neg (by omega), if_neg (by omega), if_pos (by omega)]
  have hlo : acceptLo b0 = 0x80 := by
    unfold acceptLo
    rw [if_neg (by omega), if_neg (by omega)]
  have hhi : acceptHi b0 = 0xBF := by
    unfold acceptHi
    rw [if_neg (by omega), if_neg (by omega)]
  have e0 : ¬ b0 < 128 := by omega
  have e1 : ¬ (b1 < 128 ∨ 191 < b1) := by omega
  simp [DecodeRuneInString, hsize, hlo, hhi, e0, e1]

theorem DecodeRuneInString_three (b0 b1 b2 : Nat) (rest : Bytes)
    (h0 : 0xE0 ≤ b0) (h0' : b0 ≤ 0xEF) (h1 : 0x80 ≤ b1) (h1' : b1 ≤ 0xBF)
    (hlow : b0 = 0xE0 → 0xA0 ≤ b1) (hhigh : b0 = 0xED → b1 ≤ 0x9F)
    (h2 : 0x80 ≤ b2) (h2' : b2 ≤ 0xBF) :
    DecodeRuneInString (b0 :: b1 :: b2 :: rest) =
      ((b0 % 16) * 4096 + (b1 % 64) * 64 + b2 % 64, 3) := by
  have hsize : runeSize b0 = 3 := by
    unfold runeSize
    rw [if_neg (by omega), if_neg (by omega), if_neg (by omega), if_pos (by omega)]
  have hlo : acceptLo b0 ≤ b1 := by
    unfold acceptLo
    split
    · omega
    · rw [if_neg (by omega)]; omega
  have hhi : b1 ≤ acceptHi b0 := by
    unfold acceptHi
    split
    · omega
    · rw [if_neg (by omega)]; omega
  have e0 : ¬ b0 < 128 := by omega
  have e1 : ¬ (b1 < acceptLo b0 ∨ acceptHi b0 < b1) := by omega
  have e2 : ¬ (b2 < 128 ∨ 191 < b2) := by omega
  simp [DecodeRuneInString, hsize, e0, e1, e2]

theorem DecodeRuneInString_four (b0 b1 b2 b3 : Nat) (rest : Bytes)
    (h0 : 0xF0 ≤ b0) (h0' : b0 ≤ 0xF4) (h1 : 0x80 ≤ b1) (h1' : b1 ≤ 0xBF)
    (hlow : b0 = 0xF0 → 0x90 ≤ b1) (hhigh : b0 = 0xF4 → b1 ≤ 0x8F)
    (h2 : 0x80 ≤ b2) (h2' : b2 ≤ 0xBF) (h3 : 0x80 ≤ b3) (h3' : b3 ≤ 0xBF) :
    DecodeRuneInString (b0 :: b1 :: b2 :: b3 :: rest) =
      ((b0 % 8) * 262144 + (b1 % 64) * 4096 + (b2 % 64) * 64 + b3 % 64, 4) := by
  have hsize : runeSize b0 = 4 := by
    unfold runeSize
    rw [if_neg (by omega), if_neg (by omega), if_neg (by omega), if_neg (by omega),
      if_pos (by omega)]
  have hlo : acceptLo b0 ≤ b1 := by
    unfold acceptLo
    rw [if_neg (by omega)]
    split <;> omega
  have hhi : b1 ≤ acceptHi b0 := by
    unfold acceptHi
    rw [if_neg (by omega)]
    split <;> omega
  have e0 : ¬ b0 < 128 := by omega
  have e1 : ¬ (b1 < acceptLo b0 ∨ acceptHi b0 < b1) := by omega
  have e2 : ¬ (b2 < 128 ∨ 191 < b2) := by omega
  have e3 : ¬ (b3 < 128 ∨ 191 < b3) := by omega
  simp [DecodeRuneInString, hsize, e0, e1, e2, e3]

theorem utf8EncodeNat_two (b0 b1 : Nat)
    (h0 : 0xC2 ≤ b0) (h0' : b0 ≤ 0xDF) (h1 : 0x80 ≤ b1) (h1' : b1 ≤ 0xBF) :
    utf8EncodeNat ((b0 % 32) * 64 + b1 % 64) = [b0, b1] := by
  unfold utf8EncodeNat
  rw [if_neg (by omega), if_pos (by omega)]
  congr 1
  · omega
  · congr 1
    omega

theorem utf8EncodeNat_three (b0 b1 b2 : Nat)
    (h0 : 0xE0 ≤ b0) (h0' : b0 ≤ 0xEF) (h1 : 0x80 ≤ b1) (h1' : b1 ≤ 0xBF)
    (hlow : b0 = 0xE0 → 0xA0 ≤ b1) (h2 : 0x80 ≤ b2) (h2' : b2 ≤ 0xBF) :
    utf8EncodeNat ((b0 % 16) * 4096 + (b1 % 64) * 64 + b2 % 64) = [b0, b1, b2] := by
  unfold utf8EncodeNat
  rw [if_neg (by omega), if_neg (by omega), if_pos (by omega)]
  congr 1
  · omega
  · congr 1
    · omega
    · congr 1
      omega

theorem utf8EncodeNat_four (b0 b1 b2 b3 : Nat)
    (h0 : 0xF0 ≤ b0) (h0' : b0 ≤ 0xF4) (h1 : 0x80 ≤ b1) (h1' : b1 ≤ 0xBF)
    (hlow : b0 = 0xF0 → 0x90 ≤ b1) (h2 : 0x80 ≤ b2) (h2' : b2 ≤ 0xBF)
    (h3 : 0x80 ≤ b3) (h3' : b3 ≤ 0xBF) :
    utf8EncodeNat ((b0 % 8) * 262144 + (b1 % 64) * 4096 + (b2 % 64) * 64 + b3 % 64) =
      [b0, b1, b2, b3] := by
  unfold utf8EncodeNat
  rw [if_neg (by omega), if_neg (by omega), if_neg (by omega)]
  congr 1
  · omega
  · congr 1
    · omega
    · congr 1
      · omega
      · congr 1
        omega

theorem jsonStringRunesAux_wellFormed (s : Bytes) (hvalid : WellFormedUTF8 s) :
    ∀ fuel, s.length ≤ fuel →
      ((jsonStringRunesAux fuel s).map utf8EncodeNat).flatten = s := by
  induction hvalid with
  | nil =>
    intro fuel _
    cases fuel <;> simp [jsonStringRunesAux]
  | one b0 rest h0 _ ih =>
    intro fuel hfuel
    cases fuel with
    | zero => simp at hfuel
    | succ f =>
      have hrest := ih f (by simp only [List.length_cons] at hfuel; omega)
      have henc : utf8EncodeNat b0 = [b0] := by simp [utf8EncodeNat, h0]
      simp [jsonStringRunesAux, DecodeRuneInString_one b0 rest h0, henc, hrest]
  | two b0 b1 rest h0 h0' h1 h1' _ ih =>
    intro fuel hfuel
    cases fuel with
    | zero => simp at hfuel
    | succ f =>
      have hrest := ih f (by simp only [List.length_cons] at hfuel; omega)
      simp [jsonStringRunesAux, DecodeRuneInString_two b0 b1 rest h0 h0' h1 h1',
        utf8EncodeNat_two b0 b1 h0 h0' h1 h1', hrest]
  | three b0 b1 b2 rest h0 h0' h1 h1' hlow hhigh h2 h2' _ ih =>
    intro fuel hfuel
    cases fuel with
    | zero => simp at hfuel
    | succ f =>
      have hrest := ih f (by simp only [List.length_cons] at hfuel; omega)
      simp [jsonStringRunesAux,
        DecodeRuneInString_three b0 b1 b2 rest h0 h0' h1 h1' hlow hhigh h2 h2',
        utf8EncodeNat_three b0 b1 b2 h0 h0' h1 h1' hlow h2 h2', hrest]
  | four b0 b1 b2 b3 rest h0 h0' h1 h1' hlow hhigh h2 h2' h3 h3' _ ih =>
    intro fuel hfuel
    cases fuel with
    | zero => simp at hfuel
    | succ f =>
      have hrest := ih f (by simp only [List.length_cons] at hfuel; omega)
      simp [jsonStringRunesAux,
        DecodeRuneInString_four b0 b1 b2 b3 rest h0 h0' h1 h1' hlow hhigh h2 h2' h3 h3',
        utf8EncodeNat_four b0 b1 b2 b3 h0 h0' h1 h1' hlow h2 h2' h3 h3', hrest]

/-- The JSON string written for well-formed UTF-8 decodes to the same bytes. -/
theorem jsonDecodedBytes_wellFormed (s : Bytes) (hvalid : WellFormedUTF8 s) :
    jsonDecodedBytes s = s :=
  jsonStringRunesAux_wellFormed s hvalid s.length (Nat.le_refl _)

theorem WellFormedUTF8.append (u v : Bytes) (hu : WellFormedUTF8 u) (hv : WellFormedUTF8 v) :
    WellFormedUTF8 (u ++ v) := by
  induction hu with
  | nil => exact hv
  | one b0 rest h0 _ ih => exact .one b0 _ h0 ih
  | two b0 b1 rest h0 h0' h1 h1' _ ih => exact .two b0 b1 _ h0 h0' h1 h1' ih
  | three b0 b1 b2 rest h0 h0' h1 h1' hlow hhigh h2 h2' _ ih =>
    exact .three b0 b1 b2 _ h0 h0' h1 h1' hlow hhigh h2 h2' ih
  | four b0 b1 b2 b3 rest h0 h0' h1 h1' hlow hhigh h2 h2' h3 h3' _ ih =>
    exact .four b0 b1 b2 b3 _ h0 h0' h1 h1' hlow hhigh h2 h2' h3 h3' ih

/-- A first byte is of one of five kinds, by the length it announces. -/
theorem runeSize_cases (x : Nat) :
    (x < 0x80 ∧ runeSize x = 1) ∨
      ((0x80 ≤ x ∧ x < 0xC2 ∨ 0xF5 ≤ x) ∧ runeSize x = 0) ∨
      (0xC2 ≤ x ∧ x ≤ 0xDF ∧ runeSize x = 2) ∨
      (0xE0 ≤ x ∧ x ≤ 0xEF ∧ runeSize x = 3) ∨
      (0xF0 ≤ x ∧ x ≤ 0xF4 ∧ runeSize x = 4) := by
  unfold runeSize
  split_ifs <;> omega

/-- Either `DecodeRuneInString` reports an invalid byte, or the bytes start with a
well-formed sequence. -/
theorem DecodeRuneInString_invalid_or_prefix (x : Nat) (rest : Bytes) :
    DecodeRuneInString (x :: rest) = (RuneError, 1) ∨
      ∃ u v, u ≠ [] ∧ x :: rest = u ++ v ∧ WellFormedUTF8 u := by
  rcases runeSize_cases x with ⟨h0, -⟩ | ⟨h0, hsize⟩ | ⟨h0, h0', hsize⟩ | ⟨h0, h0', hsize⟩ |
      ⟨h0, h0', hsize⟩
  · exact Or.inr ⟨[x], rest, by simp, rfl, .one x [] h0 .nil⟩
  · left
    have e0 : ¬ x < 128 := by omega
    simp [DecodeRuneInString, e0, hsize]
  · have e0 : ¬ x < 128 := by omega
    have hlo : acceptLo x = 0x80 := by
      unfold acceptLo
      rw [if_neg (by omega), if_neg (by omega)]
    have hhi : acceptHi x = 0xBF := by
      unfold acceptHi
      rw [if_neg (by omega), if_neg (by omega)]
    cases rest with
    | nil => left; simp [DecodeRuneInString, e0, hsize]
    | cons s1 rest1 =>
      by_cases h1 : s1 < 0x80 ∨ 0xBF < s1
      · left
        simp [DecodeRuneInString, e0, hsize, hlo, hhi, h1]
      · exact Or.inr ⟨[x, s1], rest1, by simp, rfl,
          .two x s1 [] h0 h0' (by omega) (by omega) .nil⟩
  · have e0 : ¬ x < 128 := by omega
    cases rest with
    | nil => left; simp [DecodeRuneInString, e0, hsize]
    | cons s1 rest1 =>
      by_cases h1 : s1 < acceptLo x ∨ acceptHi x < s1
      · left
        simp [DecodeRuneInString, e0, hsize, h1]
      · cases rest1 with
        | nil => left; simp [DecodeRuneInString, e0, hsize, h1]
        | cons s2 rest2 =>
          by_cases h2 : s2 < 0x80 ∨ 0xBF < s2
          · left
            simp [DecodeRuneInString, e0, hsize, h1, h2]
          · have hlo : 0x80 ≤ acceptLo x ∧ (x = 0xE0 → acceptLo x = 0xA0) := by
              unfold acceptLo
              split_ifs <;> omega
            have hhi : acceptHi x ≤ 0xBF ∧ (x = 0xED → acceptHi x = 0x9F) := by
              unfold acceptHi
              split_ifs <;> omega
            exact Or.inr ⟨[x, s1, s2], rest2, by simp, rfl,
              .three x s1 s2 [] h0 h0' (by omega) (by omega)
                (fun hx => by have := hlo.2 hx; omega)
                (fun hx => by have := hhi.2 hx; omega) (by omega) (by omega) .nil⟩
  · have e0 : ¬ x < 128 := by omega
    cases rest with
    | nil => left; simp [DecodeRuneInString, e0, hsize]
    | cons s1 rest1 =>
      by_cases h1 : s1 < acceptLo x ∨ acceptHi x < s1
      · left
        simp [DecodeRuneInString, e0, hsize, h1]
      · cases rest1 with
        | nil => left; simp [DecodeRuneInString, e0, hsize, h1]
        | cons s2 rest2 =>
          by_cases h2 : s2 < 0x80 ∨ 0xBF < s2
          · left
            simp [DecodeRuneInString, e0, hsize, h1, h2]
          · cases rest2 with
            | nil => left; simp [DecodeRuneInString, e0, hsize, h1, h2]
            | cons s3 rest3 =>
              by_cases h3 : s3 < 0x80 ∨ 0xBF < s3
              · left
                simp [DecodeRuneInString, e0, hsize, h1, h2, h3]
              · have hlo : 0x80 ≤ acceptLo x ∧ (x = 0xF0 → acceptLo x = 0x90) := by
                  unfold acceptLo
                  split_ifs <;> omega
                have hhi : acceptHi x ≤ 0xBF ∧ (x = 0xF4 → acceptHi x = 0x8F) := by
                  unfold acceptHi
                  split_ifs <;> omega
                exact Or.inr ⟨[x, s1, s2, s3], rest3, by simp, rfl,
                  .four x s1 s2 s3 [] h0 h0' (by omega) (by omega)
                    (fun hx => by have := hlo.2 hx; omega)
                    (fun hx => by have := hhi.2 hx; omega) (by omega) (by omega) (by omega)
                    (by omega) .nil⟩

/-- The decoder consumes at least one byte of a non-empty string. -/
theorem DecodeRuneInString_width_pos (x : Nat) (rest : Bytes) :
    1 ≤ (DecodeRuneInString (x :: rest)).2 := by
  simp only [DecodeRuneInString]
  repeat' split
  all_goals simp

/-- The encoder loop does not depend on its fuel once there is enough of it. -/
theorem jsonStringRunesAux_fuel (n : Nat) :
    ∀ (s : Bytes) (fuel : Nat), s.length ≤ n → s.length ≤ fuel →
      jsonStringRunesAux fuel s = jsonStringRunesAux s.length s := by
  induction n with
  | zero =>
    intro s fuel hn _
    have hs : s = [] := List.length_eq_zero.1 (Nat.le_zero.1 hn)
    subst hs
    cases fuel <;> simp [jsonStringRunesAux]
  | succ n ih =>
    intro s fuel hn hfuel
    cases s with
    | nil => cases fuel <;> simp [jsonStringRunesAux]
    | cons x rest =>
      cases fuel with
      | zero => simp at hfuel
      | succ f =>
        have hpos := DecodeRuneInString_width_pos x rest
        have hlen : ((x :: rest).drop (DecodeRuneInString (x :: rest)).2).length ≤
            rest.length := by
          simp only [List.length_drop, List.length_cons]
          omega
        simp only [List.length_cons] at hn hfuel
        simp only [jsonStringRunesAux, List.length_cons]
        rw [ih _ f (by omega) (by omega), ih _ rest.length (by omega) hlen]

theorem jsonDecodedBytes_invalid_aux (w : Bytes) (hw : WellFormedUTF8 w) (x : Nat)
    (rest : Bytes) (hbad : DecodeRuneInString (x :: rest) = (RuneError, 1)) :
    ∀ fuel, (w ++ x :: rest).length ≤ fuel →
      ((jsonStringRunesAux fuel (w ++ x :: rest)).map utf8EncodeNat).flatten =
        w ++ [0xEF, 0xBF, 0xBD] ++ jsonDecodedBytes rest := by
  induction hw with
  | nil =>
    intro fuel hfuel
    cases fuel with
    | zero => simp at hfuel
    | succ f =>
      have hrest : jsonStringRunesAux f rest = jsonStringRunesAux rest.length rest :=
        jsonStringRunesAux_fuel rest.length rest f (Nat.le_refl _)
          (by simp only [List.nil_append, List.length_cons] at hfuel; omega)
      have henc : utf8EncodeNat RuneError = [0xEF, 0xBF, 0xBD] := by decide
      simp [jsonStringRunesAux, hbad, henc, hrest, jsonDecodedBytes, jsonStringRunes]
  | one b0 tail h0 _ ih =>
    intro fuel hfuel
    cases fuel with
    | zero => simp at hfuel
    | succ f =>
      have htail := ih f (by simp only [List.cons_append, List.length_cons] at hfuel; omega)
      have henc : utf8EncodeNat b0 = [b0] := by simp [utf8EncodeNat, h0]
      simp [jsonStringRunesAux, DecodeRuneInString_one b0 (tail ++ x :: rest) h0, henc,
        htail]
  | two b0 b1 tail h0 h0' h1 h1' _ ih =>
    intro fuel hfuel
    cases fuel with
    | zero => simp at hfuel
    | succ f =>
      have htail := ih f (by simp only [List.cons_append, List.length_cons] at hfuel; omega)
      simp [jsonStringRunesAux,
        DecodeRuneInString_two b0 b1 (tail ++ x :: rest) h0 h0' h1 h1',
        utf8EncodeNat_two b0 b1 h0 h0' h1 h1', htail]
  | three b0 b1 b2 tail h0 h0' h1 h1' hlow hhigh h2 h2' _ ih =>
    intro fuel hfuel
    cases fuel with
    | zero => simp at hfuel
    | succ f =>
      have htail := ih f (by simp only [List.cons_append, List.length_cons] at hfuel; omega)
      simp [jsonStringRunesAux,
        DecodeRuneInString_three b0 b1 b2 (tail ++ x :: rest) h0 h0' h1 h1' hlow hhigh h2 h2',
        utf8EncodeNat_three b0 b1 b2 h0 h0' h1 h1' hlow h2 h2', htail]
  | four b0 b1 b2 b3 tail h0 h0' h1 h1' hlow hhigh h2 h2' h3 h3' _ ih =>
    intro fuel hfuel
    cases fuel with
    | zero => simp at hfuel
    | succ f =>
      have htail := ih f (by simp only [List.cons_append, List.length_cons] at hfuel; omega)
      simp [jsonStringRunesAux,
        DecodeRuneInString_four b0 b1 b2 b3 (tail ++ x :: rest) h0 h0' h1 h1' hlow hhigh h2 h2'
          h3 h3',
        utf8EncodeNat_four b0 b1 b2 b3 h0 h0' h1 h1' hlow h2 h2' h3 h3', htail]

/-- A byte that begins no well-formed sequence is written as U+FFFD: the decoded data
is the well-formed part before it, the bytes EF BF BD, and the decoded rest. -/
theorem jsonDecodedBytes_invalid (w : Bytes) (x : Nat) (rest : Bytes)
    (hw : WellFormedUTF8 w)
    (hbad : ∀ u v, x :: rest = u ++ v → WellFormedUTF8 u → u = []) :
    jsonDecodedBytes (w ++ x :: rest) = w ++ [0xEF, 0xBF, 0xBD] ++ jsonDecodedBytes rest := by
  have hdec : DecodeRuneInString (x :: rest) = (RuneError, 1) := by
    rcases DecodeRuneInString_invalid_or_prefix x rest with h | ⟨u, v, hne, huv, hu⟩
    · exact h
    · exact absurd (hbad u v huv hu) hne
  exact jsonDecodedBytes_invalid_aux w hw x rest hdec _ (Nat.le_refl _)

/-- Every byte sequence is well-formed, or has a well-formed part followed by a byte
that begins no well-formed sequence. -/
theorem wellFormed_or_invalid_byte (n : Nat) :
    ∀ s : Bytes, s.length ≤ n →
      WellFormedUTF8 s ∨ ∃ w x rest, s = w ++ x :: rest ∧ WellFormedUTF8 w ∧
        ∀ u v, x :: rest = u ++ v → WellFormedUTF8 u → u = [] := by
  induction n with
  | zero =>
    intro s hn
    have hs : s = [] := List.length_eq_zero.1 (Nat.le_zero.1 hn)
    subst hs
    exact Or.inl .nil
  | succ n ih =>
    intro s hn
    cases s with
    | nil => exact Or.inl .nil
    | cons x rest =>
      by_cases hbad : ∀ u v, x :: rest = u ++ v → WellFormedUTF8 u → u = []
      · exact Or.inr ⟨[], x, rest, rfl, .nil, hbad⟩
      · push_neg at hbad
        obtain ⟨u, v, huv, hu, hne⟩ := hbad
        have hulen : 1 ≤ u.length := by
          cases u with
          | nil => exact absurd rfl hne
          | cons _ _ => simp
        have hvlen : v.length ≤ n := by
          have hlen := congrArg List.length huv
          simp only [List.length_cons, List.length_append] at hlen hn
          omega
        rcases ih v hvlen with hv | ⟨w, y, tail, hsplit, hw, hy⟩
        · left
          rw [huv]
          exact WellFormedUTF8.append u v hu hv
        · right
          refine ⟨u ++ w, y, tail, ?_, WellFormedUTF8.append u w hu hw, hy⟩
          rw [huv, hsplit, List.append_assoc]

/-- The decoded data equals the bytes sent exactly when they are well-formed UTF-8. -/
theorem jsonDecodedBytes_eq_iff (s : Bytes) : jsonDecodedBytes s = s ↔ WellFormedUTF8 s := by
  constructor
  · intro heq
    rcases wellFormed_or_invalid_byte s.length s (Nat.le_refl _) with hs |
        ⟨w, x, rest, hsplit, hw, hbad⟩
    · exact hs
    · exfalso
      rw [hsplit, jsonDecodedBytes_invalid w x rest hw hbad] at heq
      have hcut : [0xEF, 0xBF, 0xBD] ++ jsonDecodedBytes rest = x :: rest := by
        have := heq
        rw [List.append_assoc] at this
        exact List.append_cancel_left this
      have hpre : x :: rest = [0xEF, 0xBF, 0xBD] ++ jsonDecodedBytes rest := hcut.symm
      have hchar : WellFormedUTF8 [0xEF, 0xBF, 0xBD] :=
        .three 0xEF 0xBF 0xBD [] (by decide) (by decide) (by decide) (by decide)
          (by decide) (by decide) (by decide) (by decide) .nil
      have := hbad _ _ hpre hchar
      cases this
  · exact jsonDecodedBytes_wellFormed s

/-- C26, counterexample: a stream frame carries the single byte 0xFF, which is not
valid UTF-8. The read-pump sends the shell_output envelope of the payload whose data
is that Go string; the JSON string written for it holds U+FFFD, so decoding the data
field gives the bytes EF BF BD, not FF. The same happens to the two bytes of a
two-byte character that arrive in two frames. -/
theorem shell_output_invalid_bytes_replaced :
    (Demo.active.readTunnelDataIter Demo.json Demo.session
        (.data { TunnelID := 7, SessionID := "abc", Data := [0xFF], Closed := false })).1.sent =
        [envelope Demo.json TypeShellOutput
          (.shellOutput { SessionID := "abc", TunnelID := 7, Data := [0xFF] })] ∧
      jsonStringRunes [0xFF] = [0xFFFD] ∧
      jsonDecodedBytes [0xFF] = [0xEF, 0xBF, 0xBD] ∧
      jsonDecodedBytes [0xFF] ≠ [0xFF] ∧
      jsonDecodedBytes [0xC3, 0xA9] = [0xC3, 0xA9] ∧
      jsonDecodedBytes [0xC3] ++ jsonDecodedBytes [0xA9] ≠ [0xC3, 0xA9] := by
  decide

/-- C26, amended: for every byte sequence b received in a stream frame without the
closed flag, the read-pump sends one shell_output envelope whose payload data is b taken
as a string. Decoding the JSON string written for that data and taking its bytes yields
exactly b if and only if b is well-formed UTF-8. Otherwise b is a well-formed part w, a
byte x that begins no well-formed sequence, and a remainder, and the decoded bytes are
w, then EF BF BD (U+FFFD) in place of x, then the decoded bytes of the remainder. -/
theorem shell_output_roundtrip_utf8 (c : Client) (j : Json) (session : ShellSession)
    (frame : TunnelData) (hplain : frame.Closed = false) :
    (c.readTunnelDataIter j session (.data frame)).1.sent =
        c.sent ++ [envelope j TypeShellOutput
          (.shellOutput { SessionID := session.SessionID, TunnelID := session.TunnelID,
                          Data := frame.Data })] ∧
      (jsonDecodedBytes frame.Data = frame.Data ↔ WellFormedUTF8 frame.Data) ∧
      (∀ w x rest, frame.Data = w ++ x :: rest → WellFormedUTF8 w →
        (∀ u v, x :: rest = u ++ v → WellFormedUTF8 u → u = []) →
        jsonDecodedBytes frame.Data = w ++ [0xEF, 0xBF, 0xBD] ++ jsonDecodedBytes rest) ∧
      (WellFormedUTF8 frame.Data ∨
        ∃ w x rest, frame.Data = w ++ x :: rest ∧ WellFormedUTF8 w ∧
          ∀ u v, x :: rest = u ++ v → WellFormedUTF8 u → u = []) := by
  refine ⟨?_, jsonDecodedBytes_eq_iff frame.Data, ?_,
    wellFormed_or_invalid_byte frame.Data.length frame.Data (Nat.le_refl _)⟩
  · simp [Client.readTunnelDataIter, hplain, sent_sendMessage]
  · intro w x rest hsplit hw hbad
    rw [hsplit]
    exact jsonDecodedBytes_invalid w x rest hw hbad

theorem shell_output_roundtrip_utf8_witness :
    (({ TunnelID := 7, SessionID := "abc", Data := [0x68, 0xFF, 0x69], Closed := false } :
        TunnelData).Closed = false) ∧
      (Demo.active.readTunnelDataIter Demo.json Demo.session
        (.data { TunnelID := 7, SessionID := "abc", Data := [0x68, 0xFF, 0x69],
                 Closed := false })).1.sent =
        Demo.active.sent ++ [envelope Demo.json TypeShellOutput
          (.shellOutput { SessionID := "abc", TunnelID := 7, Data := [0x68, 0xFF, 0x69] })] ∧
      WellFormedUTF8 [0x68] ∧
      (∀ u v, 0xFF :: [0x69] = u ++ v → WellFormedUTF8 u → u = []) ∧
      jsonDecodedBytes [0x68, 0xFF, 0x69] =
        [0x68] ++ [0xEF, 0xBF, 0xBD] ++ jsonDecodedBytes [0x69] ∧
      ¬ WellFormedUTF8 [0x68, 0xFF, 0x69] :=
  have hw : WellFormedUTF8 [0x68] := .one 0x68 [] (by decide) .nil
  have hbad : ∀ u v, 0xFF :: [0x69] = u ++ v → WellFormedUTF8 u → u = [] := by
    intro u v huv hu
    cases hu with
    | nil => rfl
    | one b0 rest h0 _ =>
      simp only [List.cons_append, List.cons.injEq] at huv
      omega
    | two b0 b1 rest h0 h0' _ _ _ =>
      simp only [List.cons_append, List.cons.injEq] at huv
      omega
    | three b0 b1 b2 rest h0 h0' _ _ _ _ _ _ _ =>
      simp only [List.cons_append, List.cons.injEq] at huv
      omega
    | four b0 b1 b2 b3 rest h0 h0' _ _ _ _ _ _ _ _ _ =>
      simp only [List.cons_append, List.cons.injEq] at huv
      omega
  have hframe := shell_output_roundtrip_utf8 Demo.active Demo.json Demo.session
    { TunnelID := 7, SessionID := "abc", Data := [0x68, 0xFF, 0x69], Closed := false } rfl
  ⟨rfl, hframe.1, hw, hbad, hframe.2.2.1 [0x68] 0xFF [0x69] rfl hw hbad,
    fun hvalid => absurd (hframe.2.1.2 hvalid) (by decide)⟩

/-! ## Sends on a closed outbound queue -/

/-- A task step that performs a send while the queue of its client is closed panics. -/
theorem Hub.runTask_closed (h : Hub) (client : Nat) (task : Client → Client)
    (hclosed : (h.chans client).closed = true)
    (hsent : sentOf ((task (h.heap client)).trace.drop (h.heap client).trace.length) ≠ []) :
    h.runTask client task =
      .panicked { h with heap := Function.update h.heap client (task (h.heap client)) } := by
  cases hms : sentOf ((task (h.heap client)).trace.drop (h.heap client).trace.length) with
  | nil => exact absurd hms hsent
  | cons m ms => simp [Hub.runTask, hms, Chan.deliver, Chan.send, hclosed]

/-- C27, the code at a failing input. Client 2 is registered with a full queue and owns
the session "xyz". A broadcast evicts it and closes its queue; the session and its
read-pump stay (no cancellation is invoked). The next frame of shell output makes the
read-pump send on the closed queue, and so does a ping handled by the inbound task
before the socket is closed: both steps panic. In the same way client 1 is unregistered
and its queue closed; a read-pump of it that had already received a frame sends on the
closed queue and panics. -/
theorem send_on_closed_queue_after_eviction :
    (∃ h2, Demo.fullHub.run (.broadcast [9]) = some h2 ∧
        (h2.chans 2).closed = true ∧
        (∃ s, mapGet (h2.heap 2).shellSessions "xyz" = some s ∧
          ∃ h3, h2.runTask 2
            (fun c => (c.readTunnelDataIter Demo.json s (.data Demo.frame)).1) =
              .panicked h3) ∧
        (∃ h3, h2.runTask 2
            (fun c => c.handleMessage Demo.json Demo.rpc
              { MsgType := "ping", Payload := Demo.inputPayload }) = .panicked h3)) ∧
      (∃ h2, Demo.hub.run (.unregister 1) = some h2 ∧
        (h2.chans 1).closed = true ∧
        ∃ h3, h2.runTask 1
            (fun c => (c.readTunnelDataIter Demo.json Demo.session (.data Demo.frame)).1) =
              .panicked h3) := by
  constructor
  · obtain ⟨h2, hfold, -, hch, hheap, -⟩ :=
      Hub.broadcast_fold [9] Demo.fullHub.clients Demo.fullHub (by decide) (fun _ hq => hq)
        Demo.fullHub_registeredOpen
    have hfull : sendCap ≤ (Demo.fullHub.chans 2).buf.length := by
      simp [Demo.fullHub, sendCap, Demo.fullQueue_length]
    have hmem : 2 ∈ Demo.fullHub.clients := by decide
    have hclient : h2.heap 2 = (Demo.fullHub.heap 2).emit .chanClose := by
      rw [hheap 2]; simp [hmem, hfull]
    have hclosed : (h2.chans 2).closed = true := by
      rw [hch 2]; simp [hmem, Nat.not_lt.2 hfull]
    refine ⟨h2, hfold, hclosed,
      ⟨⟨"xyz", 9, some 2, some 0⟩, by rw [hclient]; rfl, ?_⟩, ?_⟩
    · exact ⟨_, Hub.runTask_closed h2 2 _ hclosed (by rw [hclient]; decide)⟩
    · exact ⟨_, Hub.runTask_closed h2 2 _ hclosed (by rw [hclient]; decide)⟩
  · have hrun : Demo.hub.run (.unregister 1) =
        some { Demo.hub with
          clients := Demo.hub.clients.filter (fun p => p ≠ 1)
          chans := Function.update Demo.hub.chans 1 { buf := [], closed := true }
          heap := Function.update Demo.hub.heap 1
            (((Demo.hub.heap 1).emit .chanClose).cleanupShellSessions) } := by
      simp [Hub.run, Chan.close, Demo.hub]
    refine ⟨_, hrun, by simp, ?_⟩
    exact ⟨_, Hub.runTask_closed _ 1 _ (by simp) (by simp; decide)⟩

/-! ## Locality of session operations -/

theorem mapGet_mapDelete_ne (m : List (String × ShellSession)) (key k2 : String)
    (hne : k2 ≠ key) : mapGet (mapDelete m key) k2 = mapGet m k2 := by
  induction m with
  | nil => rfl
  | cons kv rest ih =>
    obtain ⟨k, v⟩ := kv
    by_cases hk : k = key
    · have hk2 : ¬ k = k2 := fun h => hne (h ▸ hk)
      have hfil : mapDelete ((k, v) :: rest) key = mapDelete rest key := by
        simp [mapDelete, hk]
      rw [hfil, ih]
      simp [mapGet, hk2]
    · have hfil : mapDelete ((k, v) :: rest) key = (k, v) :: mapDelete rest key := by
        simp [mapDelete, hk]
      rw [hfil]
      by_cases hk2 : k = k2
      · simp [mapGet, hk2]
      · simp [mapGet, hk2, ih]

theorem mapGet_mapSet_ne (m : List (String × ShellSession)) (key k2 : String)
    (v : ShellSession) (hne : k2 ≠ key) : mapGet (mapSet m key v) k2 = mapGet m k2 := by
  have hk : ¬ key = k2 := fun h => hne h.symm
  simp [mapSet, mapGet, hk, mapGet_mapDelete_ne m key k2 hne]

theorem handleShellStart_other_key (c : Client) (j : Json) (rpc : SliverRPC)
    (payload : RawMessage) (k2 : String)
    (hkey : ∀ req, j.unmarshalShellStart payload = some req → k2 ≠ req.SessionID) :
    mapGet (c.handleShellStart j rpc payload).shellSessions k2 =
      mapGet c.shellSessions k2 := by
  unfold Client.handleShellStart
  split
  · rfl
  · rename_i req hreq
    have hne := hkey req hreq
    simp only []
    split
    · rfl
    · split
      · rfl
      · split
        · rfl
        · split
          · rfl
          · split
            · rfl
            · simp [Client.sendMessage, Client.emit, mapGet_mapSet_ne _ _ _ _ hne]

theorem handleShellInput_shellSessions (c : Client) (j : Json) (rpc : SliverRPC)
    (payload : RawMessage) :
    (c.handleShellInput j rpc payload).shellSessions = c.shellSessions := by
  unfold Client.handleShellInput
  split
  · rfl
  · split
    · rfl
    · simp only []
      split <;> rfl

theorem handleShellStop_other_key (c : Client) (j : Json) (rpc : SliverRPC)
    (payload : RawMessage) (k2 : String)
    (hkey : ∀ req, j.unmarshalShellInput payload = some req → k2 ≠ req.SessionID) :
    mapGet (c.handleShellStop j rpc payload).shellSessions k2 =
      mapGet c.shellSessions k2 := by
  unfold Client.handleShellStop
  split
  · rfl
  · rename_i req hreq
    have hne := hkey req hreq
    simp only []
    split
    · rename_i session _
      cases session.cancel <;>
        simp only [] <;> split <;>
        simp [Client.sendMessage, Client.emit, mapGet_mapDelete_ne _ _ _ hne]
    · rfl

theorem readTunnelDataIter_shellSessions (c : Client) (j : Json) (session : ShellSession)
    (r : RecvResult) :
    (c.readTunnelDataIter j session r).1.shellSessions = c.shellSessions := by
  unfold Client.readTunnelDataIter
  split
  · rfl
  · split <;> rfl
  · split <;> rfl

theorem readTunnelData_other_key (j : Json) (session : ShellSession) (k2 : String)
    (hne : k2 ≠ session.SessionID) (rs : List RecvResult) (c : Client) :
    mapGet (c.readTunnelData j session rs).1.shellSessions k2 =
      mapGet c.shellSessions k2 := by
  induction rs generalizing c with
  | nil => rfl
  | cons r rs ih =>
    unfold Client.readTunnelData
    simp only []
    split
    · rw [ih, readTunnelDataIter_shellSessions]
    · simp [mapGet_mapDelete_ne _ _ _ hne, readTunnelDataIter_shellSessions]

theorem handleFileDownload_shellSessions (c : Client) (j : Json) (rpc : SliverRPC)
    (payload : RawMessage) :
    (c.handleFileDownload j rpc payload).shellSessions = c.shellSessions := by
  unfold Client.handleFileDownload
  repeat (first | rfl | split | simp only [])

theorem handleFileUpload_shellSessions (c : Client) (j : Json) (rpc : SliverRPC)
    (payload : RawMessage) :
    (c.handleFileUpload j rpc payload).shellSessions = c.shellSessions := by
  unfold Client.handleFileUpload
  repeat (first | rfl | split | simp only [])

theorem handleShellStart_no_hub_request (c : Client) (j : Json) (rpc : SliverRPC)
    (payload : RawMessage) :
    ∀ e ∈ (c.handleShellStart j rpc payload).trace.drop c.trace.length,
      e.isHubRequest = false := by
  unfold Client.handleShellStart
  simp only [Client.sendError, Client.sendMessage, Client.emit]
  repeat' split
  all_goals simp [Client.sendError, Client.sendMessage, Client.emit, Event.isHubRequest]

theorem handleShellInput_no_hub_request (c : Client) (j : Json) (rpc : SliverRPC)
    (payload : RawMessage) :
    ∀ e ∈ (c.handleShellInput j rpc payload).trace.drop c.trace.length,
      e.isHubRequest = false := by
  unfold Client.handleShellInput
  simp only [Client.sendError, Client.sendMessage, Client.emit]
  repeat' split
  all_goals simp [Client.sendError, Client.sendMessage, Client.emit, Event.isHubRequest]

theorem handleShellStop_no_hub_request (c : Client) (j : Json) (rpc : SliverRPC)
    (payload : RawMessage) :
    ∀ e ∈ (c.handleShellStop j rpc payload).trace.drop c.trace.length,
      e.isHubRequest = false := by
  unfold Client.handleShellStop
  simp only [Client.sendError, Client.sendMessage, Client.emit]
  repeat' split
  all_goals simp [Client.sendError, Client.sendMessage, Client.emit, Event.isHubRequest]

theorem handleFileDownload_no_hub_request (c : Client) (j : Json) (rpc : SliverRPC)
    (payload : RawMessage) :
    ∀ e ∈ (c.handleFileDownload j rpc payload).trace.drop c.trace.length,
      e.isHubRequest = false := by
  unfold Client.handleFileDownload
  simp only [Client.sendError, Client.sendMessage, Client.emit]
  repeat' split
  all_goals simp [Client.sendError, Client.sendMessage, Client.emit, Event.isHubRequest]

theorem handleFileUpload_no_hub_request (c : Client) (j : Json) (rpc : SliverRPC)
    (payload : RawMessage) :
    ∀ e ∈ (c.handleFileUpload j rpc payload).trace.drop c.trace.length,
      e.isHubRequest = false := by
  unfold Client.handleFileUpload
  simp only [Client.sendError, Client.sendMessage, Client.emit]
  repeat' split
  all_goals simp [Client.sendError, Client.sendMessage, Client.emit, Event.isHubRequest]

/-- No handler asks the hub to unregister its client or closes the outbound queue. -/
theorem handleMessage_no_hub_request (c : Client) (j : Json) (rpc : SliverRPC)
    (msg : WSMessage) :
    ∀ e ∈ (c.handleMessage j rpc msg).trace.drop c.trace.length,
      e.isHubRequest = false := by
  unfold Client.handleMessage
  split
  · simp [Client.sendPong, Client.sendMessage, Client.emit, Event.isHubRequest]
  split
  · exact handleShellStart_no_hub_request c j rpc msg.Payload
  split
  · exact handleShellInput_no_hub_request c j rpc msg.Payload
  split
  · exact handleShellStop_no_hub_request c j rpc msg.Payload
  split
  · exact handleFileDownload_no_hub_request c j rpc msg.Payload
  split
  · exact handleFileUpload_no_hub_request c j rpc msg.Payload
  · simp [Client.sendError, Client.sendMessage, Client.emit, Event.isHubRequest]

/-- C30: session operations are local to their key and their connection. For two keys
k2 ≠ k, a shell_start whose payload names k, any shell_input, a shell_stop whose payload
names k, and a run of the read-pump of a session with key k (whether it exits or not)
leave the session-map entry of k2 as it was. A handler run by the client at address
`client` for any inbound message leaves the registry of the hub, and the session map,
state and outbound queue of every other client, as they were, and it neither asks the
hub to unregister its client nor closes a queue. -/
theorem session_operations_local (c : Client) (j : Json) (rpc : SliverRPC)
    (startPayload inputPayload stopPayload : RawMessage) (session : ShellSession)
    (rs : List RecvResult) (h : Hub) (client : Nat) (msg : WSMessage) (k k2 : String)
    (hne : k2 ≠ k)
    (hstart : ∀ req, j.unmarshalShellStart startPayload = some req → req.SessionID = k)
    (hstop : ∀ req, j.unmarshalShellInput stopPayload = some req → req.SessionID = k)
    (hsession : session.SessionID = k) :
    mapGet (c.handleShellStart j rpc startPayload).shellSessions k2 =
        mapGet c.shellSessions k2 ∧
      mapGet (c.handleShellInput j rpc inputPayload).shellSessions k2 =
        mapGet c.shellSessions k2 ∧
      mapGet (c.handleShellStop j rpc stopPayload).shellSessions k2 =
        mapGet c.shellSessions k2 ∧
      mapGet (c.readTunnelData j session rs).1.shellSessions k2 =
        mapGet c.shellSessions k2 ∧
      (h.runTask client (fun c => c.handleMessage j rpc msg)).hub.clients = h.clients ∧
      (∀ q, q ≠ client →
        ((h.runTask client (fun c => c.handleMessage j rpc msg)).hub.heap q).shellSessions =
            (h.heap q).shellSessions ∧
          (h.runTask client (fun c => c.handleMessage j rpc msg)).hub.heap q = h.heap q ∧
          (h.runTask client (fun c => c.handleMessage j rpc msg)).hub.chans q = h.chans q) ∧
      ∀ e ∈ ((h.heap client).handleMessage j rpc msg).trace.drop (h.heap client).trace.length,
        e.isHubRequest = false := by
  refine ⟨?_, ?_, ?_, ?_, ?_, ?_, handleMessage_no_hub_request _ j rpc msg⟩
  · exact handleShellStart_other_key c j rpc startPayload k2
      (fun req hreq => by rw [hstart req hreq]; exact hne)
  · rw [handleShellInput_shellSessions]
  · exact handleShellStop_other_key c j rpc stopPayload k2
      (fun req hreq => by rw [hstop req hreq]; exact hne)
  · exact readTunnelData_other_key j session k2 (by rw [hsession]; exact hne) rs c
  · unfold Hub.runTask
    simp only []
    split <;> rfl
  · intro q hq
    unfold Hub.runTask
    simp only []
    split <;> simp [TaskResult.hub, Function.update, hq]

theorem session_operations_local_witness :
    ("xyz" ≠ "abc") ∧
      (∀ req, Demo.json.unmarshalShellStart Demo.startPayload = some req →
        req.SessionID = "abc") ∧
      (∀ req, Demo.json.unmarshalShellInput Demo.inputPayload = some req →
        req.SessionID = "abc") ∧
      Demo.session.SessionID = "abc" ∧
      mapGet (Demo.twoSessions.handleShellStart Demo.json Demo.rpc
          Demo.startPayload).shellSessions "xyz" =
        mapGet Demo.twoSessions.shellSessions "xyz" ∧
      mapGet (Demo.twoSessions.handleShellStop Demo.json Demo.rpc
          Demo.inputPayload).shellSessions "xyz" =
        mapGet Demo.twoSessions.shellSessions "xyz" ∧
      mapGet (Demo.twoSessions.readTunnelData Demo.json Demo.session
          [.data Demo.frame, .eof]).1.shellSessions "xyz" =
        mapGet Demo.twoSessions.shellSessions "xyz" ∧
      (Demo.hub.runTask 1 (fun c => c.handleMessage Demo.json Demo.rpc
          { MsgType := "shell_stop", Payload := Demo.inputPayload })).hub.clients =
        Demo.hub.clients :=
  have hstart : ∀ req, Demo.json.unmarshalShellStart Demo.startPayload = some req →
      req.SessionID = "abc" := by
    intro req hreq
    have hdec : Demo.json.unmarshalShellStart Demo.startPayload =
        some { SessionID := "abc", Path := "", Pty := true } := by decide
    rw [hdec] at hreq
    cases hreq
    rfl
  have hstop : ∀ req, Demo.json.unmarshalShellInput Demo.inputPayload = some req →
      req.SessionID = "abc" := by
    intro req hreq
    have hdec : Demo.json.unmarshalShellInput Demo.inputPayload =
        some { SessionID := "abc", TunnelID := 7, Data := "ls\n" } := by decide
    rw [hdec] at hreq
    cases hreq
    rfl
  have hlocal := session_operations_local Demo.twoSessions Demo.json Demo.rpc
    Demo.startPayload Demo.inputPayload Demo.inputPayload Demo.session
    [.data Demo.frame, .eof] Demo.hub 1
    { MsgType := "shell_stop", Payload := Demo.inputPayload } "abc" "xyz" (by decide)
    hstart hstop rfl
  ⟨by decide, hstart, hstop, rfl, hlocal.1, hlocal.2.2.1, hlocal.2.2.2.1, hlocal.2.2.2.2.1⟩

end Sliver
